import Mathlib

/-!
# AlphaPlot column engine: `src/core/column/Column.cpp`

A shallow embedding of `Column` (the undo-aware data column of AlphaPlot) and of its
XML persistence (`Column::save`, `Column::load`, `Column::XmlRead*`).

* `Column.cpp` is embedded function by function; every definition that embeds one of
  its functions carries the function's name.
* `ColumnPrivate`, the command classes of `columncommands.h`, `Interval`,
  `IntervalAttribute` and the undo stack of `AbstractAspect` are not part of the
  available sources.  Their definitions below follow the specification and say so.
* `QString`, `QXmlStreamReader` and `QXmlStreamWriter` belong to Qt.  The reader is a cursor
  over the sequence of XML events of the document; text conversions of floating point
  numbers and of timestamps are kept abstract in `Externals`.  `number_e` gives
  `QString::number(v, 'e', precision)` for where the digits written matter, and
  `QDateTime.ofDateAndTime` the constructor `QDateTime(date, time)`.
* `Q_ASSERT` and `Q_CHECK_PTR` are not embedded: they do nothing in a release build, and
  the assertions at the head of the `XmlRead*` functions hold by the dispatch in `load`.
* Signals (`dataChanged` and the like) are not embedded; they do not act on the column.
-/

namespace AlphaPlot

/-! ## Qt strings -/

/-- White space skipped by `QString::toInt` around the number. -/
def isSpace (c : Char) : Bool :=
  c = ' ' || c = '\t' || c = '\n' || c = '\r' || c = '\x0b' || c = '\x0c'

/-- Value of a run of decimal digits, `none` when a character is not a digit. -/
def digitsVal : List Char → Nat → Option Nat
  | [], acc => some acc
  | c :: cs, acc => if c.isDigit then digitsVal cs (acc * 10 + (c.toNat - 48)) else none

/-- Strip leading and trailing white space. -/
def trimmed (cs : List Char) : List Char :=
  ((cs.dropWhile isSpace).reverse.dropWhile isSpace).reverse

/-- The integer denoted by a string: optional white space around an optional
sign and at least one decimal digit; `none` when the text is not of that form. -/
def parseInt (s : String) : Option Int :=
  match trimmed s.toList with
  | [] => none
  | '-' :: ds => if ds.isEmpty then none else (digitsVal ds 0).map (fun n => - (n : Int))
  | '+' :: ds => if ds.isEmpty then none else (digitsVal ds 0).map (fun n => (n : Int))
  | ds => (digitsVal ds 0).map (fun n => (n : Int))

/-- `QString::toInt(&ok)`: the value and the flag `ok`.  The value is `0` when the
conversion fails, which includes a number outside the range of a 32 bit `int`. -/
def toInt (s : String) : Int × Bool :=
  match parseInt s with
  | some n => if -2147483648 ≤ n ∧ n ≤ 2147483647 then (n, true) else (0, false)
  | none => (0, false)

/-- `QString::number(int)`: decimal text of an integer. -/
def number (n : Int) : String := toString n

/-! ## Values stored in a column -/

/-- An IEEE double, identified by its 64 bit pattern.  No arithmetic is done on cell
values by `Column.cpp`; they are stored, read back, printed and parsed. -/
structure QDouble where
  bits : Nat
deriving DecidableEq, Repr

/-- `QDate`: a Julian day number, or the null date. -/
structure QDate where
  jd : Option Int
deriving DecidableEq, Repr

/-- `QTime`: milliseconds since midnight, or the null time. -/
structure QTime where
  mds : Option Nat
deriving DecidableEq, Repr

/-- `QDateTime(date, time)`. -/
structure QDateTime where
  date : QDate
  time : QTime
deriving DecidableEq, Repr

/-- The default constructed `QDateTime()`: null date and null time. -/
def QDateTime.null : QDateTime := ⟨⟨none⟩, ⟨none⟩⟩

/-- `QDate::isValid()`: the null date is the one date that is not valid. -/
def QDate.isValid (d : QDate) : Bool := d.jd.isSome

/-- `QTime::isValid()`: the null time is the one time that is not valid. -/
def QTime.isValid (t : QTime) : Bool := t.mds.isSome

/-- `QTime(0, 0, 0)`, midnight. -/
def QTime.midnight : QTime := ⟨some 0⟩

/-- The constructor `QDateTime(const QDate &, const QTime &)` of Qt: if the date is valid
and the time is not, the time is set to midnight. -/
def QDateTime.ofDateAndTime (date : QDate) (time : QTime) : QDateTime :=
  ⟨date, if date.isValid && !time.isValid then QTime.midnight else time⟩

/-- The value `0.0`. -/
def QDouble.zero : QDouble := ⟨0⟩

/-! ## `QString::number` for doubles

`QString::number(v, 'e', precision)` of Qt: scientific notation with one digit before the
decimal point and `precision` digits after it, the value correctly rounded; an exponent
of two digits at least; `inf`, `-inf` and `nan` for the values that are not finite. -/

namespace QDouble

/-- The sign bit of the bit pattern. -/
def negative (v : QDouble) : Bool := decide ((v.bits / 2 ^ 63) % 2 = 1)

/-- The eleven bits of the biased exponent. -/
def exponentBits (v : QDouble) : Nat := (v.bits / 2 ^ 52) % 2048

/-- The fifty-two bits of the fraction. -/
def fractionBits (v : QDouble) : Nat := v.bits % 2 ^ 52

/-- Neither an infinity nor a NaN. -/
def isFinite (v : QDouble) : Bool := decide (v.exponentBits < 2047)

/-- The absolute value of a finite double as a fraction: numerator and denominator. -/
def magnitude (v : QDouble) : Nat × Nat :=
  if v.exponentBits = 0 then (v.fractionBits, 2 ^ 1074)
  else if 1075 ≤ v.exponentBits then ((2 ^ 52 + v.fractionBits) * 2 ^ (v.exponentBits - 1075), 1)
  else (2 ^ 52 + v.fractionBits, 2 ^ (1075 - v.exponentBits))

end QDouble

/-- The quotient `a / b` rounded to the nearest integer, a tie to the even one. -/
def roundHalfEven (a b : Nat) : Nat :=
  if 2 * (a % b) < b then a / b
  else if b < 2 * (a % b) then a / b + 1
  else if (a / b) % 2 = 0 then a / b else a / b + 1

/-- For `den ≤ num`: the largest `k`, up to `fuel`, with `den * 10 ^ k ≤ num`. -/
def expUp : Nat → Nat → Nat → Nat
  | 0, _, _ => 0
  | fuel + 1, num, den => if den * 10 ≤ num then expUp fuel num (den * 10) + 1 else 0

/-- For `num < den`: the least `k`, up to `fuel`, with `den ≤ num * 10 ^ k`. -/
def expDown : Nat → Nat → Nat → Nat
  | 0, _, _ => 0
  | fuel + 1, num, den => if den ≤ num then 0 else expDown fuel (num * 10) den + 1

/-- The fraction `num / den`, which is not zero, in scientific notation with `precision`
digits after the decimal point: the significand as an integer of `precision + 1` digits,
correctly rounded, and the decimal exponent. -/
def scientific (precision num den : Nat) : Nat × Int :=
  if den ≤ num then
    let k := expUp 400 num den
    let n := roundHalfEven (num * 10 ^ precision) (den * 10 ^ k)
    if 10 ^ (precision + 1) ≤ n then (n / 10, (k : Int) + 1) else (n, (k : Int))
  else
    let k := expDown 400 num den
    let n := roundHalfEven (num * 10 ^ (precision + k)) den
    if 10 ^ (precision + 1) ≤ n then (n / 10, 1 - (k : Int)) else (n, - (k : Int))

/-- The digits of a significand of `precision + 1` digits. -/
def significandDigits (precision n : Nat) : List Char :=
  (List.range (precision + 1)).map (fun j => Nat.digitChar ((n / 10 ^ (precision - j)) % 10))

/-- The exponent part: a sign and two digits at least. -/
def exponentDigits (k : Int) : List Char :=
  (if k < 0 then '-' else '+') ::
    (if k.natAbs < 10 then ['0', Nat.digitChar k.natAbs] else Nat.toDigits 10 k.natAbs)

/-- Significand and decimal exponent of a finite double. -/
def QDouble.scientific (v : QDouble) (precision : Nat) : Nat × Int :=
  if v.magnitude.1 = 0 then (0, 0) else AlphaPlot.scientific precision v.magnitude.1 v.magnitude.2

/-- `QString::number(v, 'e', precision)`. -/
def number_e (v : QDouble) (precision : Nat) : String :=
  if v.exponentBits = 2047 then
    if v.fractionBits = 0 then (if v.negative then "-inf" else "inf") else "nan"
  else
    String.mk
      ((if v.negative then ['-'] else []) ++
        (significandDigits precision (v.scientific precision).1).take 1 ++
        (if precision = 0 then []
          else '.' :: (significandDigits precision (v.scientific precision).1).drop 1) ++
        'e' :: exponentDigits (v.scientific precision).2)

/-! ## Enumerations of namespace `SciDAVis` -/

/-- `SciDAVis::ColumnDataType`, the enumerants named in `Column.cpp`. -/
inductive ColumnDataType
  | TypeDouble
  | TypeQString
  | TypeQDateTime
deriving DecidableEq, Repr

/-- `SciDAVis::ColumnMode`, the enumerants named in `Column.cpp`. -/
inductive ColumnMode
  | Numeric
  | Text
  | DateTime
deriving DecidableEq, Repr

/-- Modelled from the spec: `SciDAVis::PlotDesignation`, whose declaration is not among the
sources.  The spec lists the plot roles None, X, Y, Z, XError, YError, Label;
`Column.cpp` calls the first one `noDesignation`. -/
inductive PlotDesignation
  | noDesignation
  | X
  | Y
  | Z
  | XError
  | YError
  | Label
deriving DecidableEq, Repr

/-- The data type that goes with a column mode, as paired by the constructors of
`Column` (`TypeDouble` with `Numeric`, `TypeQString` with `Text`, `TypeQDateTime` with
`DateTime`). -/
def ColumnMode.dataType : ColumnMode → ColumnDataType
  | .Numeric => .TypeDouble
  | .Text => .TypeQString
  | .DateTime => .TypeQDateTime

/-- Modelled from the spec: `SciDAVis::enumValueToString(v, "ColumnDataType")`, missing from the
sources.  The spec gives the persisted names `Double`, `QString`, `QDateTime`. -/
def ColumnDataType.enumValueToString : ColumnDataType → String
  | .TypeDouble => "Double"
  | .TypeQString => "QString"
  | .TypeQDateTime => "QDateTime"

/-- Modelled from the spec: `SciDAVis::enumStringToValue(str, "ColumnDataType")`, the inverse
table; `none` stands for the result `-1` of an unknown name. -/
def ColumnDataType.enumStringToValue (str : String) : Option ColumnDataType :=
  if str = "Double" then some .TypeDouble
  else if str = "QString" then some .TypeQString
  else if str = "QDateTime" then some .TypeQDateTime
  else none

/-- Modelled from the spec: `SciDAVis::enumValueToString(v, "ColumnMode")`; the spec asks for a
bidirectional table per enumeration, the names are those of the enumerants. -/
def ColumnMode.enumValueToString : ColumnMode → String
  | .Numeric => "Numeric"
  | .Text => "Text"
  | .DateTime => "DateTime"

/-- Modelled from the spec: `SciDAVis::enumStringToValue(str, "ColumnMode")`; `none` stands
for `-1`. -/
def ColumnMode.enumStringToValue (str : String) : Option ColumnMode :=
  if str = "Numeric" then some .Numeric
  else if str = "Text" then some .Text
  else if str = "DateTime" then some .DateTime
  else none

/-- Modelled from the spec: `SciDAVis::enumValueToString(v, "PlotDesignation")`. -/
def PlotDesignation.enumValueToString : PlotDesignation → String
  | .noDesignation => "noDesignation"
  | .X => "X"
  | .Y => "Y"
  | .Z => "Z"
  | .XError => "XError"
  | .YError => "YError"
  | .Label => "Label"

/-- Modelled from the spec: `SciDAVis::enumStringToValue(str, "PlotDesignation")`; `none`
stands for `-1`. -/
def PlotDesignation.enumStringToValue (str : String) : Option PlotDesignation :=
  if str = "noDesignation" then some .noDesignation
  else if str = "X" then some .X
  else if str = "Y" then some .Y
  else if str = "Z" then some .Z
  else if str = "XError" then some .XError
  else if str = "YError" then some .YError
  else if str = "Label" then some .Label
  else none

/-! ## Interval sets -/

/-- Modelled from the spec: `Interval<int>`, an inclusive integer row range `[start, end]`. -/
structure Interval where
  start : Int
  stop : Int
deriving DecidableEq, Repr

/-- Modelled from the spec: membership of a row in an interval. -/
def Interval.contains (i : Interval) (row : Int) : Bool :=
  decide (i.start ≤ row) && decide (row ≤ i.stop)

/-- Modelled from the spec: union-insert of an interval into an ascending list of disjoint
intervals, merging overlapping and adjacent ranges. -/
def mergeIntervalIntoList : List Interval → Interval → List Interval
  | [], i => [i]
  | j :: rest, i =>
    if i.stop + 1 < j.start then i :: j :: rest
    else if j.stop + 1 < i.start then j :: mergeIntervalIntoList rest i
    else mergeIntervalIntoList rest ⟨min i.start j.start, max i.stop j.stop⟩

/-- Modelled from the spec: what is left of interval `j` after the rows of `i` are taken out. -/
def Interval.subtract (j i : Interval) : List Interval :=
  (if j.start ≤ min j.stop (i.start - 1) then [⟨j.start, min j.stop (i.start - 1)⟩] else []) ++
  (if max j.start (i.stop + 1) ≤ j.stop then [⟨max j.start (i.stop + 1), j.stop⟩] else [])

/-- Modelled from the spec: take the rows of `i` out of every interval of the list. -/
def subtractIntervalFromList (l : List Interval) (i : Interval) : List Interval :=
  l.flatMap (fun j => if i.start ≤ i.stop then j.subtract i else [j])

/-- Modelled from the spec: re-index one interval for `count` rows inserted before row `before`. -/
def Interval.insertRows (j : Interval) (before count : Int) : List Interval :=
  if j.stop < before then [j]
  else if before ≤ j.start then [⟨j.start + count, j.stop + count⟩]
  else [⟨j.start, before - 1⟩, ⟨before + count, j.stop + count⟩]

/-- Modelled from the spec: re-index one interval for the removal of rows `first .. first + count - 1`. -/
def Interval.removeRows (j : Interval) (first count : Int) : List Interval :=
  let s := if j.start < first then j.start
    else if j.start < first + count then first else j.start - count
  let e := if j.stop < first then j.stop
    else if j.stop < first + count then first - 1 else j.stop - count
  if s ≤ e then [⟨s, e⟩] else []

/-- Modelled from the spec: `IntervalAttribute<bool>`, the Interval Set used for masked rows
and for invalid rows: an ascending list of disjoint intervals. -/
structure IntervalAttribute where
  intervals : List Interval
deriving DecidableEq, Repr

namespace IntervalAttribute

/-- Modelled from the spec: the empty set. -/
def empty : IntervalAttribute := ⟨[]⟩

/-- Modelled from the spec: membership test. -/
def isSet (a : IntervalAttribute) (row : Int) : Bool :=
  a.intervals.any (fun i => i.contains row)

/-- Modelled from the spec: set or unset the attribute on the rows of an interval; an interval with
`stop < start` has no rows. -/
def setValue (a : IntervalAttribute) (i : Interval) (value : Bool) : IntervalAttribute :=
  if i.stop < i.start then a
  else if value then ⟨mergeIntervalIntoList a.intervals i⟩
  else ⟨subtractIntervalFromList a.intervals i⟩

/-- Modelled from the spec: reset to empty. -/
def clear (_a : IntervalAttribute) : IntervalAttribute := ⟨[]⟩

/-- Modelled from the spec: re-index for inserted rows. -/
def insertRows (a : IntervalAttribute) (before count : Int) : IntervalAttribute :=
  ⟨a.intervals.flatMap (fun j => j.insertRows before count)⟩

/-- Modelled from the spec: re-index for removed rows; the pieces left of a removed range are merged again. -/
def removeRows (a : IntervalAttribute) (first count : Int) : IntervalAttribute :=
  ⟨(a.intervals.flatMap (fun j => j.removeRows first count)).foldl mergeIntervalIntoList []⟩

end IntervalAttribute

/-- Modelled from the spec: `IntervalAttribute<QString>`, the Interval Set of formula rows,
each interval carrying its formula text. -/
structure FormulaAttribute where
  entries : List (Interval × String)
deriving DecidableEq, Repr

namespace FormulaAttribute

/-- Modelled from the spec: the empty mapping. -/
def empty : FormulaAttribute := ⟨[]⟩

/-- Modelled from the spec: insert into the list ordered by start row. -/
def insertSorted : List (Interval × String) → Interval × String → List (Interval × String)
  | [], e => [e]
  | f :: rest, e => if e.1.start < f.1.start then e :: f :: rest else f :: insertSorted rest e

/-- Modelled from the spec: record `value` as the formula of every row of `i`: the rows of `i` are taken out
of the existing intervals and `i` is entered with the text. -/
def setValue (a : FormulaAttribute) (i : Interval) (value : String) : FormulaAttribute :=
  if i.stop < i.start then a
  else ⟨insertSorted (a.entries.flatMap (fun e => (e.1.subtract i).map (fun j => (j, e.2)))) (i, value)⟩

/-- Modelled from the spec: the intervals, ascending. -/
def intervals (a : FormulaAttribute) : List Interval := a.entries.map (fun e => e.1)

/-- Modelled from the spec: the formula of a row, the empty string when the row has none. -/
def value (a : FormulaAttribute) (row : Int) : String :=
  match a.entries.find? (fun e => e.1.contains row) with
  | some e => e.2
  | none => ""

/-- Modelled from the spec: reset to empty. -/
def clear (_a : FormulaAttribute) : FormulaAttribute := ⟨[]⟩

/-- Modelled from the spec: re-index for inserted rows. -/
def insertRows (a : FormulaAttribute) (before count : Int) : FormulaAttribute :=
  ⟨a.entries.flatMap (fun e => (e.1.insertRows before count).map (fun j => (j, e.2)))⟩

/-- Modelled from the spec: re-index for removed rows. -/
def removeRows (a : FormulaAttribute) (first count : Int) : FormulaAttribute :=
  ⟨a.entries.flatMap (fun e => (e.1.removeRows first count).map (fun j => (j, e.2)))⟩

end FormulaAttribute

/-! ## Typed storage -/

/-- Modelled from the spec: the Typed Storage of a column, one of a vector of doubles, a list of
strings or a list of date-times; exactly one representation is live. -/
inductive Storage
  | doubles (v : List QDouble)
  | strings (v : List String)
  | dateTimes (v : List QDateTime)
deriving DecidableEq, Repr

/-- Modelled from the spec: one cell taken out of a storage. -/
inductive Cell
  | double (v : QDouble)
  | text (s : String)
  | dateTime (d : QDateTime)
deriving DecidableEq, Repr

/-- Modelled from the spec: overwrite a contiguous run starting at `first`, growing the list (with `dflt`
cells up to `first`) if needed. -/
def replaceRange {α : Type} (dflt : α) (l : List α) (first : Nat) (vals : List α) : List α :=
  (l ++ List.replicate (first - l.length) dflt).take first ++ vals ++ l.drop (first + vals.length)

/-- Modelled from the spec: insert `count` default cells before position `before`. -/
def insertEmpty {α : Type} (dflt : α) (l : List α) (before count : Nat) : List α :=
  l.take before ++ List.replicate count dflt ++ l.drop before

namespace Storage

/-- Modelled from the spec: the data type of the live representation. -/
def dataType : Storage → ColumnDataType
  | doubles _ => .TypeDouble
  | strings _ => .TypeQString
  | dateTimes _ => .TypeQDateTime

/-- Modelled from the spec: number of cells. -/
def rowCount : Storage → Nat
  | doubles v => v.length
  | strings v => v.length
  | dateTimes v => v.length

/-- Modelled from the spec: the empty storage of the same type. -/
def clear : Storage → Storage
  | doubles _ => doubles []
  | strings _ => strings []
  | dateTimes _ => dateTimes []

/-- Modelled from the spec: the empty storage of a data type. -/
def emptyOf : ColumnDataType → Storage
  | .TypeDouble => doubles []
  | .TypeQString => strings []
  | .TypeQDateTime => dateTimes []

/-- Modelled from the spec: the cells, in row order. -/
def cells : Storage → List Cell
  | doubles v => v.map Cell.double
  | strings v => v.map Cell.text
  | dateTimes v => v.map Cell.dateTime

/-- Modelled from the spec: insert empty rows; nothing is inserted when `before` is not a position of the
storage. -/
def insertEmptyRows (s : Storage) (before count : Int) : Storage :=
  if 0 ≤ before ∧ before ≤ s.rowCount ∧ 0 < count then
    match s with
    | doubles v => doubles (insertEmpty QDouble.zero v before.toNat count.toNat)
    | strings v => strings (insertEmpty "" v before.toNat count.toNat)
    | dateTimes v => dateTimes (insertEmpty QDateTime.null v before.toNat count.toNat)
  else s

/-- Modelled from the spec: remove `count` rows starting at `first`. -/
def removeRows (s : Storage) (first count : Int) : Storage :=
  if 0 ≤ first ∧ 0 < count then
    match s with
    | doubles v => doubles (v.take first.toNat ++ v.drop (first.toNat + count.toNat))
    | strings v => strings (v.take first.toNat ++ v.drop (first.toNat + count.toNat))
    | dateTimes v => dateTimes (v.take first.toNat ++ v.drop (first.toNat + count.toNat))
  else s

end Storage

/-! ## Filters -/

/-- Modelled from the spec: the filter objects of a column, a closed set of variants selected
by the column's mode, one input filter and one output filter per mode. -/
inductive Filter
  | input (mode : ColumnMode)
  | output (mode : ColumnMode)
deriving DecidableEq, Repr

/-! ## ColumnPrivate -/

/-- Modelled from the spec: `Column::Private`, the state a column owns: mode, typed storage,
the Interval Sets of invalid and of masked rows, the formula mapping, the two filters
and the plot designation. -/
structure ColumnPrivate where
  d_column_mode : ColumnMode
  d_data : Storage
  d_input_filter : Filter
  d_output_filter : Filter
  d_validity : IntervalAttribute
  d_masking : IntervalAttribute
  d_formulas : FormulaAttribute
  d_plot_designation : PlotDesignation
deriving DecidableEq, Repr

/-! ## The XML stream reader of Qt -/

/-- The tokens a `QXmlStreamReader` reports.  In the input of a reader, `Invalid`
stands for a place where the document is not well-formed. -/
inductive Token
  | NoToken
  | Invalid
  | StartDocument
  | EndDocument
  | StartElement (name : String) (attributes : List (String × String))
  | EndElement (name : String)
  | Characters (text : String)
  | Comment (text : String)
  | DTD (text : String)
  | EntityReference (name : String)
  | ProcessingInstruction (text : String)
deriving DecidableEq, Repr

/-- `QXmlStreamAttributes::value(namespaceUri, name)`: the value of the attribute, the
empty string when the element has no such attribute.  XML namespaces are not embedded:
an element and its attributes are taken to be in the same namespace, as in what `save`
writes. -/
def value (attribs : List (String × String)) (name : String) : String :=
  match attribs.find? (fun a => a.1 = name) with
  | some a => a.2
  | none => ""

/-- State of a `QXmlStreamReader`: the current token, the tokens not yet read and the
error message, if an error has occurred. -/
structure QXmlStreamReader where
  current : Token
  input : List Token
  errorString : Option String
deriving DecidableEq, Repr

namespace QXmlStreamReader

/-- `QXmlStreamReader::error()` seen as a flag: an error has occurred. -/
def error (r : QXmlStreamReader) : Bool := r.errorString.isSome

/-- `QXmlStreamReader::raiseError(message)`: the error is recorded and the current
token becomes `Invalid`. -/
def raiseError (r : QXmlStreamReader) (message : String) : QXmlStreamReader :=
  { r with current := .Invalid, errorString := some message }

/-- `QXmlStreamReader::atEnd()`: the end of the document has been read, or an error has
occurred and reading has been aborted. -/
def atEnd (r : QXmlStreamReader) : Bool :=
  match r.current with
  | .Invalid => true
  | .EndDocument => true
  | _ => false

/-- `QXmlStreamReader::isStartElement()`. -/
def isStartElement (r : QXmlStreamReader) : Bool :=
  match r.current with
  | .StartElement _ _ => true
  | _ => false

/-- `QXmlStreamReader::isEndElement()`. -/
def isEndElement (r : QXmlStreamReader) : Bool :=
  match r.current with
  | .EndElement _ => true
  | _ => false

/-- `QXmlStreamReader::name()`: the name of a start or end element, empty otherwise. -/
def name (r : QXmlStreamReader) : String :=
  match r.current with
  | .StartElement n _ => n
  | .EndElement n => n
  | _ => ""

/-- `QXmlStreamReader::attributes()`: the attributes of a start element. -/
def attributes (r : QXmlStreamReader) : List (String × String) :=
  match r.current with
  | .StartElement _ a => a
  | _ => []

/-- `QXmlStreamReader::readNext()`: after an error the reader stays on `Invalid`;
otherwise it moves to the next token, and raises an error when the input ends or is not
well-formed there. -/
def readNext (r : QXmlStreamReader) : QXmlStreamReader :=
  match r.current with
  | .Invalid => r
  | _ =>
    match r.input with
    | [] => r.raiseError "Premature end of document."
    | .Invalid :: rest => { r.raiseError "Document is not well-formed." with input := rest }
    | t :: rest => { r with current := t, input := rest }

/-- The loop of `QXmlStreamReader::readElementText()` on the tokens not yet read:
character data is collected up to the end element; any other element or token is an
error ("Expected character data.") unless an error was the cause.  `err` is the error
field of the reader. -/
def readTextLoop (err : Option String) : List Token → String → String × QXmlStreamReader
  | [], acc => (acc, ⟨.Invalid, [], some "Premature end of document."⟩)
  | .Characters t :: rest, acc => readTextLoop err rest (acc ++ t)
  | .EntityReference t :: rest, acc => readTextLoop err rest (acc ++ t)
  | .EndElement n :: rest, acc => (acc, ⟨.EndElement n, rest, err⟩)
  | .ProcessingInstruction _ :: rest, acc => readTextLoop err rest acc
  | .Comment _ :: rest, acc => readTextLoop err rest acc
  | .Invalid :: rest, acc => (acc, ⟨.Invalid, rest, some "Document is not well-formed."⟩)
  | t :: rest, acc =>
    if err.isSome then (acc, ⟨t, rest, err⟩)
    else (acc, ⟨.Invalid, rest, some "Expected character data."⟩)

/-- `QXmlStreamReader::readElementText()`: on a start element, the text up to its end
element; the empty string when the reader is not on a start element. -/
def readElementText (r : QXmlStreamReader) : String × QXmlStreamReader :=
  if r.isStartElement then readTextLoop r.errorString r.input "" else ("", r)

/-- `n` calls of `readNext()`. -/
def skip : Nat → QXmlStreamReader → QXmlStreamReader
  | 0, r => r
  | n + 1, r => skip n r.readNext

end QXmlStreamReader

/-- What a filter does to the reader while it loads itself: a number of `readNext()`
calls, possibly an error raised after them, and the value it returns. -/
structure FilterLoad where
  reads : Nat
  raised : Option String
  result : Bool
deriving DecidableEq, Repr

/-- The effect of a filter's `load` on the reader. -/
def FilterLoad.apply (f : FilterLoad) (r : QXmlStreamReader) : QXmlStreamReader :=
  match f.raised with
  | some message => (r.skip f.reads).raiseError message
  | none => r.skip f.reads

/-- What `Column.cpp` uses and neither the sources nor the spec determine: the text
conversions of Qt for doubles and date-times, the cell conversions of the filters at a
mode change, the serialisation of the filters, and the value of the flag `ok2` that
`XmlReadFormula` tests without having set it. -/
structure Externals where
  toDouble : String → Option QDouble
  number_e16 : QDouble → String
  dateTimeFromString : String → QDateTime
  dateTimeToString : QDateTime → String
  cellToDouble : ColumnMode → Cell → QDouble
  cellToText : ColumnMode → Cell → String
  cellToDateTime : ColumnMode → Cell → QDateTime
  filterSave : Filter → List Token
  filterLoad : Filter → QXmlStreamReader → FilterLoad
  ok2 : QXmlStreamReader → Bool

namespace ColumnPrivate

/-- Modelled from the spec: the state built by `Private(owner, mode)`: empty storage of the
mode's type, the filters of the mode, no intervals, no designation. -/
def ofMode (mode : ColumnMode) : ColumnPrivate :=
  { d_column_mode := mode
    d_data := Storage.emptyOf mode.dataType
    d_input_filter := .input mode
    d_output_filter := .output mode
    d_validity := .empty
    d_masking := .empty
    d_formulas := .empty
    d_plot_designation := .noDesignation }

/-- Modelled from the spec: accessor `dataType()`. -/
def dataType (d : ColumnPrivate) : ColumnDataType := d.d_data.dataType

/-- Modelled from the spec: accessor `columnMode()`. -/
def columnMode (d : ColumnPrivate) : ColumnMode := d.d_column_mode

/-- Modelled from the spec: accessor `rowCount()`. -/
def rowCount (d : ColumnPrivate) : Int := d.d_data.rowCount

/-- Modelled from the spec: accessor `plotDesignation()`. -/
def plotDesignation (d : ColumnPrivate) : PlotDesignation := d.d_plot_designation

/-- Modelled from the spec: `valueAt(row)`, bounds checked; `0.0` out of range or on a column
that does not hold doubles. -/
def valueAt (d : ColumnPrivate) (row : Int) : QDouble :=
  match d.d_data with
  | .doubles v => if 0 ≤ row then v.getD row.toNat QDouble.zero else QDouble.zero
  | _ => QDouble.zero

/-- Modelled from the spec: `textAt(row)`, bounds checked; the empty string out of range or on
a column that does not hold text. -/
def textAt (d : ColumnPrivate) (row : Int) : String :=
  match d.d_data with
  | .strings v => if 0 ≤ row then v.getD row.toNat "" else ""
  | _ => ""

/-- Modelled from the spec: `dateTimeAt(row)`, bounds checked; the null date-time out of range
or on a column that does not hold date-times. -/
def dateTimeAt (d : ColumnPrivate) (row : Int) : QDateTime :=
  match d.d_data with
  | .dateTimes v => if 0 ≤ row then v.getD row.toNat QDateTime.null else QDateTime.null
  | _ => QDateTime.null

/-- Modelled from the spec: accessor `dateAt(row)`. -/
def dateAt (d : ColumnPrivate) (row : Int) : QDate := (d.dateTimeAt row).date

/-- Modelled from the spec: accessor `timeAt(row)`. -/
def timeAt (d : ColumnPrivate) (row : Int) : QTime := (d.dateTimeAt row).time

/-- Modelled from the spec: accessor `isInvalid(row)`. -/
def isInvalid (d : ColumnPrivate) (row : Int) : Bool := d.d_validity.isSet row

/-- Modelled from the spec: accessor `isMasked(row)`. -/
def isMasked (d : ColumnPrivate) (row : Int) : Bool := d.d_masking.isSet row

/-- Modelled from the spec: accessor `invalidIntervals()`. -/
def invalidIntervals (d : ColumnPrivate) : List Interval := d.d_validity.intervals

/-- Modelled from the spec: accessor `maskedIntervals()`. -/
def maskedIntervals (d : ColumnPrivate) : List Interval := d.d_masking.intervals

/-- Modelled from the spec: accessor `formulaIntervals()`. -/
def formulaIntervals (d : ColumnPrivate) : List Interval := d.d_formulas.intervals

/-- Modelled from the spec: accessor `formula(row)`. -/
def formula (d : ColumnPrivate) (row : Int) : String := d.d_formulas.value row

/-- Modelled from the spec: bulk replace of doubles from row `first`, growing the storage if
needed; nothing happens on a column of another type or for a negative row. -/
def replaceValues (d : ColumnPrivate) (first : Int) (vals : List QDouble) : ColumnPrivate :=
  match d.d_data with
  | .doubles v =>
    if 0 ≤ first then { d with d_data := .doubles (replaceRange QDouble.zero v first.toNat vals) }
    else d
  | _ => d

/-- Modelled from the spec: bulk replace of texts from row `first`. -/
def replaceTexts (d : ColumnPrivate) (first : Int) (vals : List String) : ColumnPrivate :=
  match d.d_data with
  | .strings v =>
    if 0 ≤ first then { d with d_data := .strings (replaceRange "" v first.toNat vals) }
    else d
  | _ => d

/-- Modelled from the spec: bulk replace of date-times from row `first`. -/
def replaceDateTimes (d : ColumnPrivate) (first : Int) (vals : List QDateTime) : ColumnPrivate :=
  match d.d_data with
  | .dateTimes v =>
    if 0 ≤ first then
      { d with d_data := .dateTimes (replaceRange QDateTime.null v first.toNat vals) }
    else d
  | _ => d

/-- Modelled from the spec: mode change.  Both filters are replaced by those of the new mode and
the stored values are re-derived, cell by cell, in the data type of the new mode. -/
def setColumnMode (E : Externals) (d : ColumnPrivate) (mode : ColumnMode) : ColumnPrivate :=
  { d with
    d_column_mode := mode
    d_input_filter := .input mode
    d_output_filter := .output mode
    d_data :=
      match mode.dataType with
      | .TypeDouble => .doubles (d.d_data.cells.map (E.cellToDouble mode))
      | .TypeQString => .strings (d.d_data.cells.map (E.cellToText mode))
      | .TypeQDateTime => .dateTimes (d.d_data.cells.map (E.cellToDateTime mode)) }

/-- Modelled from the spec: full-content copy, replacing storage (with its per-row validity),
masks and formulas by those of the source. -/
def copy (d : ColumnPrivate) (other : ColumnPrivate) : ColumnPrivate :=
  { d with
    d_data := other.d_data
    d_validity := other.d_validity
    d_masking := other.d_masking
    d_formulas := other.d_formulas }

/-- Modelled from the spec: partial copy of `num_rows` cells of the source, from row
`source_start`, to row `dest_start` on; nothing is copied for negative indices or
counts. -/
def copyRows (d : ColumnPrivate) (source : ColumnPrivate) (source_start dest_start num_rows : Int) :
    ColumnPrivate :=
  if 0 ≤ source_start ∧ 0 ≤ dest_start ∧ 0 < num_rows then
    match d.d_data, source.d_data with
    | .doubles v, .doubles w =>
      { d with d_data := .doubles (replaceRange QDouble.zero v dest_start.toNat
          ((w.drop source_start.toNat).take num_rows.toNat)) }
    | .strings v, .strings w =>
      { d with d_data := .strings (replaceRange "" v dest_start.toNat
          ((w.drop source_start.toNat).take num_rows.toNat)) }
    | .dateTimes v, .dateTimes w =>
      { d with d_data := .dateTimes (replaceRange QDateTime.null v dest_start.toNat
          ((w.drop source_start.toNat).take num_rows.toNat)) }
    | _, _ => d
  else d

end ColumnPrivate

/-! ## Commands and the undo stack -/

/-- Modelled from the spec: the command classes of `columncommands.h` that `Column.cpp`
constructs, each with the arguments `Column.cpp` passes besides the private. -/
inductive ColumnCmd
  | ColumnSetModeCmd (mode : ColumnMode)
  | ColumnFullCopyCmd (other : ColumnPrivate)
  | ColumnPartialCopyCmd (source : ColumnPrivate) (source_start dest_start num_rows : Int)
  | ColumnInsertEmptyRowsCmd (before count : Int)
  | ColumnRemoveRowsCmd (first count : Int)
  | ColumnSetPlotDesignationCmd (pd : PlotDesignation)
  | ColumnClearCmd
  | ColumnClearValidityCmd
  | ColumnClearMasksCmd
  | ColumnSetInvalidCmd (i : Interval) (invalid : Bool)
  | ColumnSetMaskedCmd (i : Interval) (mask : Bool)
  | ColumnSetFormulaCmd (i : Interval) (formula : String)
  | ColumnClearFormulasCmd
  | ColumnSetTextCmd (row : Int) (new_value : String)
  | ColumnReplaceTextsCmd (first : Int) (new_values : List String)
  | ColumnSetDateTimeCmd (row : Int) (new_value : QDateTime)
  | ColumnReplaceDateTimesCmd (first : Int) (new_values : List QDateTime)
  | ColumnSetValueCmd (row : Int) (new_value : QDouble)
  | ColumnReplaceValuesCmd (first : Int) (new_values : List QDouble)
deriving DecidableEq, Repr

/-- Modelled from the spec: what a command does to the private when it is applied
(`redo()` of the command classes, which are not among the sources). -/
def ColumnCmd.redo (E : Externals) (cmd : ColumnCmd) (d : ColumnPrivate) : ColumnPrivate :=
  match cmd with
  | .ColumnSetModeCmd mode => d.setColumnMode E mode
  | .ColumnFullCopyCmd other => d.copy other
  | .ColumnPartialCopyCmd source source_start dest_start num_rows =>
    d.copyRows source source_start dest_start num_rows
  | .ColumnInsertEmptyRowsCmd before count =>
    { d with
      d_data := d.d_data.insertEmptyRows before count
      d_validity := d.d_validity.insertRows before count
      d_masking := d.d_masking.insertRows before count
      d_formulas := d.d_formulas.insertRows before count }
  | .ColumnRemoveRowsCmd first count =>
    { d with
      d_data := d.d_data.removeRows first count
      d_validity := d.d_validity.removeRows first count
      d_masking := d.d_masking.removeRows first count
      d_formulas := d.d_formulas.removeRows first count }
  | .ColumnSetPlotDesignationCmd pd => { d with d_plot_designation := pd }
  | .ColumnClearCmd => { d with d_data := d.d_data.clear }
  | .ColumnClearValidityCmd => { d with d_validity := d.d_validity.clear }
  | .ColumnClearMasksCmd => { d with d_masking := d.d_masking.clear }
  | .ColumnSetInvalidCmd i invalid => { d with d_validity := d.d_validity.setValue i invalid }
  | .ColumnSetMaskedCmd i mask => { d with d_masking := d.d_masking.setValue i mask }
  | .ColumnSetFormulaCmd i formula => { d with d_formulas := d.d_formulas.setValue i formula }
  | .ColumnClearFormulasCmd => { d with d_formulas := d.d_formulas.clear }
  | .ColumnSetTextCmd row new_value => d.replaceTexts row [new_value]
  | .ColumnReplaceTextsCmd first new_values => d.replaceTexts first new_values
  | .ColumnSetDateTimeCmd row new_value => d.replaceDateTimes row [new_value]
  | .ColumnReplaceDateTimesCmd first new_values => d.replaceDateTimes first new_values
  | .ColumnSetValueCmd row new_value => d.replaceValues row [new_value]
  | .ColumnReplaceValuesCmd first new_values => d.replaceValues first new_values

/-- Modelled from the spec: one applied command together with the state it replaced, which is
what is needed to reverse it exactly. -/
structure UndoStep where
  cmd : ColumnCmd
  before : ColumnPrivate
deriving DecidableEq, Repr

/-- Modelled from the spec: one unit of undo, a single command or the commands of one
outermost macro (latest first). -/
structure UndoEntry where
  text : String
  steps : List UndoStep
deriving DecidableEq, Repr

/-- Modelled from the spec: the Undo Command Log, the applied entries (latest first), the undone
entries (next to redo first) and the nesting depth of open macros. -/
structure UndoStack where
  done : List UndoEntry
  undone : List UndoEntry
  depth : Nat
deriving DecidableEq, Repr

namespace UndoStack

/-- Modelled from the spec: the log of a new column. -/
def empty : UndoStack := ⟨[], [], 0⟩

/-- Modelled from the spec: `beginMacro(label)`; only the outermost call opens a group. -/
def beginMacro (u : UndoStack) (text : String) : UndoStack :=
  if u.depth = 0 then ⟨⟨text, []⟩ :: u.done, [], 1⟩
  else { u with depth := u.depth + 1 }

/-- Modelled from the spec: `endMacro()`. -/
def endMacro (u : UndoStack) : UndoStack := { u with depth := u.depth - 1 }

/-- Modelled from the spec: `execute(command)` on the log: the undone tail is truncated and the
step is pushed, into the open macro if there is one. -/
def push (u : UndoStack) (s : UndoStep) : UndoStack :=
  if u.depth = 0 then ⟨⟨"", [s]⟩ :: u.done, [], 0⟩
  else
    match u.done with
    | e :: rest => ⟨⟨e.text, s :: e.steps⟩ :: rest, [], u.depth⟩
    | [] => ⟨[⟨"", [s]⟩], [], u.depth⟩

/-- Modelled from the spec: all commands recorded as applied, latest first. -/
def commands (u : UndoStack) : List ColumnCmd :=
  u.done.flatMap (fun e => e.steps.map (fun s => s.cmd))

end UndoStack

/-! ## Column -/

/-- The state of a `Column`: the attributes of the aspect (name, comment, creation time,
caption spec), the private, the child aspects and the undo log. -/
structure Column where
  name : String
  comment : String
  creationTime : QDateTime
  captionSpec : String
  d_column_private : ColumnPrivate
  children : List Filter
  undoStack : UndoStack
deriving DecidableEq, Repr

namespace Column

/-- Constructor `Column(name, mode)`: the private of the mode, both filters added as
children. -/
def create (name : String) (mode : ColumnMode) : Column :=
  { name := name
    comment := ""
    creationTime := QDateTime.null
    captionSpec := ""
    d_column_private := ColumnPrivate.ofMode mode
    children := [.input mode, .output mode]
    undoStack := UndoStack.empty }

/-- Modelled from the spec: `exec(command)` of the aspect: the command is applied to the private
and recorded in the undo log. -/
def exec (E : Externals) (c : Column) (cmd : ColumnCmd) : Column :=
  { c with
    d_column_private := cmd.redo E c.d_column_private
    undoStack := c.undoStack.push ⟨cmd, c.d_column_private⟩ }

/-- Modelled from the spec: `beginMacro(text)` of the aspect. -/
def beginMacro (c : Column) (text : String) : Column :=
  { c with undoStack := c.undoStack.beginMacro text }

/-- Modelled from the spec: `endMacro()` of the aspect. -/
def endMacro (c : Column) : Column := { c with undoStack := c.undoStack.endMacro }

/-- Modelled from the spec: `addChild(filter)` of the aspect. -/
def addChild (c : Column) (f : Filter) : Column := { c with children := c.children ++ [f] }

/-- Modelled from the spec: `removeChild(filter)` of the aspect. -/
def removeChild (c : Column) (f : Filter) : Column := { c with children := c.children.erase f }

/-- Modelled from the spec: `setName` of the aspect. -/
def setName (c : Column) (str : String) : Column := { c with name := str }

/-- Modelled from the spec: `setComment` of the aspect. -/
def setComment (c : Column) (str : String) : Column := { c with comment := str }

/-- Modelled from the spec: `setCreationTime` of the aspect. -/
def setCreationTime (c : Column) (t : QDateTime) : Column := { c with creationTime := t }

/-- Modelled from the spec: `setCaptionSpec` of the aspect. -/
def setCaptionSpec (c : Column) (str : String) : Column := { c with captionSpec := str }

/-- `Column::dataType`. -/
def dataType (c : Column) : ColumnDataType := c.d_column_private.dataType

/-- `Column::columnMode`. -/
def columnMode (c : Column) : ColumnMode := c.d_column_private.columnMode

/-- `Column::rowCount`. -/
def rowCount (c : Column) : Int := c.d_column_private.rowCount

/-- `Column::plotDesignation`. -/
def plotDesignation (c : Column) : PlotDesignation := c.d_column_private.plotDesignation

/-- `Column::inputFilter`. -/
def inputFilter (c : Column) : Filter := c.d_column_private.d_input_filter

/-- `Column::outputFilter`. -/
def outputFilter (c : Column) : Filter := c.d_column_private.d_output_filter

/-- `Column::isInvalid(int)`. -/
def isInvalid (c : Column) (row : Int) : Bool := c.d_column_private.isInvalid row

/-- `Column::invalidIntervals`. -/
def invalidIntervals (c : Column) : List Interval := c.d_column_private.invalidIntervals

/-- `Column::isMasked(int)`. -/
def isMasked (c : Column) (row : Int) : Bool := c.d_column_private.isMasked row

/-- `Column::maskedIntervals`. -/
def maskedIntervals (c : Column) : List Interval := c.d_column_private.maskedIntervals

/-- `Column::formula(int)`. -/
def formula (c : Column) (row : Int) : String := c.d_column_private.formula row

/-- `Column::formulaIntervals`. -/
def formulaIntervals (c : Column) : List Interval := c.d_column_private.formulaIntervals

/-- `Column::textAt`. -/
def textAt (c : Column) (row : Int) : String := c.d_column_private.textAt row

/-- `Column::dateAt`. -/
def dateAt (c : Column) (row : Int) : QDate := c.d_column_private.dateAt row

/-- `Column::timeAt`. -/
def timeAt (c : Column) (row : Int) : QTime := c.d_column_private.timeAt row

/-- `Column::dateTimeAt`. -/
def dateTimeAt (c : Column) (row : Int) : QDateTime := c.d_column_private.dateTimeAt row

/-- `Column::valueAt`. -/
def valueAt (c : Column) (row : Int) : QDouble := c.d_column_private.valueAt row

/-- `Column::setColumnMode`. -/
def setColumnMode (E : Externals) (c : Column) (mode : ColumnMode) : Column :=
  if mode = c.columnMode then c
  else
    let c := c.beginMacro (c.name ++ ": change column type")
    let old_input_filter := c.inputFilter
    let old_output_filter := c.outputFilter
    let c := c.exec E (.ColumnSetModeCmd mode)
    let c := if c.inputFilter ≠ old_input_filter then
        (c.removeChild old_input_filter).addChild c.inputFilter
      else c
    let c := if c.outputFilter ≠ old_output_filter then
        (c.removeChild old_output_filter).addChild c.outputFilter
      else c
    c.endMacro

/-- `Column::copy(const AbstractColumn * other)`; the source column is given by its
private. -/
def copy (E : Externals) (c : Column) (other : ColumnPrivate) : Bool × Column :=
  if other.dataType ≠ c.dataType then (false, c)
  else (true, c.exec E (.ColumnFullCopyCmd other))

/-- `Column::copy(const AbstractColumn * source, int source_start, int dest_start,
int num_rows)`. -/
def copyRows (E : Externals) (c : Column) (source : ColumnPrivate)
    (source_start dest_start num_rows : Int) : Bool × Column :=
  if source.dataType ≠ c.dataType then (false, c)
  else (true, c.exec E (.ColumnPartialCopyCmd source source_start dest_start num_rows))

/-- `Column::insertRows`. -/
def insertRows (E : Externals) (c : Column) (before count : Int) : Column :=
  if count > 0 then c.exec E (.ColumnInsertEmptyRowsCmd before count) else c

/-- `Column::removeRows`. -/
def removeRows (E : Externals) (c : Column) (first count : Int) : Column :=
  if count > 0 then c.exec E (.ColumnRemoveRowsCmd first count) else c

/-- `Column::setPlotDesignation`. -/
def setPlotDesignation (E : Externals) (c : Column) (pd : PlotDesignation) : Column :=
  if pd ≠ c.plotDesignation then c.exec E (.ColumnSetPlotDesignationCmd pd) else c

/-- `Column::clear`. -/
def clear (E : Externals) (c : Column) : Column := c.exec E .ColumnClearCmd

/-- `Column::clearValidity`. -/
def clearValidity (E : Externals) (c : Column) : Column := c.exec E .ColumnClearValidityCmd

/-- `Column::clearMasks`. -/
def clearMasks (E : Externals) (c : Column) : Column := c.exec E .ColumnClearMasksCmd

/-- `Column::setInvalid(Interval<int>, bool)`. -/
def setInvalid (E : Externals) (c : Column) (i : Interval) (invalid : Bool) : Column :=
  c.exec E (.ColumnSetInvalidCmd i invalid)

/-- `Column::setInvalid(int, bool)`. -/
def setInvalidRow (E : Externals) (c : Column) (row : Int) (invalid : Bool) : Column :=
  c.setInvalid E ⟨row, row⟩ invalid

/-- `Column::setMasked(Interval<int>, bool)`. -/
def setMasked (E : Externals) (c : Column) (i : Interval) (mask : Bool) : Column :=
  c.exec E (.ColumnSetMaskedCmd i mask)

/-- `Column::setMasked(int, bool)`. -/
def setMaskedRow (E : Externals) (c : Column) (row : Int) (mask : Bool) : Column :=
  c.setMasked E ⟨row, row⟩ mask

/-- `Column::setFormula(Interval<int>, QString)`. -/
def setFormula (E : Externals) (c : Column) (i : Interval) (formula : String) : Column :=
  c.exec E (.ColumnSetFormulaCmd i formula)

/-- `Column::setFormula(int, QString)`. -/
def setFormulaRow (E : Externals) (c : Column) (row : Int) (formula : String) : Column :=
  c.setFormula E ⟨row, row⟩ formula

/-- `Column::clearFormulas`. -/
def clearFormulas (E : Externals) (c : Column) : Column := c.exec E .ColumnClearFormulasCmd

/-- `Column::setTextAt`. -/
def setTextAt (E : Externals) (c : Column) (row : Int) (new_value : String) : Column :=
  c.exec E (.ColumnSetTextCmd row new_value)

/-- `Column::replaceTexts`. -/
def replaceTexts (E : Externals) (c : Column) (first : Int) (new_values : List String) : Column :=
  c.exec E (.ColumnReplaceTextsCmd first new_values)

/-- `Column::setDateTimeAt`. -/
def setDateTimeAt (E : Externals) (c : Column) (row : Int) (new_value : QDateTime) : Column :=
  c.exec E (.ColumnSetDateTimeCmd row new_value)

/-- `Column::setDateAt`. -/
def setDateAt (E : Externals) (c : Column) (row : Int) (new_value : QDate) : Column :=
  c.setDateTimeAt E row (QDateTime.ofDateAndTime new_value (c.timeAt row))

/-- `Column::setTimeAt`. -/
def setTimeAt (E : Externals) (c : Column) (row : Int) (new_value : QTime) : Column :=
  c.setDateTimeAt E row (QDateTime.ofDateAndTime (c.dateAt row) new_value)

/-- `Column::replaceDateTimes`. -/
def replaceDateTimes (E : Externals) (c : Column) (first : Int) (new_values : List QDateTime) :
    Column :=
  c.exec E (.ColumnReplaceDateTimesCmd first new_values)

/-- `Column::setValueAt`. -/
def setValueAt (E : Externals) (c : Column) (row : Int) (new_value : QDouble) : Column :=
  c.exec E (.ColumnSetValueCmd row new_value)

/-- `Column::replaceValues`. -/
def replaceValues (E : Externals) (c : Column) (first : Int) (new_values : List QDouble) : Column :=
  c.exec E (.ColumnReplaceValuesCmd first new_values)

/-! ### Persistence -/

/-- `QXmlStreamWriter::writeCharacters(text)` as the reader reports it back: no token
for an empty text. -/
def writeCharacters (text : String) : List Token :=
  if text.isEmpty then [] else [.Characters text]

/-- The `row` element `Column::save` writes for row `i`, with the text of the cell. -/
def saveRow (c : Column) (i : Nat) (text : String) : List Token :=
  [.StartElement "row"
    [("type", c.dataType.enumValueToString),
     ("index", number i),
     ("invalid", if c.isInvalid i then "yes" else "no")]] ++
  writeCharacters text ++ [.EndElement "row"]

/-- `Column::save`: the tokens of the `column` element written, in the order written. -/
def save (E : Externals) (c : Column) : List Token :=
  [.StartElement "column"
    [("creation_time", E.dateTimeToString c.creationTime),
     ("caption_spec", c.captionSpec),
     ("label", c.name),
     ("type", c.dataType.enumValueToString),
     ("mode", c.columnMode.enumValueToString),
     ("plot_designation", c.plotDesignation.enumValueToString)]] ++
  [.StartElement "input_filter" []] ++ E.filterSave c.inputFilter ++
  [.EndElement "input_filter"] ++
  [.StartElement "output_filter" []] ++ E.filterSave c.outputFilter ++
  [.EndElement "output_filter"] ++
  [.StartElement "comment" []] ++ writeCharacters c.comment ++ [.EndElement "comment"] ++
  c.maskedIntervals.flatMap (fun interval =>
    [.StartElement "mask"
      [("start_row", number interval.start), ("end_row", number interval.stop)],
     .EndElement "mask"]) ++
  c.formulaIntervals.flatMap (fun interval =>
    [.StartElement "formula"
      [("start_row", number interval.start), ("end_row", number interval.stop)]] ++
    writeCharacters (c.formula interval.start) ++ [.EndElement "formula"]) ++
  (match c.dataType with
   | .TypeDouble =>
     (List.range c.rowCount.toNat).flatMap (fun i => c.saveRow i (E.number_e16 (c.valueAt i)))
   | .TypeQString =>
     (List.range c.rowCount.toNat).flatMap (fun i => c.saveRow i (c.textAt i))
   | .TypeQDateTime =>
     (List.range c.rowCount.toNat).flatMap (fun i =>
       c.saveRow i (E.dateTimeToString (c.dateTimeAt i)))) ++
  [.EndElement "column"]

/-- `Column::XmlReadComment`. -/
def XmlReadComment (c : Column) (reader : QXmlStreamReader) : Bool × Column × QXmlStreamReader :=
  let t := reader.readElementText
  (true, c.setComment t.1, t.2)

/-- `Column::XmlReadInputFilter`; the filter's own `load` is a parameter. -/
def XmlReadInputFilter (E : Externals) (c : Column) (reader : QXmlStreamReader) :
    Bool × Column × QXmlStreamReader :=
  let reader := reader.readNext
  let f := E.filterLoad c.inputFilter reader
  let reader := f.apply reader
  let reader := reader.readNext
  (f.result, c, reader)

/-- `Column::XmlReadOutputFilter`; the filter's own `load` is a parameter. -/
def XmlReadOutputFilter (E : Externals) (c : Column) (reader : QXmlStreamReader) :
    Bool × Column × QXmlStreamReader :=
  let reader := reader.readNext
  let f := E.filterLoad c.outputFilter reader
  let reader := f.apply reader
  let reader := reader.readNext
  (f.result, c, reader)

/-- `Column::XmlReadMask`.  Both `start` and `end` are converted from `str_start`. -/
def XmlReadMask (E : Externals) (c : Column) (reader : QXmlStreamReader) :
    Bool × Column × QXmlStreamReader :=
  let attribs := reader.attributes
  let str_start := value attribs "start_row"
  let str_end := value attribs "end_row"
  let reader := if str_start.isEmpty || str_end.isEmpty then
      reader.raiseError "XML read error: missing start or end row (loading failed)"
    else reader
  let (start, ok1) := toInt str_start
  let (stop, ok2) := toInt str_start
  let reader := if !ok1 || !ok2 then
      reader.raiseError "XML read error: invalid start or end row (loading failed)"
    else reader
  (true, c.setMasked E ⟨start, stop⟩ true, reader)

/-- `Column::XmlReadFormula`.  Both conversions are made from `str_start` and both
store their flag in `ok1`; `ok2` is tested without having been set, its value is
`E.ok2`. -/
def XmlReadFormula (E : Externals) (c : Column) (reader : QXmlStreamReader) :
    Bool × Column × QXmlStreamReader :=
  let attribs := reader.attributes
  let str_start := value attribs "start_row"
  let str_end := value attribs "end_row"
  let reader₁ := if str_start.isEmpty || str_end.isEmpty then
      reader.raiseError "XML read error: missing start or end row (loading failed)"
    else reader
  let ok2 := E.ok2 reader
  let (start, _) := toInt str_start
  let (stop, ok1) := toInt str_start
  let reader₂ := if !ok1 || !ok2 then
      reader₁.raiseError "XML read error: invalid start or end row (loading failed)"
    else reader₁
  let t := reader₂.readElementText
  (true, c.setFormula E ⟨start, stop⟩ t.1, t.2)

/-- `Column::XmlReadRow`. -/
def XmlReadRow (E : Externals) (c : Column) (reader : QXmlStreamReader) :
    Bool × Column × QXmlStreamReader :=
  let attribs := reader.attributes
  let str := value attribs "type"
  let type_code := ColumnDataType.enumStringToValue str
  if str.isEmpty || type_code = none || type_code ≠ some c.dataType then
    (false, c, reader.raiseError "XML read error: invalid or missing row type (loading failed)")
  else
    let str := value attribs "index"
    let (index, ok) := toInt str
    if str.isEmpty || !ok then
      (false, c,
        reader.raiseError "XML read error: invalid or missing row index (loading failed)")
    else
      let str := value attribs "invalid"
      let c := if str = "yes" then c.setInvalidRow E index true else c
      match c.dataType with
      | .TypeDouble =>
        let t := reader.readElementText
        match E.toDouble t.1 with
        | none =>
          (false, c, t.2.raiseError "XML read error: invalid row value (loading failed)")
        | some v => (true, c.setValueAt E index v, t.2)
      | .TypeQString =>
        let t := reader.readElementText
        (true, c.setTextAt E index t.1, t.2)
      | .TypeQDateTime =>
        let t := reader.readElementText
        (true, c.setDateTimeAt E index (E.dateTimeFromString t.1), t.2)

/-- The child of the `column` element the reader stands on, dispatched by name as in
the loop of `Column::load`. -/
def readChild (E : Externals) (c : Column) (reader : QXmlStreamReader) :
    Bool × Column × QXmlStreamReader :=
  if reader.name = "comment" then XmlReadComment c reader
  else if reader.name = "input_filter" then XmlReadInputFilter E c reader
  else if reader.name = "output_filter" then XmlReadOutputFilter E c reader
  else if reader.name = "mask" then XmlReadMask E c reader
  else if reader.name = "formula" then XmlReadFormula E c reader
  else if reader.name = "row" then XmlReadRow E c reader
  else (true, c, reader.readElementText.2)

/-- The loop `while (!reader->atEnd())` of `Column::load`, bounded by `fuel` rounds.  A
round reads one token at least, so `input.length + 2` rounds always suffice
(`readChildren_fuel`). -/
def readChildren (E : Externals) : Nat → Column → QXmlStreamReader →
    Bool × Column × QXmlStreamReader
  | 0, c, reader => (!reader.error, c, reader)
  | fuel + 1, c, reader =>
    if reader.atEnd then (!reader.error, c, reader)
    else
      let reader := reader.readNext
      if reader.isEndElement then (!reader.error, c, reader)
      else if reader.isStartElement then
        let res := readChild E c reader
        if !res.1 then (false, res.2.1, res.2.2)
        else readChildren E fuel res.2.1 res.2.2
      else readChildren E fuel c reader

/-- `Column::load`: the value returned, the column and the reader afterwards. -/
def load (E : Externals) (c : Column) (reader : QXmlStreamReader) :
    Bool × Column × QXmlStreamReader :=
  let c := c.clear E
  let c := c.clearValidity E
  let c := c.clearFormulas E
  let c := c.clearMasks E
  let c := c.setComment ""
  if reader.isStartElement && reader.name = "column" then
    let attribs := reader.attributes
    let str := value attribs "label"
    if str.isEmpty then
      (false, c, reader.raiseError "XML read error: column label missing (loading failed)")
    else
      let c := c.setName str
      let str := value attribs "creation_time"
      let c := if !str.isEmpty then c.setCreationTime (E.dateTimeFromString str) else c
      let str := value attribs "caption_spec"
      let c := c.setCaptionSpec str
      let str := value attribs "type"
      if str.isEmpty then
        (false, c, reader.raiseError "XML read error: column type missing (loading failed)")
      else
        match ColumnDataType.enumStringToValue str with
        | none =>
          (false, c, reader.raiseError "XML read error: column type invalid (loading failed)")
        | some type_code =>
          let str := value attribs "mode"
          if str.isEmpty then
            (false, c,
              reader.raiseError "XML read error: column mode missing (loading failed)")
          else
            match ColumnMode.enumStringToValue str with
            | none =>
              (false, c,
                reader.raiseError "XML read error: column mode invalid (loading failed)")
            | some mode_code =>
              let c := c.setColumnMode E mode_code
              if type_code ≠ c.dataType then
                (false, c, reader.raiseError
                  "XML read error: column type or mode invalid (loading failed)")
              else
                let str := value attribs "plot_designation"
                let pd_code := PlotDesignation.enumStringToValue str
                if str.isEmpty then
                  readChildren E (reader.input.length + 2)
                    (c.setPlotDesignation E .noDesignation) reader
                else
                  match pd_code with
                  | none =>
                    (false, c, reader.raiseError
                      "XML read error: column plot designation invalid (loading failed)")
                  | some pd => 
                    readChildren E (reader.input.length + 2) (c.setPlotDesignation E pd) reader
  else
    let reader := reader.raiseError "XML read error: no column element found (loading failed)"
    (!reader.error, c, reader)

/-- A reader positioned on the first token of a token sequence, as `load` expects it
(on the start element of `column`). -/
def readerAt : List Token → QXmlStreamReader
  | [] => ⟨.NoToken, [], none⟩
  | t :: rest => ⟨t, rest, none⟩

/-- Rounds the loop of `Column::load` can still make from a reader state: none once
the reader is at the end, otherwise one per token left and one more. -/
def rounds (r : QXmlStreamReader) : Nat := if r.atEnd then 0 else r.input.length + 1

/-- The column as `Column::load` has reset it before it looks at the reader. -/
def resetForLoad (E : Externals) (c : Column) : Column :=
  ((((c.clear E).clearValidity E).clearFormulas E).clearMasks E).setComment ""

/-- The column as `Column::load` has it once name, creation time and caption spec are
read from the attributes of the `column` element. -/
def withAspectAttributes (E : Externals) (c : Column) (attribs : List (String × String)) :
    Column :=
  let c := (resetForLoad E c).setName (value attribs "label")
  let c := if !(value attribs "creation_time").isEmpty then
      c.setCreationTime (E.dateTimeFromString (value attribs "creation_time"))
    else c
  c.setCaptionSpec (value attribs "caption_spec")

/-- The loop of `Column::load`, entered with column `c` and reader `r`, ends with the
value `false` and an error raised on the reader. -/
def LoopFails (E : Externals) (c : Column) (r : QXmlStreamReader) : Prop :=
  (readChildren E (r.input.length + 2) c r).1 = false ∧
  (readChildren E (r.input.length + 2) c r).2.2.error = true

end Column

/-- A reader on which an error was raised: the error is recorded and the current token
is `Invalid`. -/
def QXmlStreamReader.Aborted (r : QXmlStreamReader) : Prop :=
  r.current = .Invalid ∧ r.error = true

/-! ## Documents and sample data -/

/-- An XML element whose content is character data only. -/
structure TextElement where
  name : String
  attributes : List (String × String)
  text : String
deriving DecidableEq, Repr

/-- The tokens of such an element. -/
def TextElement.tokens (e : TextElement) : List Token :=
  [.StartElement e.name e.attributes] ++ Column.writeCharacters e.text ++ [.EndElement e.name]

/-- What stands between the start and the end element of `column`: an element with
character data, a filter element (`input_filter`, `output_filter`) with the tokens of
its content, whatever they are, or a single token between the elements (white space, a
comment). -/
inductive Child
  | text (e : TextElement)
  | filter (name : String) (attributes : List (String × String)) (body : List Token)
  | between (t : Token)
deriving DecidableEq, Repr

/-- The tokens of a child. -/
def Child.tokens : Child → List Token
  | .text e => e.tokens
  | .filter name attributes body => [.StartElement name attributes] ++ body ++ [.EndElement name]
  | .between t => [t]

/-- The text `Column::save` writes into the `row` element of row `i`, by data type. -/
def Column.rowText (E : Externals) (c : Column) (i : Nat) : String :=
  match c.dataType with
  | .TypeDouble => E.number_e16 (c.valueAt i)
  | .TypeQString => c.textAt i
  | .TypeQDateTime => E.dateTimeToString (c.dateTimeAt i)

/-- The children of the `column` element as the description of the persisted form lists
them: `input_filter`, `output_filter`, `comment`, one `mask` per masked interval, one
`formula` per formula interval with the formula of its start row, one `row` per row in
ascending order. -/
def Column.savedChildren (E : Externals) (c : Column) : List Child :=
  [.filter "input_filter" [] (E.filterSave c.inputFilter),
   .filter "output_filter" [] (E.filterSave c.outputFilter),
   .text ⟨"comment", [], c.comment⟩] ++
  c.maskedIntervals.map (fun interval =>
    .text ⟨"mask", [("start_row", number interval.start), ("end_row", number interval.stop)],
      ""⟩) ++
  c.formulaIntervals.map (fun interval =>
    .text ⟨"formula",
      [("start_row", number interval.start), ("end_row", number interval.stop)],
      c.formula interval.start⟩) ++
  (List.range c.rowCount.toNat).map (fun i =>
    .text ⟨"row",
      [("type", c.dataType.enumValueToString), ("index", number i),
       ("invalid", if c.isInvalid i then "yes" else "no")],
      c.rowText E i⟩)

/-- The tokens that may stand between two elements: character data, comments,
processing instructions and entity references. -/
def Token.isBetween : Token → Bool
  | .Characters _ => true
  | .Comment _ => true
  | .ProcessingInstruction _ => true
  | .EntityReference _ => true
  | _ => false

/-- The loader of every filter, standing on the first token of `body`, reads on to the last
token of `body`, raises no error and returns true. -/
def Externals.ReadsFilterBody (E : Externals) (body : List Token) : Prop :=
  match body with
  | [] => False
  | b :: bs => ∀ (f : Filter) (tail : List Token),
      E.filterLoad f ⟨b, bs ++ tail, none⟩ = ⟨bs.length, none, true⟩

/-- The children the loop of `Column::load` is shown to pass over or to fail on: elements
with character data other than masks and filter elements, filter elements whose content
is well-formed and read by the filter's loader, and the tokens between elements. -/
def Child.Passable (E : Externals) : Child → Prop
  | .text e => e.name ≠ "mask" ∧ e.name ≠ "input_filter" ∧ e.name ≠ "output_filter"
  | .filter name _ body =>
    (name = "input_filter" ∨ name = "output_filter") ∧ (∀ t ∈ body, t ≠ Token.Invalid) ∧
      E.ReadsFilterBody body
  | .between t => t.isBetween = true

/-- One concrete choice of the externals, used to evaluate the embedding on examples.
A double is written as the decimal of its bit pattern and a date-time as the decimal of
its Julian day (the null date-time as the empty text); a filter is serialised as one
empty `simple_filter` element, which its loader reads to the end; the unset flag of
`XmlReadFormula` reads as true. -/
def sampleExternals : Externals where
  toDouble s := (parseInt s).bind (fun n => if 0 ≤ n then some ⟨n.toNat⟩ else none)
  number_e16 v := toString v.bits
  dateTimeFromString s :=
    match parseInt s with
    | some n => ⟨⟨some n⟩, ⟨some 0⟩⟩
    | none => QDateTime.null
  dateTimeToString d :=
    match d.date.jd with
    | some n => toString n
    | none => ""
  cellToDouble _ _ := QDouble.zero
  cellToText _ _ := ""
  cellToDateTime _ _ := QDateTime.null
  filterSave _ := [.StartElement "simple_filter" [], .EndElement "simple_filter"]
  filterLoad _ _ := ⟨1, none, true⟩
  ok2 _ := true

/-- The sample externals with doubles written as Qt writes them. -/
def sampleExternalsQtNumber : Externals :=
  { sampleExternals with number_e16 := fun v => number_e v 16 }

/-- A numeric column with the rows 1.0 and 0.1. -/
def oneAndOneTenth : Column :=
  (Column.create "num" .Numeric).replaceValues sampleExternalsQtNumber 0
    [⟨0x3FF0000000000000⟩, ⟨0x3FB999999999999A⟩]

/-- The numeric column with the rows 1.0, 2.0, 3.0 of which row 1 is masked. -/
def oneTwoThreeRowOneMasked : Column :=
  ((Column.create "num" .Numeric).replaceValues sampleExternalsQtNumber 0
    [⟨0x3FF0000000000000⟩, ⟨0x4000000000000000⟩, ⟨0x4008000000000000⟩]).setMaskedRow
    sampleExternalsQtNumber 1 true

/-- Children as they stand at the head of a saved numeric column: both filter elements,
white space, a comment and a row. -/
def sampleChildren : List Child :=
  [.filter "input_filter" [] [.StartElement "simple_filter" [], .EndElement "simple_filter"],
   .filter "output_filter" [] [.StartElement "simple_filter" [], .EndElement "simple_filter"],
   .between (.Characters "\n  "),
   .text ⟨"comment", [], "hello"⟩,
   .text ⟨"row", [("type", "Double"), ("index", "0"), ("invalid", "no")], "7"⟩]

/-- A text column with rows `a b c d` of which rows 1 to 3 are masked. -/
def maskedTextColumn : Column :=
  ((Column.create "col" .Text).replaceTexts sampleExternals 0 ["a", "b", "c", "d"]).setMasked
    sampleExternals ⟨1, 3⟩ true

/-- A text column with rows `a b c d` of which rows 1 to 3 carry the formula `col(1)`. -/
def formulaTextColumn : Column :=
  ((Column.create "col" .Text).replaceTexts sampleExternals 0 ["a", "b", "c", "d"]).setFormula
    sampleExternals ⟨1, 3⟩ "col(1)"

/-- A numeric column with rows of bit patterns 1, 2, 3. -/
def numericColumn : Column :=
  (Column.create "num" .Numeric).replaceValues sampleExternals 0 [⟨1⟩, ⟨2⟩, ⟨3⟩]

/-- A `column` element of type `Double` whose children are a mask of row 0 and a row
that declares the type `QString`. -/
def maskThenMistypedRow : List Token :=
  [.StartElement "column" [("label", "num"), ("type", "Double"), ("mode", "Numeric")],
   .StartElement "mask" [("start_row", "0"), ("end_row", "0")],
   .EndElement "mask",
   .StartElement "row" [("type", "QString"), ("index", "0"), ("invalid", "no")],
   .Characters "x",
   .EndElement "row",
   .EndElement "column"]

/-- A `column` element of type `Double` whose only child is a row that declares the type
`QString`. -/
def mistypedRow : List Token :=
  [.StartElement "column" [("label", "num"), ("type", "Double"), ("mode", "Numeric")],
   .StartElement "row" [("type", "QString"), ("index", "0"), ("invalid", "no")],
   .Characters "x",
   .EndElement "row",
   .EndElement "column"]

/-- A `column` element whose only child is a mask with an `end_row` that is no
integer. -/
def maskWithBadEndRow : List Token :=
  [.StartElement "column" [("label", "txt"), ("type", "QString"), ("mode", "Text")],
   .StartElement "mask" [("start_row", "1"), ("end_row", "x")],
   .EndElement "mask",
   .EndElement "column"]

/-- A `column` element of type `QDateTime` whose only child is a row whose text is no
timestamp. -/
def rowWithBadTimestamp : List Token :=
  [.StartElement "column" [("label", "dt"), ("type", "QDateTime"), ("mode", "DateTime")],
   .StartElement "row" [("type", "QDateTime"), ("index", "0"), ("invalid", "no")],
   .Characters "yesterday",
   .EndElement "row",
   .EndElement "column"]

/-! ## Undo, redo and sequences of operations -/

/-- Modelled from the spec: the state an entry of the undo log gives back when it is undone in
state `d`: its steps are reversed latest first, each giving back the state it replaced. -/
def UndoEntry.reverted (e : UndoEntry) (d : ColumnPrivate) : ColumnPrivate :=
  e.steps.foldl (fun _ s => s.before) d

/-- Modelled from the spec: the state an entry of the undo log gives when it is redone in
state `d`: its commands are applied again, earliest first. -/
def UndoEntry.reapplied (E : Externals) (e : UndoEntry) (d : ColumnPrivate) : ColumnPrivate :=
  e.steps.foldr (fun s d => s.cmd.redo E d) d

/-- The entries, latest first, lead from private `d` to private `d'`: each entry, undone
in the state behind it, gives the state in front of it, and redone there gives the state
behind it again. -/
def UndoChain (E : Externals) : List UndoEntry → ColumnPrivate → ColumnPrivate → Prop
  | [], d, d' => d = d'
  | e :: es, d, d' => ∃ mid, UndoChain E es d mid ∧ e.reverted d' = mid ∧ e.reapplied E mid = d'

namespace Column

/-- Modelled from the spec: `undo()` of the undo log, which is not among the sources: the entry
at the cursor is reverse-applied and the cursor retreats; no-op at the bottom. -/
def undo (c : Column) : Column :=
  match c.undoStack.done with
  | [] => c
  | e :: rest =>
    { c with
      d_column_private := e.reverted c.d_column_private
      undoStack := ⟨rest, e :: c.undoStack.undone, c.undoStack.depth⟩ }

/-- Modelled from the spec: `redo()` of the undo log: the entry after the cursor is re-applied
and the cursor advances; no-op at the top. -/
def redo (E : Externals) (c : Column) : Column :=
  match c.undoStack.undone with
  | [] => c
  | e :: rest =>
    { c with
      d_column_private := e.reapplied E c.d_column_private
      undoStack := ⟨e :: c.undoStack.done, rest, c.undoStack.depth⟩ }

/-- The sequence `clear(); clearValidity(); clearMasks(); clearFormulas()`. -/
def clearAll (E : Externals) (c : Column) : Column :=
  (((c.clear E).clearValidity E).clearMasks E).clearFormulas E

/-- The states a `Column` is in: the data type and the two filters are those of the
mode, as the private's constructor and the mode change set them up. -/
def Coherent (c : Column) : Prop :=
  c.dataType = c.columnMode.dataType ∧ c.inputFilter = .input c.columnMode ∧
    c.outputFilter = .output c.columnMode

/-- Two columns with the same private (mode, cells, intervals, filters, plot
designation) and the same comment. -/
def SameContent (c c' : Column) : Prop :=
  c.d_column_private = c'.d_column_private ∧ c.comment = c'.comment

end Column

/-- The mutating operations of `Column.cpp`, with their arguments. -/
inductive Operation
  | setColumnMode (mode : ColumnMode)
  | copy (other : ColumnPrivate)
  | copyRows (source : ColumnPrivate) (source_start dest_start num_rows : Int)
  | insertRows (before count : Int)
  | removeRows (first count : Int)
  | setPlotDesignation (pd : PlotDesignation)
  | clear
  | clearValidity
  | clearMasks
  | setInvalid (i : Interval) (invalid : Bool)
  | setInvalidRow (row : Int) (invalid : Bool)
  | setMasked (i : Interval) (mask : Bool)
  | setMaskedRow (row : Int) (mask : Bool)
  | setFormula (i : Interval) (formula : String)
  | setFormulaRow (row : Int) (formula : String)
  | clearFormulas
  | setTextAt (row : Int) (new_value : String)
  | replaceTexts (first : Int) (new_values : List String)
  | setDateAt (row : Int) (new_value : QDate)
  | setTimeAt (row : Int) (new_value : QTime)
  | setDateTimeAt (row : Int) (new_value : QDateTime)
  | replaceDateTimes (first : Int) (new_values : List QDateTime)
  | setValueAt (row : Int) (new_value : QDouble)
  | replaceValues (first : Int) (new_values : List QDouble)
deriving DecidableEq, Repr

namespace Operation

/-- The column after an operation. -/
def apply (E : Externals) (c : Column) : Operation → Column
  | .setColumnMode mode => c.setColumnMode E mode
  | .copy other => (c.copy E other).2
  | .copyRows source source_start dest_start num_rows =>
    (c.copyRows E source source_start dest_start num_rows).2
  | .insertRows before count => c.insertRows E before count
  | .removeRows first count => c.removeRows E first count
  | .setPlotDesignation pd => c.setPlotDesignation E pd
  | .clear => c.clear E
  | .clearValidity => c.clearValidity E
  | .clearMasks => c.clearMasks E
  | .setInvalid i invalid => c.setInvalid E i invalid
  | .setInvalidRow row invalid => c.setInvalidRow E row invalid
  | .setMasked i mask => c.setMasked E i mask
  | .setMaskedRow row mask => c.setMaskedRow E row mask
  | .setFormula i formula => c.setFormula E i formula
  | .setFormulaRow row formula => c.setFormulaRow E row formula
  | .clearFormulas => c.clearFormulas E
  | .setTextAt row new_value => c.setTextAt E row new_value
  | .replaceTexts first new_values => c.replaceTexts E first new_values
  | .setDateAt row new_value => c.setDateAt E row new_value
  | .setTimeAt row new_value => c.setTimeAt E row new_value
  | .setDateTimeAt row new_value => c.setDateTimeAt E row new_value
  | .replaceDateTimes first new_values => c.replaceDateTimes E first new_values
  | .setValueAt row new_value => c.setValueAt E row new_value
  | .replaceValues first new_values => c.replaceValues E first new_values

/-- The operation passes its guard on column `c` and so records an undo step: a mode
change to another mode, a copy from a source of the same data type, an insertion or
removal of a positive number of rows, a change of the plot designation; the other
operations have no guard. -/
def records (c : Column) : Operation → Bool
  | .setColumnMode mode => decide (mode ≠ c.columnMode)
  | .copy other => decide (other.dataType = c.dataType)
  | .copyRows source _ _ _ => decide (source.dataType = c.dataType)
  | .insertRows _ count => decide (count > 0)
  | .removeRows _ count => decide (count > 0)
  | .setPlotDesignation pd => decide (pd ≠ c.plotDesignation)
  | _ => true

end Operation

namespace Column

/-- A sequence of operations applied one after the other. -/
def applyAll (E : Externals) (c : Column) : List Operation → Column
  | [] => c
  | op :: ops => applyAll E (op.apply E c) ops

/-- Every operation of the sequence records an undo step on the column it is applied
to. -/
def allRecord (E : Externals) (c : Column) : List Operation → Bool
  | [] => true
  | op :: ops => op.records c && allRecord E (op.apply E c) ops

end Column

/-- What can happen between `beginMacro` and the matching `endMacro`: a command is
executed, a nested macro begins or ends. -/
inductive MacroAction
  | exec (cmd : ColumnCmd)
  | beginMacro (text : String)
  | endMacro
deriving DecidableEq, Repr

namespace MacroAction

/-- The column after one action. -/
def apply (E : Externals) (c : Column) : MacroAction → Column
  | .exec cmd => c.exec E cmd
  | .beginMacro text => c.beginMacro text
  | .endMacro => c.endMacro

/-- The actions are balanced from nesting level `n` on: no `endMacro` without a
`beginMacro` before it, and all nested macros closed at the end. -/
def balanced : Nat → List MacroAction → Bool
  | n, [] => n == 0
  | n, .exec _ :: rest => balanced n rest
  | n, .beginMacro _ :: rest => balanced (n + 1) rest
  | 0, .endMacro :: _ => false
  | n + 1, .endMacro :: rest => balanced n rest

/-- The commands among the actions, in the order executed. -/
def commands : List MacroAction → List ColumnCmd
  | [] => []
  | .exec cmd :: rest => cmd :: commands rest
  | _ :: rest => commands rest

end MacroAction

/-- A macro: `beginMacro(text)`, the actions, `endMacro()`. -/
def Column.runMacro (E : Externals) (c : Column) (text : String) (actions : List MacroAction) :
    Column :=
  (actions.foldl (MacroAction.apply E) (c.beginMacro text)).endMacro

/-- A `column` element with a comment child only. -/
def commentOnly : List Token :=
  [.StartElement "column" [("label", "txt"), ("type", "QString"), ("mode", "Text")],
   .StartElement "comment" [], .Characters "hello", .EndElement "comment",
   .EndElement "column"]

/-- The same element with an unknown element `style` inserted before the comment, which
has a child element `color`. -/
def commentAfterNestedUnknown : List Token :=
  [.StartElement "column" [("label", "txt"), ("type", "QString"), ("mode", "Text")],
   .StartElement "style" [],
   .StartElement "color" [("name", "red")], .EndElement "color",
   .EndElement "style",
   .StartElement "comment" [], .Characters "hello", .EndElement "comment",
   .EndElement "column"]

/-- The same element with an unknown element `note` inserted before the comment, which
has character data only. -/
def commentAfterTextUnknown : List Token :=
  [.StartElement "column" [("label", "txt"), ("type", "QString"), ("mode", "Text")],
   .StartElement "note" [("author", "a")], .Characters "later", .EndElement "note",
   .StartElement "comment" [], .Characters "hello", .EndElement "comment",
   .EndElement "column"]

/-- A column with three rows of which row 2 is masked. -/
def threeRowsRowTwoMasked : Column :=
  ((Column.create "num" .Numeric).replaceValues sampleExternals 0 [⟨1⟩, ⟨2⟩, ⟨3⟩]).setMaskedRow
    sampleExternals 2 true

/-- The sample externals with the unset flag of `XmlReadFormula` reading as false. -/
def sampleExternalsFlagFalse : Externals := { sampleExternals with ok2 := fun _ => false }

/-- A `column` element with one formula child for rows 1 to 3. -/
def formulaOneToThree : List Token :=
  [.StartElement "column" [("label", "txt"), ("type", "QString"), ("mode", "Text")],
   .StartElement "formula" [("start_row", "1"), ("end_row", "3")],
   .Characters "col(1)",
   .EndElement "formula",
   .EndElement "column"]

/-- The numeric column of three rows with row 1 masked. -/
def maskedNumericColumn : Column := numericColumn.setMaskedRow sampleExternals 1 true

/-- The numeric column of three rows with row 1 masked, the formula `col(2)` on rows 0
to 1 and row 2 invalid. -/
def annotatedNumericColumn : Column :=
  ((numericColumn.setMaskedRow sampleExternals 1 true).setFormula sampleExternals ⟨0, 1⟩
    "col(2)").setInvalidRow sampleExternals 2 true

/-- A date-time column with one row, which is empty: the null date-time. -/
def dateTimeColumnWithEmptyRow : Column :=
  (Column.create "when" .DateTime).insertRows sampleExternals 0 1

/-- A numeric column with a creation time. -/
def stampedColumn : Column :=
  (Column.create "old" .Numeric).setCreationTime ⟨⟨some 2451545⟩, ⟨some 0⟩⟩

/-- A `column` element of type `Double` and mode `Text` that has a label and a caption
spec and no creation time. -/
def mismatchWithoutCreationTime : List Token :=
  [.StartElement "column"
     [("label", "new"), ("caption_spec", "%n"), ("type", "Double"), ("mode", "Text")],
   .EndElement "column"]

end AlphaPlot

/-! ## Lemmas -/

namespace AlphaPlot
namespace QXmlStreamReader

theorem raiseError_input (r : QXmlStreamReader) (m : String) : (r.raiseError m).input = r.input := rfl

theorem raiseError_atEnd (r : QXmlStreamReader) (m : String) : (r.raiseError m).atEnd = true := rfl

theorem raiseError_error (r : QXmlStreamReader) (m : String) : (r.raiseError m).error = true := rfl

theorem readNext_input_le (r : QXmlStreamReader) : r.readNext.input.length ≤ r.input.length := by
  unfold readNext
  split
  · exact le_rfl
  · split <;> simp_all [raiseError]

theorem readTextLoop_input_le (err : Option String) (l : List Token) (acc : String) :
    (readTextLoop err l acc).2.input.length ≤ l.length := by
  induction l generalizing acc with
  | nil => simp [readTextLoop]
  | cons t rest ih =>
    cases t <;> simp only [readTextLoop, List.length_cons] <;>
      first
      | exact Nat.le_succ_of_le (ih _)
      | (split <;> simp)
      | simp

theorem readElementText_input_le (r : QXmlStreamReader) :
    r.readElementText.2.input.length ≤ r.input.length := by
  unfold readElementText
  split
  · exact readTextLoop_input_le _ _ _
  · exact le_rfl

theorem skip_input_le (n : Nat) (r : QXmlStreamReader) : (r.skip n).input.length ≤ r.input.length := by
  induction n generalizing r with
  | zero => exact le_rfl
  | succ n ih => exact le_trans (ih _) (readNext_input_le r)

end QXmlStreamReader

theorem FilterLoad.apply_input_le (f : FilterLoad) (r : QXmlStreamReader) :
    (f.apply r).input.length ≤ r.input.length := by
  unfold FilterLoad.apply
  split
  · exact QXmlStreamReader.skip_input_le _ _
  · exact QXmlStreamReader.skip_input_le _ _

namespace Column

theorem XmlReadRow_input_le (E : Externals) (c : Column) (r : QXmlStreamReader) :
    (XmlReadRow E c r).2.2.input.length ≤ r.input.length := by
  unfold XmlReadRow
  simp only []
  split
  · exact le_rfl
  · split
    · exact le_rfl
    · split
      · split
        · exact QXmlStreamReader.readElementText_input_le r
        · exact QXmlStreamReader.readElementText_input_le r
      · exact QXmlStreamReader.readElementText_input_le r
      · exact QXmlStreamReader.readElementText_input_le r

theorem readChild_input_le (E : Externals) (c : Column) (r : QXmlStreamReader) :
    (readChild E c r).2.2.input.length ≤ r.input.length := by
  unfold readChild
  split
  · exact QXmlStreamReader.readElementText_input_le r
  · split
    · exact le_trans (QXmlStreamReader.readNext_input_le _)
        (le_trans (FilterLoad.apply_input_le _ _) (QXmlStreamReader.readNext_input_le _))
    · split
      · exact le_trans (QXmlStreamReader.readNext_input_le _)
          (le_trans (FilterLoad.apply_input_le _ _) (QXmlStreamReader.readNext_input_le _))
      · split
        · unfold XmlReadMask
          simp only []
          split <;> split <;> exact le_rfl
        · split
          · unfold XmlReadFormula
            simp only []
            refine le_trans (QXmlStreamReader.readElementText_input_le _) ?_
            split <;> split <;> exact le_rfl
          · split
            · exact XmlReadRow_input_le E c r
            · exact QXmlStreamReader.readElementText_input_le r

theorem rounds_le (r : QXmlStreamReader) : rounds r ≤ r.input.length + 1 := by
  unfold rounds; split <;> omega

theorem rounds_readNext (r : QXmlStreamReader) (h : r.atEnd = false) :
    rounds r.readNext < rounds r := by
  have h1 : rounds r = r.input.length + 1 := by simp [rounds, h]
  rw [h1]
  unfold QXmlStreamReader.readNext
  split
  · rename_i hc; simp [QXmlStreamReader.atEnd, hc] at h
  · split
    · simp [rounds, QXmlStreamReader.raiseError, QXmlStreamReader.atEnd]
    · simp [rounds, QXmlStreamReader.raiseError, QXmlStreamReader.atEnd]
    · rename_i heq
      refine lt_of_le_of_lt (rounds_le _) ?_
      simp [heq]

theorem readNext_input_lt (r : QXmlStreamReader) (h : r.readNext.isStartElement = true)
    (h0 : r.atEnd = false) : r.readNext.input.length < r.input.length := by
  unfold QXmlStreamReader.readNext at h ⊢
  split at h
  · rename_i hc; simp [QXmlStreamReader.atEnd, hc] at h0
  · split at h
    · simp [QXmlStreamReader.raiseError, QXmlStreamReader.isStartElement] at h
    · simp [QXmlStreamReader.raiseError, QXmlStreamReader.isStartElement] at h
    · rename_i heq
      simp [heq]

theorem readChildren_fuel_eq (E : Externals) (f1 : Nat) :
    ∀ (f2 : Nat) (c : Column) (r : QXmlStreamReader), rounds r < f1 → rounds r < f2 →
      readChildren E f1 c r = readChildren E f2 c r := by
  induction f1 with
  | zero => intro f2 c r h; omega
  | succ f ih =>
    intro f2 c r h1 h2
    cases f2 with
    | zero => omega
    | succ g =>
      simp only [readChildren]
      by_cases hEnd : r.atEnd = true
      · simp [hEnd]
      · have hEnd' : r.atEnd = false := by simpa using hEnd
        have hlt := rounds_readNext r hEnd'
        simp only [hEnd', Bool.false_eq_true, if_false]
        split
        · rfl
        · split
          · split
            · rfl
            · have hle := readChild_input_le E c r.readNext
              have hr := rounds_le (readChild E c r.readNext).2.2
              rename_i hStart _
              have hr1 := readNext_input_lt r hStart hEnd'
              have hr2 : rounds r = r.input.length + 1 := by simp [rounds, hEnd']
              apply ih <;> omega
          · apply ih <;> omega

/-! ### The column after the resets of `load` -/

theorem resetForLoad_rowCount (E : Externals) (c : Column) : (resetForLoad E c).rowCount = 0 := by
  cases c with
  | mk n cm ct cs d ch u =>
    cases d with
    | mk m data i o v mk f p =>
      cases data <;> rfl

theorem resetForLoad_maskedIntervals (E : Externals) (c : Column) :
    (resetForLoad E c).maskedIntervals = [] := rfl

theorem resetForLoad_invalidIntervals (E : Externals) (c : Column) :
    (resetForLoad E c).invalidIntervals = [] := rfl

theorem resetForLoad_formulaIntervals (E : Externals) (c : Column) :
    (resetForLoad E c).formulaIntervals = [] := rfl

theorem resetForLoad_comment (E : Externals) (c : Column) : (resetForLoad E c).comment = "" := rfl

theorem resetForLoad_name (E : Externals) (c : Column) : (resetForLoad E c).name = c.name := rfl

theorem resetForLoad_columnMode (E : Externals) (c : Column) :
    (resetForLoad E c).columnMode = c.columnMode := rfl

theorem resetForLoad_dataType (E : Externals) (c : Column) :
    (resetForLoad E c).dataType = c.dataType := by
  cases c with
  | mk n cm ct cs d ch u =>
    cases d with
    | mk m data i o v mk f p =>
      cases data <;> rfl

end Column
end AlphaPlot

namespace AlphaPlot

theorem isEmpty_eq_decide (s : String) : s.isEmpty = decide (s = "") := by
  by_cases h : s = ""
  · subst h; rfl
  · cases hx : s.isEmpty
    · simp [h]
    · exact absurd ((String.isEmpty_iff s).1 hx) h

namespace Column

theorem load_on_column (E : Externals) (c : Column) (attribs : List (String × String))
    (input : List Token) (err : Option String) :
    load E c ⟨.StartElement "column" attribs, input, err⟩ =
      if value attribs "label" = "" then
        (false, resetForLoad E c, QXmlStreamReader.raiseError ⟨.StartElement "column" attribs, input, err⟩
          "XML read error: column label missing (loading failed)")
      else if value attribs "type" = "" then
        (false, withAspectAttributes E c attribs,
          QXmlStreamReader.raiseError ⟨.StartElement "column" attribs, input, err⟩
          "XML read error: column type missing (loading failed)")
      else
        match ColumnDataType.enumStringToValue (value attribs "type") with
        | none =>
          (false, withAspectAttributes E c attribs,
            QXmlStreamReader.raiseError ⟨.StartElement "column" attribs, input, err⟩
            "XML read error: column type invalid (loading failed)")
        | some type_code =>
          if value attribs "mode" = "" then
            (false, withAspectAttributes E c attribs,
              QXmlStreamReader.raiseError ⟨.StartElement "column" attribs, input, err⟩
              "XML read error: column mode missing (loading failed)")
          else
            match ColumnMode.enumStringToValue (value attribs "mode") with
            | none =>
              (false, withAspectAttributes E c attribs,
                QXmlStreamReader.raiseError ⟨.StartElement "column" attribs, input, err⟩
                "XML read error: column mode invalid (loading failed)")
            | some mode_code =>
              if type_code ≠ ((withAspectAttributes E c attribs).setColumnMode E mode_code).dataType then
                (false, (withAspectAttributes E c attribs).setColumnMode E mode_code,
                  QXmlStreamReader.raiseError ⟨.StartElement "column" attribs, input, err⟩
                  "XML read error: column type or mode invalid (loading failed)")
              else if value attribs "plot_designation" = "" then
                readChildren E (input.length + 2)
                  (((withAspectAttributes E c attribs).setColumnMode E mode_code).setPlotDesignation E
                    .noDesignation) ⟨.StartElement "column" attribs, input, err⟩
              else
                match PlotDesignation.enumStringToValue (value attribs "plot_designation") with
                | none =>
                  (false, (withAspectAttributes E c attribs).setColumnMode E mode_code,
                    QXmlStreamReader.raiseError ⟨.StartElement "column" attribs, input, err⟩
                    "XML read error: column plot designation invalid (loading failed)")
                | some pd =>
                  readChildren E (input.length + 2)
                    (((withAspectAttributes E c attribs).setColumnMode E mode_code).setPlotDesignation E
                      pd) ⟨.StartElement "column" attribs, input, err⟩ := by
  unfold load withAspectAttributes resetForLoad
  simp only [QXmlStreamReader.isStartElement, QXmlStreamReader.name,
    QXmlStreamReader.attributes, decide_True, Bool.and_self, if_true, isEmpty_eq_decide,
    decide_eq_true_eq]

theorem withAspectAttributes_private (E : Externals) (c : Column) (attribs : List (String × String)) :
    (withAspectAttributes E c attribs).d_column_private = (resetForLoad E c).d_column_private := by
  unfold withAspectAttributes
  simp only []
  split <;> rfl

theorem withAspectAttributes_comment (E : Externals) (c : Column) (attribs : List (String × String)) :
    (withAspectAttributes E c attribs).comment = "" := by
  unfold withAspectAttributes
  simp only []
  split <;> rfl

theorem dataType_enumStringToValue_empty : ColumnDataType.enumStringToValue "" = none := by decide

theorem mode_enumStringToValue_empty : ColumnMode.enumStringToValue "" = none := by decide

theorem value_absent (attribs : List (String × String)) (name : String)
    (h : ∀ a ∈ attribs, a.1 ≠ name) : value attribs name = "" := by
  unfold value
  have : attribs.find? (fun a => decide (a.1 = name)) = none := by
    rw [List.find?_eq_none]
    intro a ha
    simpa using h a ha
  rw [this]

theorem load_type_or_mode_unknown_eq (E : Externals) (c : Column)
    (attribs : List (String × String)) (input : List Token) (err : Option String)
    (hlabel : value attribs "label" ≠ "")
    (h : ColumnDataType.enumStringToValue (value attribs "type") = none ∨
      ColumnMode.enumStringToValue (value attribs "mode") = none) :
    ∃ message, load E c ⟨.StartElement "column" attribs, input, err⟩ =
      (false, withAspectAttributes E c attribs,
        QXmlStreamReader.raiseError ⟨.StartElement "column" attribs, input, err⟩ message) := by
  rw [load_on_column, if_neg hlabel]
  by_cases h2 : value attribs "type" = ""
  · rw [if_pos h2]; exact ⟨_, rfl⟩
  · rw [if_neg h2]
    cases h3 : ColumnDataType.enumStringToValue (value attribs "type") with
    | none => exact ⟨_, rfl⟩
    | some t =>
      simp only []
      by_cases h4 : value attribs "mode" = ""
      · rw [if_pos h4]; exact ⟨_, rfl⟩
      · rw [if_neg h4]
        cases h5 : ColumnMode.enumStringToValue (value attribs "mode") with
        | none => exact ⟨_, rfl⟩
        | some m =>
          rcases h with h | h
          · rw [h] at h3; cases h3
          · rw [h] at h5; cases h5

theorem setColumnMode_private (E : Externals) (c : Column) (m : ColumnMode) :
    (c.setColumnMode E m).d_column_private =
      if m = c.columnMode then c.d_column_private else c.d_column_private.setColumnMode E m := by
  unfold setColumnMode
  split
  · rfl
  · simp only []
    split <;> split <;> rfl

theorem setColumnMode_comment (E : Externals) (c : Column) (m : ColumnMode) :
    (c.setColumnMode E m).comment = c.comment := by
  unfold setColumnMode
  split
  · rfl
  · simp only []
    split <;> split <;> rfl

theorem ColumnPrivate_setColumnMode_dataType (E : Externals) (d : ColumnPrivate) (m : ColumnMode) :
    (d.setColumnMode E m).dataType = m.dataType := by
  cases m <;> rfl

theorem ColumnPrivate_setColumnMode_rowCount (E : Externals) (d : ColumnPrivate) (m : ColumnMode) :
    (d.setColumnMode E m).rowCount = d.rowCount := by
  cases d with
  | mk mode data i o v mk f p =>
    cases m <;> cases data <;>
      simp [ColumnPrivate.setColumnMode, ColumnPrivate.rowCount, Storage.rowCount,
        ColumnMode.dataType, Storage.cells]

theorem setColumnMode_dataType (E : Externals) (c : Column) (m : ColumnMode) :
    (c.setColumnMode E m).dataType = if m = c.columnMode then c.dataType else m.dataType := by
  show (c.setColumnMode E m).d_column_private.dataType = _
  rw [setColumnMode_private]
  split
  · rfl
  · exact ColumnPrivate_setColumnMode_dataType E _ m

theorem setColumnMode_rowCount (E : Externals) (c : Column) (m : ColumnMode) :
    (c.setColumnMode E m).rowCount = c.rowCount := by
  show (c.setColumnMode E m).d_column_private.rowCount = _
  rw [setColumnMode_private]
  split
  · rfl
  · exact ColumnPrivate_setColumnMode_rowCount E _ m

theorem setColumnMode_intervals (E : Externals) (c : Column) (m : ColumnMode) :
    (c.setColumnMode E m).maskedIntervals = c.maskedIntervals ∧
    (c.setColumnMode E m).invalidIntervals = c.invalidIntervals ∧
    (c.setColumnMode E m).formulaIntervals = c.formulaIntervals := by
  have h : ∀ d : ColumnPrivate, d = (c.setColumnMode E m).d_column_private →
      d.maskedIntervals = c.d_column_private.maskedIntervals ∧
      d.invalidIntervals = c.d_column_private.invalidIntervals ∧
      d.formulaIntervals = c.d_column_private.formulaIntervals := by
    intro d hd
    rw [setColumnMode_private] at hd
    split at hd
    · subst hd; exact ⟨rfl, rfl, rfl⟩
    · subst hd; exact ⟨rfl, rfl, rfl⟩
  exact h _ rfl

theorem withAspectAttributes_setColumnMode_dataType (E : Externals) (c : Column)
    (attribs : List (String × String)) (m : ColumnMode) :
    ((withAspectAttributes E c attribs).setColumnMode E m).dataType =
      (c.setColumnMode E m).dataType := by
  rw [setColumnMode_dataType, setColumnMode_dataType]
  have h1 : (withAspectAttributes E c attribs).columnMode = c.columnMode := by
    show (withAspectAttributes E c attribs).d_column_private.columnMode = _
    rw [withAspectAttributes_private]; rfl
  have h2 : (withAspectAttributes E c attribs).dataType = c.dataType := by
    show (withAspectAttributes E c attribs).d_column_private.dataType = _
    rw [withAspectAttributes_private]; exact resetForLoad_dataType E c
  rw [h1, h2]

theorem readChildren_fuel (E : Externals) (fuel : Nat) (c : Column) (r : QXmlStreamReader)
    (h : r.input.length + 2 ≤ fuel) :
    readChildren E fuel c r = readChildren E (r.input.length + 2) c r := by
  have := rounds_le r
  apply readChildren_fuel_eq <;> omega

theorem readChildren_atEnd (E : Externals) (c : Column) (r : QXmlStreamReader)
    (h : r.atEnd = true) :
    readChildren E (r.input.length + 2) c r = (!r.error, c, r) := by
  simp [readChildren, h]

theorem readChildren_round (E : Externals) (c : Column) (r : QXmlStreamReader)
    (h : r.atEnd = false) :
    readChildren E (r.input.length + 2) c r =
      if r.readNext.isEndElement then (!r.readNext.error, c, r.readNext)
      else if r.readNext.isStartElement then
        if !(readChild E c r.readNext).1 then
          (false, (readChild E c r.readNext).2.1, (readChild E c r.readNext).2.2)
        else readChildren E ((readChild E c r.readNext).2.2.input.length + 2)
          (readChild E c r.readNext).2.1 (readChild E c r.readNext).2.2
      else readChildren E (r.readNext.input.length + 2) c r.readNext := by
  have hlt := rounds_readNext r h
  have hr : rounds r = r.input.length + 1 := by simp [rounds, h]
  show readChildren E (r.input.length + 1 + 1) c r = _
  rw [readChildren]
  simp only [h, Bool.false_eq_true, if_false]
  split
  · rfl
  · split
    · split
      · rfl
      · rename_i hStart _
        have h1 := readNext_input_lt r hStart h
        have h2 := readChild_input_le E c r.readNext
        have h3 := rounds_le (readChild E c r.readNext).2.2
        apply readChildren_fuel_eq <;> omega
    · have h3 := rounds_le r.readNext
      apply readChildren_fuel_eq <;> omega

theorem LoopFails_of_aborted (E : Externals) (c : Column) (r : QXmlStreamReader)
    (h : r.Aborted) : LoopFails E c r := by
  have hEnd : r.atEnd = true := by simp [QXmlStreamReader.atEnd, h.1]
  unfold LoopFails
  rw [readChildren_atEnd E c r hEnd]
  simp [h.2]

end Column
end AlphaPlot

namespace AlphaPlot

theorem empty_append (t : String) : "" ++ t = t := by
  apply String.ext
  simp

namespace QXmlStreamReader

theorem Aborted_raiseError (r : QXmlStreamReader) (m : String) : (r.raiseError m).Aborted :=
  ⟨rfl, rfl⟩

theorem readElementText_aborted (r : QXmlStreamReader) (h : r.Aborted) :
    r.readElementText = ("", r) := by
  unfold readElementText
  simp [isStartElement, h.1]

/-- Reading the text of an element whose content is character data. -/
theorem readElementText_text (n n' : String) (a : List (String × String)) (t : String)
    (rest : List Token) (err : Option String) :
    readElementText ⟨.StartElement n a, Column.writeCharacters t ++ .EndElement n' :: rest, err⟩ =
      (t, ⟨.EndElement n', rest, err⟩) := by
  unfold readElementText Column.writeCharacters
  simp only [isStartElement, if_true]
  by_cases h : t = ""
  · subst h
    rfl
  · have h' : t.isEmpty = false := by rw [isEmpty_eq_decide]; simp [h]
    simp only [h', Bool.false_eq_true, if_false, List.singleton_append, readTextLoop, empty_append]

end QXmlStreamReader

namespace Column

theorem exec_dataType_of (E : Externals) (c : Column) (cmd : ColumnCmd)
    (h : (cmd.redo E c.d_column_private).d_data.dataType = c.d_column_private.d_data.dataType) :
    (c.exec E cmd).dataType = c.dataType := h

theorem replaceValues_dataType (d : ColumnPrivate) (first : Int) (v : List QDouble) :
    (d.replaceValues first v).dataType = d.dataType := by
  unfold ColumnPrivate.replaceValues
  split
  · split
    · rename_i h _; simp [ColumnPrivate.dataType, h, Storage.dataType]
    · rfl
  · rfl

theorem replaceTexts_dataType (d : ColumnPrivate) (first : Int) (v : List String) :
    (d.replaceTexts first v).dataType = d.dataType := by
  unfold ColumnPrivate.replaceTexts
  split
  · split
    · rename_i h _; simp [ColumnPrivate.dataType, h, Storage.dataType]
    · rfl
  · rfl

theorem replaceDateTimes_dataType (d : ColumnPrivate) (first : Int) (v : List QDateTime) :
    (d.replaceDateTimes first v).dataType = d.dataType := by
  unfold ColumnPrivate.replaceDateTimes
  split
  · split
    · rename_i h _; simp [ColumnPrivate.dataType, h, Storage.dataType]
    · rfl
  · rfl

theorem setValueAt_dataType (E : Externals) (c : Column) (row : Int) (v : QDouble) :
    (c.setValueAt E row v).dataType = c.dataType := replaceValues_dataType _ _ _

theorem setTextAt_dataType (E : Externals) (c : Column) (row : Int) (v : String) :
    (c.setTextAt E row v).dataType = c.dataType := replaceTexts_dataType _ _ _

theorem setDateTimeAt_dataType (E : Externals) (c : Column) (row : Int) (v : QDateTime) :
    (c.setDateTimeAt E row v).dataType = c.dataType := replaceDateTimes_dataType _ _ _

/-- What `XmlReadRow` does on a row element with character data: it aborts the reader, or
it returns true with the reader on the end element. -/
theorem XmlReadRow_text (E : Externals) (c : Column) (n' : String) (a : List (String × String))
    (t : String) (rest : List Token) :
    (XmlReadRow E c ⟨.StartElement "row" a, writeCharacters t ++ .EndElement n' :: rest, none⟩).2.2.Aborted ∨
    ((XmlReadRow E c ⟨.StartElement "row" a, writeCharacters t ++ .EndElement n' :: rest, none⟩).1 = true ∧
     (XmlReadRow E c ⟨.StartElement "row" a, writeCharacters t ++ .EndElement n' :: rest, none⟩).2.2 =
        ⟨.EndElement n', rest, none⟩ ∧
     (XmlReadRow E c ⟨.StartElement "row" a, writeCharacters t ++ .EndElement n' :: rest, none⟩).2.1.dataType =
        c.dataType) := by
  unfold XmlReadRow
  simp only []
  split
  · exact Or.inl (QXmlStreamReader.Aborted_raiseError _ _)
  · split
    · exact Or.inl (QXmlStreamReader.Aborted_raiseError _ _)
    · rw [QXmlStreamReader.readElementText_text]
      have hc : ∀ (b : Prop) [Decidable b] (i : Int),
          (if b then c.setInvalidRow E i true else c).dataType = c.dataType := by
        intro b _ i; split <;> rfl
      split
      · split
        · exact Or.inl (QXmlStreamReader.Aborted_raiseError _ _)
        · refine Or.inr ⟨rfl, rfl, ?_⟩
          exact (setValueAt_dataType E _ _ _).trans (hc _ _)
      · refine Or.inr ⟨rfl, rfl, ?_⟩
        exact (setTextAt_dataType E _ _ _).trans (hc _ _)
      · refine Or.inr ⟨rfl, rfl, ?_⟩
        exact (setDateTimeAt_dataType E _ _ _).trans (hc _ _)

theorem XmlReadFormula_text (E : Externals) (c : Column) (n' : String) (a : List (String × String))
    (t : String) (rest : List Token) :
    (XmlReadFormula E c ⟨.StartElement "formula" a, writeCharacters t ++ .EndElement n' :: rest, none⟩).2.2.Aborted ∨
    ((XmlReadFormula E c ⟨.StartElement "formula" a, writeCharacters t ++ .EndElement n' :: rest, none⟩).1 = true ∧
     (XmlReadFormula E c ⟨.StartElement "formula" a, writeCharacters t ++ .EndElement n' :: rest, none⟩).2.2 =
        ⟨.EndElement n', rest, none⟩ ∧
     (XmlReadFormula E c ⟨.StartElement "formula" a, writeCharacters t ++ .EndElement n' :: rest, none⟩).2.1.dataType =
        c.dataType) := by
  unfold XmlReadFormula
  simp only []
  split
  · left
    split
    · rw [QXmlStreamReader.readElementText_aborted _ (QXmlStreamReader.Aborted_raiseError _ _)]
      exact QXmlStreamReader.Aborted_raiseError _ _
    · rw [QXmlStreamReader.readElementText_aborted _ (QXmlStreamReader.Aborted_raiseError _ _)]
      exact QXmlStreamReader.Aborted_raiseError _ _
  · split
    · left
      rw [QXmlStreamReader.readElementText_aborted _ (QXmlStreamReader.Aborted_raiseError _ _)]
      exact QXmlStreamReader.Aborted_raiseError _ _
    · right
      rw [QXmlStreamReader.readElementText_text]
      refine ⟨?_, ?_, ?_⟩ <;> first | rfl | trivial

/-- What the loop's dispatch does on a child with character data that is neither a mask
nor a filter element. -/
theorem readChild_text (E : Externals) (c : Column) (e : TextElement) (rest : List Token)
    (h1 : e.name ≠ "mask") (h2 : e.name ≠ "input_filter") (h3 : e.name ≠ "output_filter") :
    (readChild E c ⟨.StartElement e.name e.attributes,
        writeCharacters e.text ++ .EndElement e.name :: rest, none⟩).2.2.Aborted ∨
    ((readChild E c ⟨.StartElement e.name e.attributes,
        writeCharacters e.text ++ .EndElement e.name :: rest, none⟩).1 = true ∧
     (readChild E c ⟨.StartElement e.name e.attributes,
        writeCharacters e.text ++ .EndElement e.name :: rest, none⟩).2.2 =
        ⟨.EndElement e.name, rest, none⟩ ∧
     (readChild E c ⟨.StartElement e.name e.attributes,
        writeCharacters e.text ++ .EndElement e.name :: rest, none⟩).2.1.dataType = c.dataType) := by
  unfold readChild
  simp only [QXmlStreamReader.name, h1, h2, h3, if_false]
  split
  · right
    unfold XmlReadComment
    rw [QXmlStreamReader.readElementText_text]
    exact ⟨rfl, rfl, rfl⟩
  · split
    · rename_i hf
      rw [hf]
      exact XmlReadFormula_text E c _ _ _ _
    · split
      · rename_i hr
        rw [hr]
        exact XmlReadRow_text E c _ _ _ _
      · right
        rw [QXmlStreamReader.readElementText_text]
        exact ⟨rfl, rfl, rfl⟩

theorem readNext_cons (cur t : Token) (rest : List Token) (err : Option String)
    (hcur : QXmlStreamReader.atEnd ⟨cur, t :: rest, err⟩ = false) (ht : t ≠ .Invalid) :
    QXmlStreamReader.readNext ⟨cur, t :: rest, err⟩ = ⟨t, rest, err⟩ := by
  unfold QXmlStreamReader.readNext
  cases cur <;> simp [QXmlStreamReader.atEnd] at hcur ⊢

/-- One round of the loop over a child with character data: the load fails if it fails
from the end element of the child on, whatever the child made of the column. -/
theorem LoopFails_step_text (E : Externals) (c : Column) (cur : Token) (e : TextElement)
    (tail : List Token)
    (hcur : QXmlStreamReader.atEnd ⟨cur, e.tokens ++ tail, none⟩ = false)
    (h1 : e.name ≠ "mask") (h2 : e.name ≠ "input_filter") (h3 : e.name ≠ "output_filter")
    (hnext : ∀ c' : Column, c'.dataType = c.dataType →
      LoopFails E c' ⟨.EndElement e.name, tail, none⟩) :
    LoopFails E c ⟨cur, e.tokens ++ tail, none⟩ := by
  have hrn : QXmlStreamReader.readNext ⟨cur, e.tokens ++ tail, none⟩ =
      ⟨.StartElement e.name e.attributes, writeCharacters e.text ++ .EndElement e.name :: tail,
        none⟩ := by
    have : e.tokens ++ tail = .StartElement e.name e.attributes ::
        (writeCharacters e.text ++ .EndElement e.name :: tail) := by
      simp [TextElement.tokens]
    rw [this] at hcur ⊢
    exact readNext_cons _ _ _ _ hcur (by simp)
  unfold LoopFails
  rw [readChildren_round E c _ hcur, hrn]
  simp only [QXmlStreamReader.isEndElement, QXmlStreamReader.isStartElement, Bool.false_eq_true,
    if_false, if_true]
  rcases readChild_text E c e tail h1 h2 h3 with hab | ⟨hok, hr, hdt⟩
  · by_cases hres : (readChild E c ⟨.StartElement e.name e.attributes,
        writeCharacters e.text ++ .EndElement e.name :: tail, none⟩).1 = true
    · simp only [hres, Bool.not_true, Bool.false_eq_true, if_false]
      exact LoopFails_of_aborted E _ _ hab
    · simp only [hres, Bool.not_false, if_true]
      exact ⟨trivial, hab.2⟩
  · simp only [hok, Bool.not_true, Bool.false_eq_true, if_false]
    rw [hr]
    exact hnext _ hdt

theorem toInt_empty : toInt "" = (0, false) := by decide

theorem setPlotDesignation_dataType (E : Externals) (c : Column) (pd : PlotDesignation) :
    (c.setPlotDesignation E pd).dataType = c.dataType := by
  unfold setPlotDesignation
  split <;> rfl

/-- `XmlReadRow` on a row whose index does not convert, or whose text is no double on a
column of doubles: it returns false and has raised an error. -/
theorem XmlReadRow_unparsable (E : Externals) (c : Column) (a : List (String × String))
    (t : String) (n' : String) (rest : List Token)
    (hbad : (toInt (value a "index")).2 = false ∨
      (c.dataType = .TypeDouble ∧ E.toDouble t = none)) :
    (XmlReadRow E c ⟨.StartElement "row" a, writeCharacters t ++ .EndElement n' :: rest, none⟩).1
      = false ∧
    (XmlReadRow E c
      ⟨.StartElement "row" a, writeCharacters t ++ .EndElement n' :: rest, none⟩).2.2.Aborted := by
  unfold XmlReadRow
  simp only [QXmlStreamReader.attributes]
  split
  · exact ⟨rfl, QXmlStreamReader.Aborted_raiseError _ _⟩
  · split
    · exact ⟨rfl, QXmlStreamReader.Aborted_raiseError _ _⟩
    · rename_i hidx
      rcases hbad with hbad | ⟨hT, hD⟩
      · exfalso
        apply hidx
        simp [hbad]
      · rw [QXmlStreamReader.readElementText_text]
        have hc : (if value a "invalid" = "yes" then
            c.setInvalidRow E (toInt (value a "index")).1 true else c).dataType = .TypeDouble := by
          split
          · exact hT
          · exact hT
        split
        · split
          · exact ⟨rfl, QXmlStreamReader.Aborted_raiseError _ _⟩
          · rename_i v hv
            simp only [] at hv
            rw [hD] at hv
            cases hv
        · rename_i h; rw [hc] at h; cases h
        · rename_i h; rw [hc] at h; cases h

/-- The loop fails when the next child is such a row. -/
theorem LoopFails_unparsable_row (E : Externals) (c : Column) (cur : Token) (bad : TextElement)
    (rest : List Token)
    (hcur : QXmlStreamReader.atEnd ⟨cur, bad.tokens ++ rest, none⟩ = false)
    (hrow : bad.name = "row")
    (hbad : (toInt (value bad.attributes "index")).2 = false ∨
      (c.dataType = .TypeDouble ∧ E.toDouble bad.text = none)) :
    LoopFails E c ⟨cur, bad.tokens ++ rest, none⟩ := by
  have hrn : QXmlStreamReader.readNext ⟨cur, bad.tokens ++ rest, none⟩ =
      ⟨.StartElement "row" bad.attributes, writeCharacters bad.text ++ .EndElement "row" :: rest,
        none⟩ := by
    have : bad.tokens ++ rest = .StartElement "row" bad.attributes ::
        (writeCharacters bad.text ++ .EndElement "row" :: rest) := by
      simp [TextElement.tokens, hrow]
    rw [this] at hcur ⊢
    exact readNext_cons _ _ _ _ hcur (by simp)
  have hchild : ∀ r : QXmlStreamReader, r.name = "row" → readChild E c r = XmlReadRow E c r := by
    intro r hr
    unfold readChild
    simp [hr]
  unfold LoopFails
  rw [readChildren_round E c _ hcur, hrn]
  simp only [QXmlStreamReader.isEndElement, QXmlStreamReader.isStartElement, Bool.false_eq_true,
    if_false, if_true]
  rw [hchild ⟨.StartElement "row" bad.attributes,
    writeCharacters bad.text ++ .EndElement "row" :: rest, none⟩ rfl]
  have h := XmlReadRow_unparsable E c bad.attributes bad.text "row" rest hbad
  simp only [h.1, Bool.not_false, if_true]
  exact ⟨trivial, h.2.2⟩

/-- `load` on a `column` element fails whenever its loop fails for every column that has the
data type named by the element. -/
theorem load_fails_of_LoopFails (E : Externals) (c : Column) (attribs : List (String × String))
    (input : List Token) (err : Option String)
    (h : ∀ c' : Column,
      ColumnDataType.enumStringToValue (value attribs "type") = some c'.dataType →
      LoopFails E c' ⟨.StartElement "column" attribs, input, err⟩) :
    (load E c ⟨.StartElement "column" attribs, input, err⟩).1 = false ∧
    (load E c ⟨.StartElement "column" attribs, input, err⟩).2.2.error = true := by
  rw [load_on_column]
  split
  · exact ⟨rfl, rfl⟩
  · split
    · exact ⟨rfl, rfl⟩
    · split
      · exact ⟨rfl, rfl⟩
      · rename_i t ht
        split
        · exact ⟨rfl, rfl⟩
        · split
          · exact ⟨rfl, rfl⟩
          · rename_i m hm
            split
            · exact ⟨rfl, rfl⟩
            · rename_i hne
              have hdt : t = ((withAspectAttributes E c attribs).setColumnMode E m).dataType := by
                by_contra hx; exact hne hx
              split
              · apply h
                rw [ht, setPlotDesignation_dataType, ← hdt]
              · split
                · exact ⟨rfl, rfl⟩
                · apply h
                  rw [ht, setPlotDesignation_dataType, ← hdt]

theorem dataType_enumStringToValue_Double :
    ColumnDataType.enumStringToValue "Double" = some .TypeDouble := by decide

theorem readNext_of_valid (cur t : Token) (rest : List Token) (err : Option String)
    (hcur : cur ≠ .Invalid) (ht : t ≠ .Invalid) :
    QXmlStreamReader.readNext ⟨cur, t :: rest, err⟩ = ⟨t, rest, err⟩ := by
  unfold QXmlStreamReader.readNext
  cases cur <;> simp at hcur ⊢

/-- Reading on over a run of tokens none of which is `Invalid`. -/
theorem skip_body (bs : List Token) : ∀ (b : Token) (tail : List Token),
    (∀ t ∈ b :: bs, t ≠ Token.Invalid) →
    ∃ last, last ≠ Token.Invalid ∧
      QXmlStreamReader.skip bs.length ⟨b, bs ++ tail, none⟩ = ⟨last, tail, none⟩ := by
  induction bs with
  | nil => intro b tail h; exact ⟨b, h b (List.mem_cons_self _ _), rfl⟩
  | cons x xs ih =>
    intro b tail h
    have hb := h b (List.mem_cons_self _ _)
    have hx := h x (List.mem_cons_of_mem _ (List.mem_cons_self _ _))
    obtain ⟨last, hl, hs⟩ := ih x tail (fun t ht => h t (List.mem_cons_of_mem _ ht))
    refine ⟨last, hl, ?_⟩
    show QXmlStreamReader.skip xs.length (QXmlStreamReader.readNext ⟨b, x :: (xs ++ tail), none⟩) = _
    rw [readNext_of_valid _ _ _ _ hb hx]
    exact hs

/-- The reader after a filter's loader has read the content of its element and the
end element has been read behind it. -/
theorem filter_child_read (E : Externals) (f : Filter) (n : String) (a : List (String × String))
    (body tail : List Token) (hbody : ∀ t ∈ body, t ≠ Token.Invalid)
    (hreads : E.ReadsFilterBody body) :
    (E.filterLoad f (QXmlStreamReader.readNext
        ⟨.StartElement n a, body ++ .EndElement n :: tail, none⟩)).result = true ∧
    QXmlStreamReader.readNext ((E.filterLoad f (QXmlStreamReader.readNext
        ⟨.StartElement n a, body ++ .EndElement n :: tail, none⟩)).apply
      (QXmlStreamReader.readNext ⟨.StartElement n a, body ++ .EndElement n :: tail, none⟩)) =
      ⟨.EndElement n, tail, none⟩ := by
  cases body with
  | nil => exact absurd hreads (by simp [Externals.ReadsFilterBody])
  | cons b bs =>
    have hb := hbody b (List.mem_cons_self _ _)
    have hrn : QXmlStreamReader.readNext
        ⟨.StartElement n a, (b :: bs) ++ .EndElement n :: tail, none⟩ =
        ⟨b, bs ++ .EndElement n :: tail, none⟩ :=
      readNext_of_valid _ _ _ _ (by simp) hb
    rw [hrn]
    have hf := hreads f (.EndElement n :: tail)
    rw [hf]
    obtain ⟨last, hl, hs⟩ := skip_body bs b (.EndElement n :: tail) hbody
    refine ⟨rfl, ?_⟩
    show QXmlStreamReader.readNext
      (QXmlStreamReader.skip bs.length ⟨b, bs ++ .EndElement n :: tail, none⟩) = _
    rw [hs]
    exact readNext_of_valid _ _ _ _ hl (by simp)

/-- What the loop's dispatch does on a passable filter child: it returns true with the
reader on the end element and the column as it was. -/
theorem readChild_filter (E : Externals) (c : Column) (n : String) (a : List (String × String))
    (body tail : List Token) (hn : n = "input_filter" ∨ n = "output_filter")
    (hbody : ∀ t ∈ body, t ≠ Token.Invalid) (hreads : E.ReadsFilterBody body) :
    readChild E c ⟨.StartElement n a, body ++ .EndElement n :: tail, none⟩ =
      (true, c, ⟨.EndElement n, tail, none⟩) := by
  rcases hn with hn | hn
  · subst hn
    have h := filter_child_read E c.inputFilter "input_filter" a body tail hbody hreads
    unfold readChild XmlReadInputFilter
    simp only [QXmlStreamReader.name, if_true]
    have hne : ("input_filter" = "comment") = False := by decide
    simp only [hne, if_false, h.1, h.2]
  · subst hn
    have h := filter_child_read E c.outputFilter "output_filter" a body tail hbody hreads
    unfold readChild XmlReadOutputFilter
    simp only [QXmlStreamReader.name, if_true]
    have hne : ("output_filter" = "comment") = False := by decide
    have hne2 : ("output_filter" = "input_filter") = False := by decide
    simp only [hne, hne2, if_false, h.1, h.2]

/-- One round of the loop over a passable child: the load fails if it fails from behind
the child on, whatever the child made of the column. -/
theorem LoopFails_step (E : Externals) (c : Column) (cur : Token) (ch : Child)
    (tail : List Token)
    (hcur : QXmlStreamReader.atEnd ⟨cur, ch.tokens ++ tail, none⟩ = false)
    (hch : ch.Passable E)
    (hnext : ∀ (c' : Column) (cur' : Token), c'.dataType = c.dataType →
      QXmlStreamReader.atEnd ⟨cur', tail, none⟩ = false → LoopFails E c' ⟨cur', tail, none⟩) :
    LoopFails E c ⟨cur, ch.tokens ++ tail, none⟩ := by
  cases ch with
  | text e =>
    exact LoopFails_step_text E c cur e tail hcur hch.1 hch.2.1 hch.2.2
      (fun c' hc' => hnext c' (.EndElement e.name) hc' rfl)
  | filter n a body =>
    obtain ⟨hn, hbody, hreads⟩ := hch
    have htok : (Child.filter n a body).tokens ++ tail =
        .StartElement n a :: (body ++ .EndElement n :: tail) := by
      simp [Child.tokens]
    rw [htok] at hcur ⊢
    have hrn : QXmlStreamReader.readNext ⟨cur, .StartElement n a :: (body ++ .EndElement n :: tail),
        none⟩ = ⟨.StartElement n a, body ++ .EndElement n :: tail, none⟩ :=
      readNext_cons _ _ _ _ hcur (by simp)
    unfold LoopFails
    rw [readChildren_round E c _ hcur, hrn, readChild_filter E c n a body tail hn hbody hreads]
    simp only [QXmlStreamReader.isEndElement, QXmlStreamReader.isStartElement,
      Bool.false_eq_true, if_false, if_true, Bool.not_true]
    exact hnext c (.EndElement n) rfl rfl
  | between t =>
    have htok : (Child.between t).tokens ++ tail = t :: tail := rfl
    rw [htok] at hcur ⊢
    have hb : t.isBetween = true := hch
    have ht : t ≠ Token.Invalid := by
      intro h; rw [h] at hb; cases hb
    have hrn : QXmlStreamReader.readNext ⟨cur, t :: tail, none⟩ = ⟨t, tail, none⟩ :=
      readNext_cons _ _ _ _ hcur ht
    have hEnd : QXmlStreamReader.atEnd ⟨t, tail, none⟩ = false := by
      cases t <;> first | rfl | cases hb
    have hE : QXmlStreamReader.isEndElement ⟨t, tail, none⟩ = false := by
      cases t <;> first | rfl | cases hb
    have hS : QXmlStreamReader.isStartElement ⟨t, tail, none⟩ = false := by
      cases t <;> first | rfl | cases hb
    unfold LoopFails
    rw [readChildren_round E c _ hcur, hrn]
    simp only [hE, hS, Bool.false_eq_true, if_false]
    exact hnext c t rfl hEnd

/-- The loop over a run of passable children: the load fails if it fails from behind the
run. -/
theorem LoopFails_after_children (E : Externals) (T : ColumnDataType) (tail : List Token)
    (hnext : ∀ (c' : Column) (cur : Token), c'.dataType = T →
      QXmlStreamReader.atEnd ⟨cur, tail, none⟩ = false → LoopFails E c' ⟨cur, tail, none⟩)
    (pre : List Child) (hpre : ∀ ch ∈ pre, ch.Passable E) :
    ∀ (c : Column) (cur : Token), c.dataType = T →
      QXmlStreamReader.atEnd ⟨cur, pre.flatMap Child.tokens ++ tail, none⟩ = false →
      LoopFails E c ⟨cur, pre.flatMap Child.tokens ++ tail, none⟩ := by
  induction pre with
  | nil => intro c cur hT hcur; exact hnext c cur hT hcur
  | cons ch pre ih =>
    intro c cur hT hcur
    have hch := hpre ch (List.mem_cons_self _ _)
    have hpre' : ∀ ch' ∈ pre, ch'.Passable E := fun ch' h' => hpre ch' (List.mem_cons_of_mem _ h')
    have hl : (ch :: pre).flatMap Child.tokens ++ tail =
        ch.tokens ++ (pre.flatMap Child.tokens ++ tail) := by
      simp [List.flatMap, List.append_assoc]
    rw [hl] at hcur ⊢
    apply LoopFails_step E c cur ch _ hcur hch
    intro c' cur' hc' hcur'
    exact ih hpre' c' cur' (hc'.trans hT) hcur'


/-- The loop fails when the next child is a row whose declared type is not the data type
of the column. -/
theorem LoopFails_mistyped_row (E : Externals) (c : Column) (cur : Token) (bad : TextElement)
    (rest : List Token)
    (hcur : QXmlStreamReader.atEnd ⟨cur, bad.tokens ++ rest, none⟩ = false)
    (hrow : bad.name = "row")
    (hty : ColumnDataType.enumStringToValue (value bad.attributes "type") ≠ some c.dataType) :
    LoopFails E c ⟨cur, bad.tokens ++ rest, none⟩ := by
  have hrn : QXmlStreamReader.readNext ⟨cur, bad.tokens ++ rest, none⟩ =
      ⟨.StartElement "row" bad.attributes, writeCharacters bad.text ++ .EndElement "row" :: rest,
        none⟩ := by
    have : bad.tokens ++ rest = .StartElement "row" bad.attributes ::
        (writeCharacters bad.text ++ .EndElement "row" :: rest) := by
      simp [TextElement.tokens, hrow]
    rw [this] at hcur ⊢
    exact readNext_cons _ _ _ _ hcur (by simp)
  have hchild : ∀ r : QXmlStreamReader, r.name = "row" → readChild E c r = XmlReadRow E c r := by
    intro r hr
    unfold readChild
    simp [hr]
  have hx : XmlReadRow E c ⟨.StartElement "row" bad.attributes,
      writeCharacters bad.text ++ .EndElement "row" :: rest, none⟩ =
      (false, c, QXmlStreamReader.raiseError ⟨.StartElement "row" bad.attributes,
        writeCharacters bad.text ++ .EndElement "row" :: rest, none⟩
        "XML read error: invalid or missing row type (loading failed)") := by
    unfold XmlReadRow
    simp only [QXmlStreamReader.attributes]
    rw [if_pos]
    simp [hty]
  unfold LoopFails
  rw [readChildren_round E c _ hcur, hrn]
  simp only [QXmlStreamReader.isEndElement, QXmlStreamReader.isStartElement, Bool.false_eq_true,
    if_false, if_true]
  rw [hchild ⟨.StartElement "row" bad.attributes,
    writeCharacters bad.text ++ .EndElement "row" :: rest, none⟩ rfl, hx]
  exact ⟨rfl, rfl⟩

/-- Where the code does as C4 says: on a `column` element whose children up to a `row` child
are passable, a row whose `type` attribute is absent, no name of a data type or another
type than that of the element makes `load` return false with an error raised. -/
theorem load_row_type_mismatch (E : Externals) (c : Column) (attribs : List (String × String))
    (pre : List Child) (bad : TextElement) (rest : List Token)
    (hpre : ∀ ch ∈ pre, ch.Passable E)
    (hrow : bad.name = "row")
    (hty : ColumnDataType.enumStringToValue (value bad.attributes "type") ≠
      ColumnDataType.enumStringToValue (value attribs "type")) :
    (load E c ⟨.StartElement "column" attribs,
        pre.flatMap Child.tokens ++ (bad.tokens ++ rest), none⟩).1 = false ∧
    (load E c ⟨.StartElement "column" attribs,
        pre.flatMap Child.tokens ++ (bad.tokens ++ rest), none⟩).2.2.error = true := by
  apply load_fails_of_LoopFails
  intro c' hc'
  refine LoopFails_after_children E c'.dataType (bad.tokens ++ rest) ?_ pre hpre c'
    (.StartElement "column" attribs) rfl rfl
  intro c'' cur hT hcur
  apply LoopFails_mistyped_row E c'' cur bad rest hcur hrow
  rw [hT, ← hc']
  exact hty

/-- `XmlReadMask` and `XmlReadFormula` on an element whose `start_row` or `end_row` is absent
or empty, or whose `start_row` does not convert to an integer: the reader is aborted. -/
theorem XmlReadMask_bad_rows (E : Externals) (c : Column) (r : QXmlStreamReader)
    (h : value r.attributes "start_row" = "" ∨ value r.attributes "end_row" = "" ∨
      (toInt (value r.attributes "start_row")).2 = false) :
    (XmlReadMask E c r).2.2.Aborted ∧ (XmlReadFormula E c r).2.2.Aborted := by
  have hor : (value r.attributes "start_row" = "" ∨ value r.attributes "end_row" = "") ∨
      (toInt (value r.attributes "start_row")).2 = false := by
    rcases h with h | h | h
    · exact Or.inl (Or.inl h)
    · exact Or.inl (Or.inr h)
    · exact Or.inr h
  constructor
  · unfold XmlReadMask
    simp only [isEmpty_eq_decide]
    rcases hor with h | h
    · have h1 : (decide (value r.attributes "start_row" = "") ||
          decide (value r.attributes "end_row" = "")) = true := by
        rcases h with h | h <;> simp [h]
      simp only [h1, if_true]
      split <;> exact QXmlStreamReader.Aborted_raiseError _ _
    · simp only [h, Bool.not_false, Bool.or_self, if_true]
      exact QXmlStreamReader.Aborted_raiseError _ _
  · unfold XmlReadFormula
    simp only [isEmpty_eq_decide]
    rcases hor with h | h
    · have h1 : (decide (value r.attributes "start_row" = "") ||
          decide (value r.attributes "end_row" = "")) = true := by
        rcases h with h | h <;> simp [h]
      simp only [h1, if_true]
      split
      · rw [QXmlStreamReader.readElementText_aborted _ (QXmlStreamReader.Aborted_raiseError _ _)]
        exact QXmlStreamReader.Aborted_raiseError _ _
      · rw [QXmlStreamReader.readElementText_aborted _ (QXmlStreamReader.Aborted_raiseError _ _)]
        exact QXmlStreamReader.Aborted_raiseError _ _
    · simp only [h, Bool.not_false, Bool.true_or, if_true]
      rw [QXmlStreamReader.readElementText_aborted _ (QXmlStreamReader.Aborted_raiseError _ _)]
      exact QXmlStreamReader.Aborted_raiseError _ _

/-- Where the code does as C9 says: on a `column` element whose children up to a `mask` or
`formula` child are passable, a mask or formula whose `start_row` or `end_row` is absent or
empty, or whose `start_row` is no integer, makes `load` return false with an error
raised. -/
theorem load_mask_formula_bad_rows (E : Externals) (c : Column)
    (attribs : List (String × String)) (pre : List Child) (bad : TextElement)
    (rest : List Token)
    (hpre : ∀ ch ∈ pre, ch.Passable E)
    (hname : bad.name = "mask" ∨ bad.name = "formula")
    (h : value bad.attributes "start_row" = "" ∨ value bad.attributes "end_row" = "" ∨
      (toInt (value bad.attributes "start_row")).2 = false) :
    (load E c ⟨.StartElement "column" attribs,
        pre.flatMap Child.tokens ++ (bad.tokens ++ rest), none⟩).1 = false ∧
    (load E c ⟨.StartElement "column" attribs,
        pre.flatMap Child.tokens ++ (bad.tokens ++ rest), none⟩).2.2.error = true := by
  apply load_fails_of_LoopFails
  intro c' _
  refine LoopFails_after_children E c'.dataType (bad.tokens ++ rest) ?_ pre hpre c'
    (.StartElement "column" attribs) rfl rfl
  intro c'' cur _ hcur
  have hrn : QXmlStreamReader.readNext ⟨cur, bad.tokens ++ rest, none⟩ =
      ⟨.StartElement bad.name bad.attributes,
        writeCharacters bad.text ++ .EndElement bad.name :: rest, none⟩ := by
    have : bad.tokens ++ rest = .StartElement bad.name bad.attributes ::
        (writeCharacters bad.text ++ .EndElement bad.name :: rest) := by
      simp [TextElement.tokens]
    rw [this] at hcur ⊢
    exact readNext_cons _ _ _ _ hcur (by simp)
  have hb := XmlReadMask_bad_rows E c'' ⟨.StartElement bad.name bad.attributes,
        writeCharacters bad.text ++ .EndElement bad.name :: rest, none⟩ h
  have hchild : (readChild E c'' ⟨.StartElement bad.name bad.attributes,
        writeCharacters bad.text ++ .EndElement bad.name :: rest, none⟩).1 = true ∧
      (readChild E c'' ⟨.StartElement bad.name bad.attributes,
        writeCharacters bad.text ++ .EndElement bad.name :: rest, none⟩).2.2.Aborted := by
    unfold readChild
    rcases hname with hn | hn
    · have h1 : (bad.name = "comment") = False := by rw [hn]; decide
      have h2 : (bad.name = "input_filter") = False := by rw [hn]; decide
      have h3 : (bad.name = "output_filter") = False := by rw [hn]; decide
      simp only [QXmlStreamReader.name, h1, h2, h3, hn, if_false, if_true]
      rw [hn] at hb
      exact ⟨rfl, hb.1⟩
    · have h1 : (bad.name = "comment") = False := by rw [hn]; decide
      have h2 : (bad.name = "input_filter") = False := by rw [hn]; decide
      have h3 : (bad.name = "output_filter") = False := by rw [hn]; decide
      have h4 : (bad.name = "mask") = False := by rw [hn]; decide
      simp only [QXmlStreamReader.name, h1, h2, h3, h4, hn, if_false, if_true]
      rw [hn] at hb
      exact ⟨rfl, hb.2⟩
  unfold LoopFails
  rw [readChildren_round E c'' _ hcur, hrn]
  simp only [QXmlStreamReader.isEndElement, QXmlStreamReader.isStartElement, Bool.false_eq_true,
    if_false, if_true, hchild.1, Bool.not_true]
  exact LoopFails_of_aborted E _ _ hchild.2

/-- The sample children are passable for the sample externals. -/
theorem sampleChildren_passable : ∀ ch ∈ sampleChildren, ch.Passable sampleExternals := by
  intro ch h
  simp only [sampleChildren, List.mem_cons, List.mem_singleton, List.not_mem_nil, or_false] at h
  rcases h with rfl | rfl | rfl | rfl | rfl
  · exact ⟨Or.inl rfl, by decide, fun _ _ => rfl⟩
  · exact ⟨Or.inr rfl, by decide, fun _ _ => rfl⟩
  · exact rfl
  · exact ⟨by decide, by decide, by decide⟩
  · exact ⟨by decide, by decide, by decide⟩

end Column
end AlphaPlot

namespace AlphaPlot
namespace Column

/-! ### Commands in the undo log -/

theorem push_commands (u : UndoStack) (s : UndoStep) :
    (u.push s).commands = s.cmd :: u.commands := by
  unfold UndoStack.push
  split
  · simp [UndoStack.commands]
  · split
    · next e rest h => simp [UndoStack.commands, h]
    · next h => simp [UndoStack.commands, h]

theorem exec_commands (E : Externals) (c : Column) (cmd : ColumnCmd) :
    (c.exec E cmd).undoStack.commands = cmd :: c.undoStack.commands :=
  push_commands _ _

theorem beginMacro_commands (u : UndoStack) (text : String) :
    (u.beginMacro text).commands = u.commands := by
  unfold UndoStack.beginMacro
  split
  · simp [UndoStack.commands]
  · rfl

theorem setColumnMode_undoStack (E : Externals) (c : Column) (m : ColumnMode)
    (h : m ≠ c.columnMode) :
    (c.setColumnMode E m).undoStack =
      ((c.beginMacro (c.name ++ ": change column type")).exec E (.ColumnSetModeCmd m)).endMacro.undoStack := by
  unfold setColumnMode
  rw [if_neg h]
  simp only []
  split <;> split <;> rfl

/-! ### The four clears -/

theorem Storage_clear_clear (s : Storage) : s.clear.clear = s.clear := by
  cases s <;> rfl

theorem Storage_clear_rowCount (s : Storage) : s.clear.rowCount = 0 := by
  cases s <;> rfl

theorem clearAll_private (E : Externals) (c : Column) :
    (clearAll E c).d_column_private =
      { c.d_column_private with
        d_data := c.d_column_private.d_data.clear
        d_validity := ⟨[]⟩
        d_masking := ⟨[]⟩
        d_formulas := ⟨[]⟩ } := rfl

theorem clearAll_rest (E : Externals) (c : Column) :
    (clearAll E c).name = c.name ∧ (clearAll E c).comment = c.comment ∧
    (clearAll E c).creationTime = c.creationTime ∧ (clearAll E c).captionSpec = c.captionSpec ∧
    (clearAll E c).children = c.children := ⟨rfl, rfl, rfl, rfl, rfl⟩

theorem clearAll_commands (E : Externals) (c : Column) :
    (clearAll E c).undoStack.commands =
      [.ColumnClearFormulasCmd, .ColumnClearMasksCmd, .ColumnClearValidityCmd, .ColumnClearCmd] ++
        c.undoStack.commands := by
  unfold clearAll clearFormulas clearMasks clearValidity clear
  simp only [exec_commands, List.cons_append, List.nil_append]

end Column

/-! ### Rows inserted into an interval set -/

theorem Interval.insertRows_contains (j : Interval) (before count r : Int) (hc : 0 < count) :
    (j.insertRows before count).any (fun i => i.contains r) =
      ((decide (r < before) && j.contains r) ||
        (decide (before + count ≤ r) && j.contains (r - count))) := by
  unfold Interval.insertRows
  rw [Bool.eq_iff_iff]
  split
  · simp [Interval.contains]; omega
  · split
    · simp [Interval.contains]; omega
    · simp [Interval.contains]; omega

theorem IntervalAttribute.insertRows_isSet (a : IntervalAttribute) (before count r : Int)
    (hc : 0 < count) :
    (a.insertRows before count).isSet r =
      ((decide (r < before) && a.isSet r) ||
        (decide (before + count ≤ r) && a.isSet (r - count))) := by
  unfold IntervalAttribute.insertRows IntervalAttribute.isSet
  simp only []
  induction a.intervals with
  | nil => simp
  | cons j rest ih =>
    rw [List.flatMap_cons, List.any_append, ih, Interval.insertRows_contains j before count r hc,
      List.any_cons, List.any_cons]
    cases decide (r < before) <;> cases decide (before + count ≤ r) <;>
      cases j.contains r <;> cases j.contains (r - count) <;> simp

theorem Storage.insertEmptyRows_rowCount (s : Storage) (before count : Int)
    (h0 : 0 ≤ before) (h1 : before ≤ s.rowCount) (hc : 0 < count) :
    ((s.insertEmptyRows before count).rowCount : Int) = s.rowCount + count := by
  unfold Storage.insertEmptyRows
  rw [if_pos ⟨h0, h1, hc⟩]
  cases s <;>
    simp only [Storage.rowCount, insertEmpty, List.length_append, List.length_take,
      List.length_replicate, List.length_drop] at h1 ⊢ <;> omega

/-! ### One cell replaced -/

theorem replaceRange_one_length {α : Type} (dflt : α) (l : List α) (r : Nat) (v : α)
    (h : r < l.length) : (replaceRange dflt l r [v]).length = l.length := by
  simp only [replaceRange, List.length_append, List.length_take, List.length_replicate,
    List.length_drop, List.length_cons, List.length_nil]
  omega

theorem replaceRange_one_getD {α : Type} (dflt : α) (l : List α) (r q : Nat) (v : α)
    (h : r < l.length) :
    (replaceRange dflt l r [v]).getD q dflt = if q = r then v else l.getD q dflt := by
  have hrep : l ++ List.replicate (r - l.length) dflt = l := by
    rw [Nat.sub_eq_zero_of_le (Nat.le_of_lt h)]; simp
  unfold replaceRange
  rw [hrep]
  simp only [List.getD_eq_getElem?_getD, List.length_cons, List.length_nil]
  have hlen : (l.take r).length = r := by simp; omega
  by_cases hq : q = r
  · subst hq
    rw [if_pos rfl, List.append_assoc, List.getElem?_append_right (by omega)]
    simp [hlen]
  · rw [if_neg hq]
    by_cases hlt : q < r
    · rw [List.append_assoc, List.getElem?_append_left (by omega), List.getElem?_take]
      simp [hlt]
    · have hgt : r < q := by omega
      rw [List.getElem?_append_right (by simp; omega)]
      simp only [List.length_append, hlen, List.length_cons, List.length_nil]
      rw [List.getElem?_drop]
      congr 2
      omega

end AlphaPlot

namespace AlphaPlot

/-! ### Undo and redo along a chain of entries -/

theorem UndoChain_append (E : Externals) (e : UndoEntry) :
    ∀ (es : List UndoEntry) (d mid fin : ColumnPrivate),
      UndoChain E [e] d mid → UndoChain E es mid fin → UndoChain E (es ++ [e]) d fin := by
  intro es
  induction es with
  | nil =>
    intro d mid fin h1 h2
    have : mid = fin := h2
    subst this
    exact h1
  | cons x xs ih =>
    intro d mid fin h1 h2
    obtain ⟨m, hc, hu, hr⟩ := h2
    exact ⟨m, ih d mid m h1 hc, hu, hr⟩

namespace Column

theorem undo_cons (c : Column) (e : UndoEntry) (rest : List UndoEntry)
    (h : c.undoStack.done = e :: rest) :
    c.undo = { c with
      d_column_private := e.reverted c.d_column_private
      undoStack := ⟨rest, e :: c.undoStack.undone, c.undoStack.depth⟩ } := by
  unfold undo
  rw [h]

theorem redo_cons (E : Externals) (c : Column) (e : UndoEntry) (rest : List UndoEntry)
    (h : c.undoStack.undone = e :: rest) :
    c.redo E = { c with
      d_column_private := e.reapplied E c.d_column_private
      undoStack := ⟨e :: c.undoStack.done, rest, c.undoStack.depth⟩ } := by
  unfold redo
  rw [h]

/-- As many calls of `undo()` as the chain has entries lead back to its first state. -/
theorem undo_iterate (E : Externals) :
    ∀ (new : List UndoEntry) (c : Column) (base : List UndoEntry) (d0 : ColumnPrivate),
      c.undoStack.done = new ++ base → UndoChain E new d0 c.d_column_private →
      (undo^[new.length] c).d_column_private = d0 ∧
      (undo^[new.length] c).undoStack.done = base ∧
      (undo^[new.length] c).undoStack.undone = new.reverse ++ c.undoStack.undone ∧
      (undo^[new.length] c).undoStack.depth = c.undoStack.depth := by
  intro new
  induction new with
  | nil =>
    intro c base d0 hd hc
    have : d0 = c.d_column_private := hc
    exact ⟨this.symm, hd, rfl, rfl⟩
  | cons e es ih =>
    intro c base d0 hd hc
    obtain ⟨mid, hch, hu, _⟩ := hc
    rw [List.length_cons, Function.iterate_succ_apply, undo_cons c e (es ++ base) hd]
    have := ih { c with
      d_column_private := e.reverted c.d_column_private
      undoStack := ⟨es ++ base, e :: c.undoStack.undone, c.undoStack.depth⟩ } base d0 rfl
      (by rw [hu]; exact hch)
    obtain ⟨h1, h2, h3, h4⟩ := this
    refine ⟨h1, h2, ?_, h4⟩
    rw [h3]
    simp

/-- As many calls of `redo()` as the chain has entries lead to its last state again. -/
theorem redo_iterate (E : Externals) :
    ∀ (new : List UndoEntry) (c : Column) (rest : List UndoEntry) (d1 : ColumnPrivate),
      c.undoStack.undone = new.reverse ++ rest → UndoChain E new c.d_column_private d1 →
      ((redo E)^[new.length] c).d_column_private = d1 ∧
      ((redo E)^[new.length] c).undoStack.done = new ++ c.undoStack.done ∧
      ((redo E)^[new.length] c).undoStack.undone = rest ∧
      ((redo E)^[new.length] c).undoStack.depth = c.undoStack.depth := by
  intro new
  induction new with
  | nil =>
    intro c rest d1 hd hc
    have : c.d_column_private = d1 := hc
    exact ⟨this, rfl, by simpa using hd, rfl⟩
  | cons e es ih =>
    intro c rest d1 hd hc
    obtain ⟨mid, hch, _, hr⟩ := hc
    have hd2 : c.undoStack.undone = es.reverse ++ (e :: rest) := by
      rw [hd]; simp
    obtain ⟨h1, h2, h3, h4⟩ := ih c (e :: rest) mid hd2 hch
    rw [List.length_cons, Function.iterate_succ_apply', redo_cons E _ e rest h3]
    refine ⟨?_, ?_, rfl, h4⟩
    · show e.reapplied E ((redo E)^[es.length] c).d_column_private = d1
      rw [h1, hr]
    · show e :: ((redo E)^[es.length] c).undoStack.done = _
      rw [h2]; rfl

/-! ### The entry an operation records -/

theorem exec_records (E : Externals) (c : Column) (cmd : ColumnCmd)
    (h0 : c.undoStack.depth = 0) :
    ∃ e, (c.exec E cmd).undoStack = ⟨e :: c.undoStack.done, [], 0⟩ ∧
      UndoChain E [e] c.d_column_private (c.exec E cmd).d_column_private := by
  refine ⟨⟨"", [⟨cmd, c.d_column_private⟩]⟩, ?_, ?_⟩
  · show c.undoStack.push _ = _
    unfold UndoStack.push
    rw [if_pos h0]
  · exact ⟨c.d_column_private, rfl, rfl, rfl⟩

theorem setColumnMode_records (E : Externals) (c : Column) (m : ColumnMode)
    (h0 : c.undoStack.depth = 0) (h : m ≠ c.columnMode) :
    ∃ e, (c.setColumnMode E m).undoStack = ⟨e :: c.undoStack.done, [], 0⟩ ∧
      UndoChain E [e] c.d_column_private (c.setColumnMode E m).d_column_private := by
  refine ⟨⟨c.name ++ ": change column type", [⟨.ColumnSetModeCmd m, c.d_column_private⟩]⟩, ?_, ?_⟩
  · rw [setColumnMode_undoStack E c m h]
    show UndoStack.endMacro (UndoStack.push (UndoStack.beginMacro c.undoStack _) _) = _
    unfold UndoStack.beginMacro
    rw [if_pos h0]
    rfl
  · rw [setColumnMode_private, if_neg h]
    exact ⟨c.d_column_private, rfl, rfl, rfl⟩

/-- An operation that passes its guard outside a macro adds one entry to the log, which
leads from the private before to the private after. -/
theorem apply_records (E : Externals) (c : Column) (op : Operation)
    (h0 : c.undoStack.depth = 0) (h : op.records c = true) :
    ∃ e, (op.apply E c).undoStack = ⟨e :: c.undoStack.done, [], 0⟩ ∧
      UndoChain E [e] c.d_column_private (op.apply E c).d_column_private := by
  cases op with
  | setColumnMode mode =>
    exact setColumnMode_records E c mode h0 (by simpa [Operation.records] using h)
  | copy other =>
    have h1 : other.dataType = c.dataType := by simpa [Operation.records] using h
    have : Operation.apply E c (.copy other) = c.exec E (.ColumnFullCopyCmd other) := by
      simp [Operation.apply, Column.copy, h1]
    rw [this]; exact exec_records E c _ h0
  | copyRows source a b n =>
    have h1 : source.dataType = c.dataType := by simpa [Operation.records] using h
    have : Operation.apply E c (.copyRows source a b n) =
        c.exec E (.ColumnPartialCopyCmd source a b n) := by
      simp [Operation.apply, Column.copyRows, h1]
    rw [this]; exact exec_records E c _ h0
  | insertRows before count =>
    have h1 : count > 0 := by simpa [Operation.records] using h
    have : Operation.apply E c (.insertRows before count) =
        c.exec E (.ColumnInsertEmptyRowsCmd before count) := by
      simp [Operation.apply, Column.insertRows, h1]
    rw [this]; exact exec_records E c _ h0
  | removeRows first count =>
    have h1 : count > 0 := by simpa [Operation.records] using h
    have : Operation.apply E c (.removeRows first count) =
        c.exec E (.ColumnRemoveRowsCmd first count) := by
      simp [Operation.apply, Column.removeRows, h1]
    rw [this]; exact exec_records E c _ h0
  | setPlotDesignation pd =>
    have h1 : pd ≠ c.plotDesignation := by simpa [Operation.records] using h
    have : Operation.apply E c (.setPlotDesignation pd) =
        c.exec E (.ColumnSetPlotDesignationCmd pd) := by
      simp [Operation.apply, Column.setPlotDesignation, h1]
    rw [this]; exact exec_records E c _ h0
  | _ => exact exec_records E c _ h0

theorem applyAll_records (E : Externals) :
    ∀ (ops : List Operation) (c : Column), c.undoStack.depth = 0 → allRecord E c ops = true →
      ∃ new : List UndoEntry, new.length = ops.length ∧
        (applyAll E c ops).undoStack.done = new ++ c.undoStack.done ∧
        (applyAll E c ops).undoStack.depth = 0 ∧
        UndoChain E new c.d_column_private (applyAll E c ops).d_column_private := by
  intro ops
  induction ops with
  | nil =>
    intro c h0 _
    exact ⟨[], rfl, rfl, h0, rfl⟩
  | cons op ops ih =>
    intro c h0 h
    have h' : op.records c = true ∧ allRecord E (op.apply E c) ops = true := by
      simpa [allRecord] using h
    obtain ⟨e, hs, hch⟩ := apply_records E c op h0 h'.1
    obtain ⟨new, hl, hd, hdep, hc⟩ := ih (op.apply E c) (by rw [hs]) h'.2
    refine ⟨new ++ [e], by simp [hl], ?_, hdep, ?_⟩
    · show (applyAll E (op.apply E c) ops).undoStack.done = _
      rw [hd, hs]; simp
    · exact UndoChain_append E e new _ _ _ hch hc

/-! ### The entry of a macro -/

theorem macro_actions (E : Externals) (text : String) (base : List UndoEntry) :
    ∀ (actions : List MacroAction) (n : Nat) (cur : Column) (steps : List UndoStep),
      cur.undoStack = ⟨⟨text, steps⟩ :: base, [], n + 1⟩ →
      MacroAction.balanced n actions = true →
      ∃ steps2 : List UndoStep,
        (actions.foldl (MacroAction.apply E) cur).undoStack = ⟨⟨text, steps2⟩ :: base, [], 1⟩ ∧
        UndoEntry.reverted ⟨text, steps2⟩ (actions.foldl (MacroAction.apply E) cur).d_column_private =
          UndoEntry.reverted ⟨text, steps⟩ cur.d_column_private ∧
        steps2.map (fun s => s.cmd) =
          (MacroAction.commands actions).reverse ++ steps.map (fun s => s.cmd) := by
  intro actions
  induction actions with
  | nil =>
    intro n cur steps hs hb
    have hn : n = 0 := by simpa [MacroAction.balanced] using hb
    subst hn
    exact ⟨steps, hs, rfl, rfl⟩
  | cons a rest ih =>
    intro n cur steps hs hb
    cases a with
    | exec cmd =>
      have hs2 : (cur.exec E cmd).undoStack =
          ⟨⟨text, ⟨cmd, cur.d_column_private⟩ :: steps⟩ :: base, [], n + 1⟩ := by
        show cur.undoStack.push _ = _
        rw [hs]
        rfl
      rw [MacroAction.balanced] at hb
      obtain ⟨steps2, h1, h2, h3⟩ := ih n (cur.exec E cmd) _ hs2 hb
      refine ⟨steps2, h1, ?_, ?_⟩
      · exact h2.trans rfl
      · rw [h3]; simp [MacroAction.commands]
    | beginMacro t =>
      have hs2 : (cur.beginMacro t).undoStack = ⟨⟨text, steps⟩ :: base, [], (n + 1) + 1⟩ := by
        show cur.undoStack.beginMacro t = _
        rw [hs]
        rfl
      rw [MacroAction.balanced] at hb
      obtain ⟨steps2, h1, h2, h3⟩ := ih (n + 1) (cur.beginMacro t) steps hs2 hb
      exact ⟨steps2, h1, h2, by rw [h3]; simp [MacroAction.commands]⟩
    | endMacro =>
      cases n with
      | zero => simp [MacroAction.balanced] at hb
      | succ k =>
        have hs2 : cur.endMacro.undoStack = ⟨⟨text, steps⟩ :: base, [], k + 1⟩ := by
          show cur.undoStack.endMacro = _
          rw [hs]
          rfl
        rw [MacroAction.balanced] at hb
        obtain ⟨steps2, h1, h2, h3⟩ := ih k cur.endMacro steps hs2 hb
        exact ⟨steps2, h1, h2, by rw [h3]; simp [MacroAction.commands]⟩

theorem runMacro_entry (E : Externals) (c : Column) (text : String) (actions : List MacroAction)
    (h0 : c.undoStack.depth = 0) (hb : MacroAction.balanced 0 actions = true) :
    ∃ e : UndoEntry, (c.runMacro E text actions).undoStack = ⟨e :: c.undoStack.done, [], 0⟩ ∧
      e.reverted (c.runMacro E text actions).d_column_private = c.d_column_private ∧
      e.steps.map (fun s => s.cmd) = (MacroAction.commands actions).reverse := by
  have hs : (c.beginMacro text).undoStack = ⟨⟨text, []⟩ :: c.undoStack.done, [], 0 + 1⟩ := by
    show c.undoStack.beginMacro text = _
    unfold UndoStack.beginMacro
    rw [if_pos h0]
  obtain ⟨steps2, h1, h2, h3⟩ := macro_actions E text c.undoStack.done actions 0 _ [] hs hb
  refine ⟨⟨text, steps2⟩, ?_, ?_, ?_⟩
  · show UndoStack.endMacro (actions.foldl (MacroAction.apply E) (c.beginMacro text)).undoStack = _
    rw [h1]; rfl
  · exact h2
  · simpa using h3

end Column
end AlphaPlot

namespace AlphaPlot
namespace Column

/-! ### Reading depends on the content of the column only -/

theorem SameContent.refl (c : Column) : SameContent c c := ⟨rfl, rfl⟩

theorem SameContent.exec (E : Externals) {c c' : Column} (h : SameContent c c') (cmd : ColumnCmd) :
    SameContent (c.exec E cmd) (c'.exec E cmd) := by
  obtain ⟨hp, hc⟩ := h
  exact ⟨by show cmd.redo E c.d_column_private = cmd.redo E c'.d_column_private; rw [hp], hc⟩

theorem SameContent.dataType {c c' : Column} (h : SameContent c c') : c.dataType = c'.dataType := by
  unfold Column.dataType; rw [h.1]

end Column
end AlphaPlot

namespace AlphaPlot
namespace Column

/-! ### Commands that keep mode, data type and filters -/

theorem Storage_insertEmptyRows_dataType (s : Storage) (before count : Int) :
    (s.insertEmptyRows before count).dataType = s.dataType := by
  unfold Storage.insertEmptyRows
  split
  · cases s <;> rfl
  · rfl

theorem Storage_removeRows_dataType (s : Storage) (first count : Int) :
    (s.removeRows first count).dataType = s.dataType := by
  unfold Storage.removeRows
  split
  · cases s <;> rfl
  · rfl

theorem Storage_clear_dataType (s : Storage) : s.clear.dataType = s.dataType := by
  cases s <;> rfl

theorem copyRows_dataType (d source : ColumnPrivate) (a b n : Int) :
    (d.copyRows source a b n).dataType = d.dataType := by
  obtain ⟨mode, data, fi, fo, vl, mk, fm, pd⟩ := d
  obtain ⟨mode2, data2, fi2, fo2, vl2, mk2, fm2, pd2⟩ := source
  unfold ColumnPrivate.copyRows
  split
  · cases data <;> cases data2 <;> rfl
  · rfl

/-- The mode and the two filters of a private. -/
theorem redo_modeAndFilters (E : Externals) (cmd : ColumnCmd) (d : ColumnPrivate)
    (h : ∀ m, cmd ≠ .ColumnSetModeCmd m) :
    (cmd.redo E d).d_column_mode = d.d_column_mode ∧
    (cmd.redo E d).d_input_filter = d.d_input_filter ∧
    (cmd.redo E d).d_output_filter = d.d_output_filter := by
  obtain ⟨mode, data, fi, fo, vl, mk, fm, pd⟩ := d
  cases cmd with
  | ColumnSetModeCmd m => exact absurd rfl (h m)
  | ColumnPartialCopyCmd source a b n =>
    obtain ⟨mode2, data2, fi2, fo2, vl2, mk2, fm2, pd2⟩ := source
    simp only [ColumnCmd.redo, ColumnPrivate.copyRows]
    split
    · cases data <;> cases data2 <;> exact ⟨rfl, rfl, rfl⟩
    · exact ⟨rfl, rfl, rfl⟩
  | ColumnSetTextCmd row v =>
    cases data <;> simp only [ColumnCmd.redo, ColumnPrivate.replaceTexts] <;> (try split) <;>
      first | exact ⟨rfl, rfl, rfl⟩ | trivial
  | ColumnReplaceTextsCmd row v =>
    cases data <;> simp only [ColumnCmd.redo, ColumnPrivate.replaceTexts] <;> (try split) <;>
      first | exact ⟨rfl, rfl, rfl⟩ | trivial
  | ColumnSetDateTimeCmd row v =>
    cases data <;> simp only [ColumnCmd.redo, ColumnPrivate.replaceDateTimes] <;> (try split) <;>
      first | exact ⟨rfl, rfl, rfl⟩ | trivial
  | ColumnReplaceDateTimesCmd row v =>
    cases data <;> simp only [ColumnCmd.redo, ColumnPrivate.replaceDateTimes] <;> (try split) <;>
      first | exact ⟨rfl, rfl, rfl⟩ | trivial
  | ColumnSetValueCmd row v =>
    cases data <;> simp only [ColumnCmd.redo, ColumnPrivate.replaceValues] <;> (try split) <;>
      first | exact ⟨rfl, rfl, rfl⟩ | trivial
  | ColumnReplaceValuesCmd row v =>
    cases data <;> simp only [ColumnCmd.redo, ColumnPrivate.replaceValues] <;> (try split) <;>
      first | exact ⟨rfl, rfl, rfl⟩ | trivial
  | _ => exact ⟨rfl, rfl, rfl⟩

theorem redo_dataType (E : Externals) (cmd : ColumnCmd) (d : ColumnPrivate)
    (h : ∀ m, cmd ≠ .ColumnSetModeCmd m)
    (hcopy : ∀ other, cmd = .ColumnFullCopyCmd other → other.dataType = d.dataType) :
    (cmd.redo E d).dataType = d.dataType := by
  cases cmd with
  | ColumnSetModeCmd m => exact absurd rfl (h m)
  | ColumnFullCopyCmd other => exact hcopy other rfl
  | ColumnPartialCopyCmd source a b n => exact copyRows_dataType d source a b n
  | ColumnInsertEmptyRowsCmd before count => exact Storage_insertEmptyRows_dataType _ _ _
  | ColumnRemoveRowsCmd first count => exact Storage_removeRows_dataType _ _ _
  | ColumnClearCmd => exact Storage_clear_dataType _
  | ColumnSetTextCmd row v => exact replaceTexts_dataType _ _ _
  | ColumnReplaceTextsCmd row v => exact replaceTexts_dataType _ _ _
  | ColumnSetDateTimeCmd row v => exact replaceDateTimes_dataType _ _ _
  | ColumnReplaceDateTimesCmd row v => exact replaceDateTimes_dataType _ _ _
  | ColumnSetValueCmd row v => exact replaceValues_dataType _ _ _
  | ColumnReplaceValuesCmd row v => exact replaceValues_dataType _ _ _
  | _ => rfl

theorem exec_coherent (E : Externals) (c : Column) (cmd : ColumnCmd) (hc : c.Coherent)
    (h : ∀ m, cmd ≠ .ColumnSetModeCmd m)
    (hcopy : ∀ other, cmd = .ColumnFullCopyCmd other → other.dataType = c.dataType) :
    (c.exec E cmd).Coherent := by
  obtain ⟨h1, h2, h3⟩ := hc
  obtain ⟨m1, m2, m3⟩ := redo_modeAndFilters E cmd c.d_column_private h
  have m4 := redo_dataType E cmd c.d_column_private h hcopy
  refine ⟨?_, ?_, ?_⟩
  · show (cmd.redo E c.d_column_private).dataType = (cmd.redo E c.d_column_private).d_column_mode.dataType
    rw [m4, m1]; exact h1
  · show (cmd.redo E c.d_column_private).d_input_filter = .input (cmd.redo E c.d_column_private).d_column_mode
    rw [m2, m1]; exact h2
  · show (cmd.redo E c.d_column_private).d_output_filter = .output (cmd.redo E c.d_column_private).d_column_mode
    rw [m3, m1]; exact h3

/-- A new column is coherent. -/
theorem create_coherent (name : String) (mode : ColumnMode) : (create name mode).Coherent := by
  cases mode <;> exact ⟨rfl, rfl, rfl⟩

theorem setColumnMode_coherent (E : Externals) (c : Column) (m : ColumnMode) (hc : c.Coherent) :
    (c.setColumnMode E m).Coherent := by
  have hp := setColumnMode_private E c m
  by_cases h : m = c.columnMode
  · rw [if_pos h] at hp
    unfold Coherent Column.dataType Column.columnMode Column.inputFilter Column.outputFilter
    rw [hp]; exact hc
  · rw [if_neg h] at hp
    unfold Coherent Column.dataType Column.columnMode Column.inputFilter Column.outputFilter
    rw [hp]
    exact ⟨ColumnPrivate_setColumnMode_dataType E _ m, rfl, rfl⟩

/-- Every operation of `Column.cpp` keeps a column coherent. -/
theorem apply_coherent (E : Externals) (c : Column) (op : Operation) (hc : c.Coherent) :
    (op.apply E c).Coherent := by
  cases op with
  | setColumnMode mode => exact setColumnMode_coherent E c mode hc
  | copy other =>
    show (c.copy E other).2.Coherent
    unfold Column.copy
    split
    · exact hc
    · rename_i h
      exact exec_coherent E c _ hc (fun m => by simp)
        (fun o ho => by cases ho; simpa using h)
  | copyRows source a b n =>
    show (c.copyRows E source a b n).2.Coherent
    unfold Column.copyRows
    split
    · exact hc
    · exact exec_coherent E c _ hc (fun m => by simp) (fun o ho => by cases ho)
  | insertRows before count =>
    show (c.insertRows E before count).Coherent
    unfold Column.insertRows
    split
    · exact exec_coherent E c _ hc (fun m => by simp) (fun o ho => by cases ho)
    · exact hc
  | removeRows first count =>
    show (c.removeRows E first count).Coherent
    unfold Column.removeRows
    split
    · exact exec_coherent E c _ hc (fun m => by simp) (fun o ho => by cases ho)
    · exact hc
  | setPlotDesignation pd =>
    show (c.setPlotDesignation E pd).Coherent
    unfold Column.setPlotDesignation
    split
    · exact exec_coherent E c _ hc (fun m => by simp) (fun o ho => by cases ho)
    · exact hc
  | _ => exact exec_coherent E c _ hc (fun m => by simp) (fun o ho => by cases ho)

end Column
end AlphaPlot

namespace AlphaPlot
namespace Column

/-! ### Reading keeps the column coherent -/

theorem setComment_coherent (c : Column) (t : String) (hc : c.Coherent) :
    (c.setComment t).Coherent := hc

end Column
end AlphaPlot

namespace AlphaPlot
namespace Column

/-! ### `load` on two columns -/

end Column
end AlphaPlot

namespace AlphaPlot

/-! ### Rows of an interval set after a union-insert -/

theorem Interval.contains_iff (i : Interval) (r : Int) :
    i.contains r = true ↔ i.start ≤ r ∧ r ≤ i.stop := by
  simp [Interval.contains]

theorem mergeIntervalIntoList_contains (r : Int) :
    ∀ (l : List Interval) (i : Interval), i.start ≤ i.stop →
      (mergeIntervalIntoList l i).any (fun j => j.contains r) =
        (l.any (fun j => j.contains r) || i.contains r) := by
  intro l
  induction l with
  | nil => intro i _; simp [mergeIntervalIntoList]
  | cons j rest ih =>
    intro i hi
    unfold mergeIntervalIntoList
    split
    · simp only [List.any_cons]
      cases i.contains r <;> cases j.contains r <;> simp
    · split
      · rw [List.any_cons, ih i hi, List.any_cons, Bool.or_assoc]
      · rename_i h1 h2
        have hne : min i.start j.start ≤ max i.stop j.stop :=
          le_trans (min_le_left _ _) (le_trans hi (le_max_left _ _))
        rw [ih _ hne, List.any_cons]
        have key : (Interval.contains ⟨min i.start j.start, max i.stop j.stop⟩ r) =
            (j.contains r || i.contains r) := by
          rw [Bool.eq_iff_iff]
          simp only [Interval.contains, Bool.and_eq_true, Bool.or_eq_true, decide_eq_true_eq]
          rcases le_total i.start j.start with ha | ha <;>
            rcases le_total i.stop j.stop with hb | hb <;>
            simp only [min_eq_left, min_eq_right, max_eq_left, max_eq_right, ha, hb] <;> omega
        rw [key]
        cases j.contains r <;> cases i.contains r <;> cases rest.any (fun j => j.contains r) <;> rfl

theorem IntervalAttribute.setValue_true_isSet (a : IntervalAttribute) (i : Interval) (r : Int) :
    (a.setValue i true).isSet r = (a.isSet r || i.contains r) := by
  unfold IntervalAttribute.setValue IntervalAttribute.isSet
  split
  · rename_i h
    have : i.contains r = false := by
      rw [Bool.eq_false_iff]
      intro hc
      rw [Interval.contains_iff] at hc
      omega
    rw [this, Bool.or_false]
  · rename_i h
    simp only [if_true]
    exact mergeIntervalIntoList_contains r a.intervals i (by omega)

end AlphaPlot

namespace AlphaPlot
namespace Column

/-! ### Mask and formula elements whose `start_row` is an integer -/

theorem toInt_true_ne_empty (str : String) (s : Int) (h : toInt str = (s, true)) : str ≠ "" := by
  intro he
  rw [he, toInt_empty] at h
  cases h

theorem XmlReadMask_integer_start (E : Externals) (c : Column) (r : QXmlStreamReader) (s : Int)
    (hs : toInt (value r.attributes "start_row") = (s, true))
    (he : value r.attributes "end_row" ≠ "") :
    XmlReadMask E c r = (true, c.setMasked E ⟨s, s⟩ true, r) := by
  have h1 := toInt_true_ne_empty _ _ hs
  unfold XmlReadMask
  simp only [isEmpty_eq_decide, hs, h1, he, decide_False, Bool.or_self, Bool.not_true,
    Bool.false_eq_true, if_false]

theorem setMasked_isMasked (E : Externals) (c : Column) (i : Interval) (r : Int) :
    (c.setMasked E i true).isMasked r = (c.isMasked r || i.contains r) :=
  IntervalAttribute.setValue_true_isSet c.d_column_private.d_masking i r

theorem setMasked_first (E : Externals) (c : Column) (s : Int) (h : c.maskedIntervals = []) :
    (c.setMasked E ⟨s, s⟩ true).maskedIntervals = [⟨s, s⟩] := by
  have he : c.d_column_private.d_masking.intervals = [] := h
  show (c.d_column_private.d_masking.setValue ⟨s, s⟩ true).intervals = _
  unfold IntervalAttribute.setValue
  rw [if_neg (by simp), he]
  rfl

end Column
end AlphaPlot

namespace AlphaPlot
namespace Column

/-! ### What the children of `column` leave of the header -/

theorem redo_plotDesignation (E : Externals) (cmd : ColumnCmd) (d : ColumnPrivate)
    (h : ∀ pd, cmd ≠ .ColumnSetPlotDesignationCmd pd) :
    (cmd.redo E d).d_plot_designation = d.d_plot_designation := by
  obtain ⟨mode, data, fi, fo, vl, mk, fm, pd⟩ := d
  cases cmd with
  | ColumnSetPlotDesignationCmd p => exact absurd rfl (h p)
  | ColumnPartialCopyCmd source a b n =>
    obtain ⟨mode2, data2, fi2, fo2, vl2, mk2, fm2, pd2⟩ := source
    simp only [ColumnCmd.redo, ColumnPrivate.copyRows]
    split
    · cases data <;> cases data2 <;> rfl
    · rfl
  | ColumnSetTextCmd row v =>
    cases data
    all_goals simp only [ColumnCmd.redo, ColumnPrivate.replaceTexts]
    all_goals first | rfl | (split <;> rfl)
  | ColumnReplaceTextsCmd row v =>
    cases data
    all_goals simp only [ColumnCmd.redo, ColumnPrivate.replaceTexts]
    all_goals first | rfl | (split <;> rfl)
  | ColumnSetDateTimeCmd row v =>
    cases data
    all_goals simp only [ColumnCmd.redo, ColumnPrivate.replaceDateTimes]
    all_goals first | rfl | (split <;> rfl)
  | ColumnReplaceDateTimesCmd row v =>
    cases data
    all_goals simp only [ColumnCmd.redo, ColumnPrivate.replaceDateTimes]
    all_goals first | rfl | (split <;> rfl)
  | ColumnSetValueCmd row v =>
    cases data
    all_goals simp only [ColumnCmd.redo, ColumnPrivate.replaceValues]
    all_goals first | rfl | (split <;> rfl)
  | ColumnReplaceValuesCmd row v =>
    cases data
    all_goals simp only [ColumnCmd.redo, ColumnPrivate.replaceValues]
    all_goals first | rfl | (split <;> rfl)
  | _ => rfl

theorem exec_plotDesignation (E : Externals) (c : Column) (cmd : ColumnCmd)
    (h : ∀ pd, cmd ≠ .ColumnSetPlotDesignationCmd pd) :
    (c.exec E cmd).plotDesignation = c.plotDesignation :=
  redo_plotDesignation E cmd c.d_column_private h

theorem XmlReadRow_plotDesignation (E : Externals) (c : Column) (r : QXmlStreamReader) :
    (XmlReadRow E c r).2.1.plotDesignation = c.plotDesignation := by
  have hi : ∀ (p : Prop) [Decidable p] (i : Int),
      (if p then c.setInvalidRow E i true else c).plotDesignation = c.plotDesignation := by
    intro p _ i
    split
    · exact exec_plotDesignation E c _ (fun pd => by simp)
    · rfl
  unfold XmlReadRow
  simp only []
  split
  · rfl
  · split
    · rfl
    · split
      · split
        · exact hi _ _
        · exact (exec_plotDesignation E _ _ (fun pd => by simp)).trans (hi _ _)
      · exact (exec_plotDesignation E _ _ (fun pd => by simp)).trans (hi _ _)
      · exact (exec_plotDesignation E _ _ (fun pd => by simp)).trans (hi _ _)

theorem readChild_plotDesignation (E : Externals) (c : Column) (r : QXmlStreamReader) :
    (readChild E c r).2.1.plotDesignation = c.plotDesignation := by
  unfold readChild
  split
  · rfl
  · split
    · rfl
    · split
      · rfl
      · split
        · exact exec_plotDesignation E c _ (fun pd => by simp)
        · split
          · exact exec_plotDesignation E c _ (fun pd => by simp)
          · split
            · exact XmlReadRow_plotDesignation E c r
            · rfl

theorem readChildren_plotDesignation (E : Externals) :
    ∀ (fuel : Nat) (c : Column) (r : QXmlStreamReader),
      (readChildren E fuel c r).2.1.plotDesignation = c.plotDesignation := by
  intro fuel
  induction fuel with
  | zero => intro c r; rfl
  | succ n ih =>
    intro c r
    unfold readChildren
    simp only []
    split
    · rfl
    · split
      · rfl
      · split
        · split
          · exact readChild_plotDesignation E c _
          · exact (ih _ _).trans (readChild_plotDesignation E c _)
        · exact ih _ _

theorem setPlotDesignation_plotDesignation (E : Externals) (c : Column) (pd : PlotDesignation) :
    (c.setPlotDesignation E pd).plotDesignation = pd := by
  unfold Column.setPlotDesignation
  split
  · rfl
  · rename_i h
    exact (by simpa using h : pd = c.plotDesignation).symm

theorem plotDesignation_enumStringToValue_empty : PlotDesignation.enumStringToValue "" = none := by
  decide

/-! ### The header of `load` up to the check of type against mode -/

theorem setColumnMode_name (E : Externals) (c : Column) (m : ColumnMode) :
    (c.setColumnMode E m).name = c.name := by
  unfold setColumnMode
  split
  · rfl
  · simp only []
    split <;> split <;>
      simp only [Column.endMacro, Column.addChild, Column.removeChild, Column.exec,
        Column.beginMacro]

theorem setColumnMode_creationTime (E : Externals) (c : Column) (m : ColumnMode) :
    (c.setColumnMode E m).creationTime = c.creationTime := by
  unfold setColumnMode
  split
  · rfl
  · simp only []
    split <;> split <;>
      simp only [Column.endMacro, Column.addChild, Column.removeChild, Column.exec,
        Column.beginMacro]

theorem setColumnMode_captionSpec (E : Externals) (c : Column) (m : ColumnMode) :
    (c.setColumnMode E m).captionSpec = c.captionSpec := by
  unfold setColumnMode
  split
  · rfl
  · simp only []
    split <;> split <;>
      simp only [Column.endMacro, Column.addChild, Column.removeChild, Column.exec,
        Column.beginMacro]

theorem setColumnMode_columnMode (E : Externals) (c : Column) (m : ColumnMode) :
    (c.setColumnMode E m).columnMode = m := by
  show (c.setColumnMode E m).d_column_private.d_column_mode = m
  rw [setColumnMode_private]
  split
  · rename_i h; exact h.symm
  · rfl

theorem withAspectAttributes_aspect (E : Externals) (c : Column)
    (attribs : List (String × String)) :
    (withAspectAttributes E c attribs).name = value attribs "label" ∧
    (withAspectAttributes E c attribs).captionSpec = value attribs "caption_spec" ∧
    (withAspectAttributes E c attribs).creationTime =
      if value attribs "creation_time" = "" then c.creationTime
      else E.dateTimeFromString (value attribs "creation_time") := by
  unfold withAspectAttributes
  simp only [isEmpty_eq_decide]
  by_cases h : value attribs "creation_time" = ""
  · simp only [h, decide_True, Bool.not_true, Bool.false_eq_true, if_false, if_true]
    exact ⟨rfl, rfl, rfl⟩
  · simp only [h, decide_False, Bool.not_false, if_true, if_false]
    exact ⟨rfl, rfl, rfl⟩

theorem load_header (E : Externals) (c : Column)
    (attribs : List (String × String)) (input : List Token) (err : Option String)
    (t : ColumnDataType) (m : ColumnMode)
    (hlabel : value attribs "label" ≠ "")
    (htype : ColumnDataType.enumStringToValue (value attribs "type") = some t)
    (hmode : ColumnMode.enumStringToValue (value attribs "mode") = some m) :
    load E c ⟨.StartElement "column" attribs, input, err⟩ =
      if t ≠ (c.setColumnMode E m).dataType then
        (false, (withAspectAttributes E c attribs).setColumnMode E m,
          QXmlStreamReader.raiseError ⟨.StartElement "column" attribs, input, err⟩
            "XML read error: column type or mode invalid (loading failed)")
      else if value attribs "plot_designation" = "" then
        readChildren E (input.length + 2)
          (((withAspectAttributes E c attribs).setColumnMode E m).setPlotDesignation E
            .noDesignation) ⟨.StartElement "column" attribs, input, err⟩
      else
        match PlotDesignation.enumStringToValue (value attribs "plot_designation") with
        | none =>
          (false, (withAspectAttributes E c attribs).setColumnMode E m,
            QXmlStreamReader.raiseError ⟨.StartElement "column" attribs, input, err⟩
              "XML read error: column plot designation invalid (loading failed)")
        | some pd =>
          readChildren E (input.length + 2)
            (((withAspectAttributes E c attribs).setColumnMode E m).setPlotDesignation E pd)
            ⟨.StartElement "column" attribs, input, err⟩ := by
  have h2 : value attribs "type" ≠ "" := by
    intro h; rw [h, dataType_enumStringToValue_empty] at htype; cases htype
  have h4 : value attribs "mode" ≠ "" := by
    intro h; rw [h, mode_enumStringToValue_empty] at hmode; cases hmode
  rw [load_on_column, if_neg hlabel, if_neg h2, htype]
  simp only []
  rw [if_neg h4, hmode]
  simp only []
  rw [withAspectAttributes_setColumnMode_dataType]

end Column
end AlphaPlot

namespace AlphaPlot

/-! ### One cell written, inside or beyond the rows -/

theorem replaceRange_one_getD_self {α : Type} (dflt : α) (l : List α) (r : Nat) (v : α) :
    (replaceRange dflt l r [v]).getD r dflt = v := by
  unfold replaceRange
  have hlen : ((l ++ List.replicate (r - l.length) dflt).take r).length = r := by
    simp only [List.length_take, List.length_append, List.length_replicate]
    omega
  simp only [List.getD_eq_getElem?_getD]
  rw [List.append_assoc, List.getElem?_append_right (by omega)]
  simp [hlen]

namespace Column

theorem dateTimeAt_replaceDateTimes (d : ColumnPrivate) (row : Int) (v : QDateTime)
    (ht : d.dataType = .TypeQDateTime) (h0 : 0 ≤ row) :
    (d.replaceDateTimes row [v]).dateTimeAt row = v := by
  obtain ⟨mode, data, fi, fo, vl, mk, fm, pd⟩ := d
  cases data with
  | dateTimes l =>
    simp only [ColumnPrivate.replaceDateTimes, if_pos h0, ColumnPrivate.dateTimeAt]
    exact replaceRange_one_getD_self QDateTime.null l row.toNat v
  | doubles l => cases ht
  | strings l => cases ht

theorem replaceDateTimes_negative (d : ColumnPrivate) (row : Int) (v : QDateTime)
    (h0 : row < 0) : d.replaceDateTimes row [v] = d := by
  obtain ⟨mode, data, fi, fo, vl, mk, fm, pd⟩ := d
  cases data <;> simp only [ColumnPrivate.replaceDateTimes, if_neg (not_le.mpr h0)]

theorem replaceDateTimes_other_type (d : ColumnPrivate) (row : Int) (v : QDateTime)
    (ht : d.dataType ≠ .TypeQDateTime) :
    d.replaceDateTimes row [v] = d := by
  obtain ⟨mode, data, fi, fo, vl, mk, fm, pd⟩ := d
  cases data with
  | dateTimes l => exact absurd rfl ht
  | doubles l => rfl
  | strings l => rfl

theorem setTimeAt_dateAt (E : Externals) (c : Column) (row : Int) (t : QTime) :
    (c.setTimeAt E row t).dateAt row = c.dateAt row := by
  show ((c.d_column_private.replaceDateTimes row
    [QDateTime.ofDateAndTime (c.d_column_private.dateAt row) t]).dateTimeAt row).date =
      (c.d_column_private.dateTimeAt row).date
  by_cases ht : c.d_column_private.dataType = .TypeQDateTime
  · by_cases h0 : 0 ≤ row
    · rw [dateTimeAt_replaceDateTimes _ _ _ ht h0]
      rfl
    · rw [replaceDateTimes_negative _ _ _ (not_le.mp h0)]
  · rw [replaceDateTimes_other_type _ _ _ ht]

end Column
end AlphaPlot

namespace AlphaPlot
namespace Column

/-! ### What `save` writes -/

theorem writeCharacters_empty : writeCharacters "" = [] := by decide

theorem flatMap_map_tokens {α : Type} (l : List α) (f : α → Child) :
    (l.map f).flatMap Child.tokens = l.flatMap (fun a => (f a).tokens) := by
  induction l with
  | nil => rfl
  | cons a rest ih => simp [List.flatMap_cons, ih]

theorem save_eq_savedChildren (E : Externals) (c : Column) :
    save E c =
      .StartElement "column"
        [("creation_time", E.dateTimeToString c.creationTime),
         ("caption_spec", c.captionSpec),
         ("label", c.name),
         ("type", c.dataType.enumValueToString),
         ("mode", c.columnMode.enumValueToString),
         ("plot_designation", c.plotDesignation.enumValueToString)] ::
      ((c.savedChildren E).flatMap Child.tokens ++ [.EndElement "column"]) := by
  unfold save savedChildren rowText
  cases h : c.dataType <;>
    simp only [h, List.flatMap_append, flatMap_map_tokens, List.flatMap_cons, List.flatMap_nil,
      Child.tokens, TextElement.tokens, writeCharacters_empty, saveRow, List.append_assoc,
      List.cons_append, List.nil_append, List.append_nil, List.singleton_append]

theorem savedChildren_length (E : Externals) (c : Column) :
    (c.savedChildren E).length =
      3 + c.maskedIntervals.length + c.formulaIntervals.length + c.rowCount.toNat := by
  unfold savedChildren
  simp only [List.length_append, List.length_map, List.length_range, List.length_cons,
    List.length_nil]

theorem savedChildren_head (E : Externals) (c : Column) :
    (c.savedChildren E).take 3 =
      [.filter "input_filter" [] (E.filterSave c.inputFilter),
       .filter "output_filter" [] (E.filterSave c.outputFilter),
       .text ⟨"comment", [], c.comment⟩] := by
  unfold savedChildren
  simp [List.take_append_eq_append_take]

theorem savedChildren_mask (E : Externals) (c : Column) (k : Nat)
    (hk : k < c.maskedIntervals.length) :
    (c.savedChildren E)[3 + k]? =
      some (.text ⟨"mask",
        [("start_row", number (c.maskedIntervals.get ⟨k, hk⟩).start),
         ("end_row", number (c.maskedIntervals.get ⟨k, hk⟩).stop)], ""⟩) := by
  unfold savedChildren
  rw [List.append_assoc, List.append_assoc, List.getElem?_append_right (by simp)]
  simp only [List.length_cons, List.length_nil]
  rw [show 3 + k - (0 + 1 + 1 + 1) = k by omega, List.getElem?_append_left (by simpa using hk)]
  simp [List.getElem?_map, List.getElem?_eq_getElem hk]

theorem savedChildren_formula (E : Externals) (c : Column) (k : Nat)
    (hk : k < c.formulaIntervals.length) :
    (c.savedChildren E)[3 + c.maskedIntervals.length + k]? =
      some (.text ⟨"formula",
        [("start_row", number (c.formulaIntervals.get ⟨k, hk⟩).start),
         ("end_row", number (c.formulaIntervals.get ⟨k, hk⟩).stop)],
        c.formula (c.formulaIntervals.get ⟨k, hk⟩).start⟩) := by
  unfold savedChildren
  rw [List.append_assoc, List.append_assoc, List.getElem?_append_right (by simp; omega)]
  simp only [List.length_cons, List.length_nil]
  rw [show 3 + c.maskedIntervals.length + k - (0 + 1 + 1 + 1) = c.maskedIntervals.length + k by
    omega, List.getElem?_append_right (by simp), List.length_map,
    Nat.add_sub_cancel_left, List.getElem?_append_left (by simpa using hk)]
  simp [List.getElem?_map, List.getElem?_eq_getElem hk]

theorem savedChildren_row (E : Externals) (c : Column) (i : Nat) (hi : (i : Int) < c.rowCount) :
    (c.savedChildren E)[3 + c.maskedIntervals.length + c.formulaIntervals.length + i]? =
      some (.text ⟨"row",
        [("type", c.dataType.enumValueToString), ("index", number i),
         ("invalid", if c.isInvalid i then "yes" else "no")],
        c.rowText E i⟩) := by
  have hi2 : i < c.rowCount.toNat := by omega
  unfold savedChildren
  rw [List.getElem?_append_right (by simp; omega)]
  simp only [List.length_append, List.length_map, List.length_cons, List.length_nil]
  rw [show 3 + c.maskedIntervals.length + c.formulaIntervals.length + i -
    (0 + 1 + 1 + 1 + c.maskedIntervals.length + c.formulaIntervals.length) = i by omega]
  simp [List.getElem?_map, List.getElem?_range hi2]

end Column
end AlphaPlot

namespace AlphaPlot

/-! ### The significand of a double in scientific notation -/

theorem expUp_le : ∀ (fuel num den : Nat), den ≤ num → den * 10 ^ expUp fuel num den ≤ num := by
  intro fuel
  induction fuel with
  | zero => intro num den h; simpa [expUp] using h
  | succ n ih =>
    intro num den h
    unfold expUp
    split
    · rename_i h10
      have := ih num (den * 10) h10
      calc den * 10 ^ (expUp n num (den * 10) + 1)
          = den * 10 * 10 ^ expUp n num (den * 10) := by ring
        _ ≤ num := this
    · simpa using h

theorem lt_expUp : ∀ (fuel num den : Nat), num < den * 10 ^ (fuel + 1) →
    num < den * 10 ^ (expUp fuel num den + 1) := by
  intro fuel
  induction fuel with
  | zero => intro num den h; simpa [expUp] using h
  | succ n ih =>
    intro num den h
    unfold expUp
    split
    · have h2 : num < den * 10 * 10 ^ (n + 1) := by
        calc num < den * 10 ^ (n + 1 + 1) := h
          _ = den * 10 * 10 ^ (n + 1) := by ring
      have := ih num (den * 10) h2
      calc num < den * 10 * 10 ^ (expUp n num (den * 10) + 1) := this
        _ = den * 10 ^ (expUp n num (den * 10) + 1 + 1) := by ring
    · rename_i h10
      simpa using not_le.mp h10

theorem le_expDown : ∀ (fuel num den : Nat), den ≤ num * 10 ^ fuel →
    den ≤ num * 10 ^ expDown fuel num den := by
  intro fuel
  induction fuel with
  | zero => intro num den h; simpa [expDown] using h
  | succ n ih =>
    intro num den h
    unfold expDown
    split
    · rename_i hle; simpa using hle
    · have h2 : den ≤ num * 10 * 10 ^ n := by
        calc den ≤ num * 10 ^ (n + 1) := h
          _ = num * 10 * 10 ^ n := by ring
      have := ih (num * 10) den h2
      calc den ≤ num * 10 * 10 ^ expDown n (num * 10) den := this
        _ = num * 10 ^ (expDown n (num * 10) den + 1) := by ring

theorem expDown_lt : ∀ (fuel num den : Nat), num < den →
    num * 10 ^ (expDown fuel num den - 1) < den := by
  intro fuel
  induction fuel with
  | zero => intro num den h; simpa [expDown] using h
  | succ n ih =>
    intro num den h
    unfold expDown
    rw [if_neg (not_le.mpr h), Nat.add_sub_cancel]
    by_cases h10 : num * 10 < den
    · have := ih (num * 10) den h10
      cases hk : expDown n (num * 10) den with
      | zero => simpa using h
      | succ k =>
        rw [hk, Nat.add_sub_cancel] at this
        calc num * 10 ^ (k + 1) = num * 10 * 10 ^ k := by ring
          _ < den := this
    · have hz : expDown n (num * 10) den = 0 := by
        cases n with
        | zero => rfl
        | succ m =>
          unfold expDown
          rw [if_pos (not_lt.mp h10)]
      rw [hz]
      simpa using h

theorem expDown_pos (fuel num den : Nat) (h : num < den) : 0 < expDown (fuel + 1) num den := by
  unfold expDown
  rw [if_neg (not_le.mpr h)]
  exact Nat.succ_pos _

theorem roundHalfEven_bounds (a b : Nat) :
    a / b ≤ roundHalfEven a b ∧ roundHalfEven a b ≤ a / b + 1 := by
  unfold roundHalfEven
  split
  · exact ⟨le_rfl, Nat.le_succ _⟩
  · split
    · exact ⟨Nat.le_succ _, le_rfl⟩
    · split
      · exact ⟨le_rfl, Nat.le_succ _⟩
      · exact ⟨Nat.le_succ _, le_rfl⟩

/-- A quotient between `10 ^ p` and `10 ^ (p + 1)`, rounded and brought back below
`10 ^ (p + 1)`, is a number of `p + 1` digits. -/
theorem rounded_digits (p a b : Nat) (hb : 0 < b) (h1 : b * 10 ^ p ≤ a)
    (h2 : a < b * 10 ^ (p + 1)) :
    10 ^ p ≤ (if 10 ^ (p + 1) ≤ roundHalfEven a b then roundHalfEven a b / 10
      else roundHalfEven a b) ∧
    (if 10 ^ (p + 1) ≤ roundHalfEven a b then roundHalfEven a b / 10
      else roundHalfEven a b) < 10 ^ (p + 1) := by
  have hq1 : 10 ^ p ≤ a / b := by
    rw [Nat.le_div_iff_mul_le hb, Nat.mul_comm]; exact h1
  have hq2 : a / b < 10 ^ (p + 1) := by
    rw [Nat.div_lt_iff_lt_mul hb, Nat.mul_comm]; exact h2
  obtain ⟨r1, r2⟩ := roundHalfEven_bounds a b
  have hpow : 10 ^ (p + 1) = 10 * 10 ^ p := by ring
  split
  · rename_i h
    have he : roundHalfEven a b = 10 ^ (p + 1) := by omega
    rw [he, hpow, Nat.mul_div_cancel_left _ (by norm_num : 0 < 10)]
    have : 0 < 10 ^ p := pow_pos (by norm_num) _
    omega
  · rename_i h
    exact ⟨le_trans hq1 r1, not_le.mp h⟩

theorem scientific_digits (p num den : Nat) (hnum : 0 < num) (hden : 0 < den)
    (hup : num < 10 ^ (400 + 1)) (hdown : den ≤ 10 ^ 400) :
    10 ^ p ≤ (scientific p num den).1 ∧ (scientific p num den).1 < 10 ^ (p + 1) := by
  unfold scientific
  split
  · rename_i hle
    have h1 := expUp_le 400 num den hle
    have h2 := lt_expUp 400 num den (lt_of_lt_of_le hup (Nat.le_mul_of_pos_left _ hden))
    have hb : 0 < den * 10 ^ expUp 400 num den := Nat.mul_pos hden (pow_pos (by norm_num) _)
    have := rounded_digits p (num * 10 ^ p) (den * 10 ^ expUp 400 num den) hb
      (Nat.mul_le_mul_right _ h1)
      (by
        calc num * 10 ^ p < den * 10 ^ (expUp 400 num den + 1) * 10 ^ p :=
              Nat.mul_lt_mul_of_pos_right h2 (pow_pos (by norm_num) _)
          _ = den * 10 ^ expUp 400 num den * 10 ^ (p + 1) := by ring)
    simp only []
    split
    · rename_i h; rw [if_pos h] at this; exact this
    · rename_i h; rw [if_neg h] at this; exact this
  · rename_i hlt
    have hlt := not_le.mp hlt
    have h1 := le_expDown 400 num den (le_trans hdown (Nat.le_mul_of_pos_left _ hnum))
    have h2 := expDown_lt 400 num den hlt
    have hpos : 0 < expDown 400 num den := expDown_pos 399 num den hlt
    have := rounded_digits p (num * 10 ^ (p + expDown 400 num den)) den hden
      (by
        calc den * 10 ^ p ≤ num * 10 ^ expDown 400 num den * 10 ^ p := Nat.mul_le_mul_right _ h1
          _ = num * 10 ^ (p + expDown 400 num den) := by ring)
      (by
        have hk : expDown 400 num den = (expDown 400 num den - 1) + 1 := by omega
        calc num * 10 ^ (p + expDown 400 num den)
            = num * 10 ^ (expDown 400 num den - 1) * 10 ^ (p + 1) := by
              conv_lhs => rw [hk]
              ring
          _ < den * 10 ^ (p + 1) := Nat.mul_lt_mul_of_pos_right h2 (pow_pos (by norm_num) _))
    simp only []
    split
    · rename_i h; rw [if_pos h] at this; exact this
    · rename_i h; rw [if_neg h] at this; exact this

end AlphaPlot

namespace AlphaPlot

set_option exponentiation.threshold 2000

theorem QDouble.magnitude_bounds (v : QDouble) (hf : v.exponentBits < 2047) :
    0 < v.magnitude.2 ∧ v.magnitude.1 < 10 ^ (400 + 1) ∧ v.magnitude.2 ≤ 10 ^ 400 := by
  have hfr : v.fractionBits < 2 ^ 52 := Nat.mod_lt _ (by norm_num)
  have h1024 : (2 : Nat) ^ 1024 < 10 ^ (400 + 1) := by norm_num
  have h1074 : (2 : Nat) ^ 1074 ≤ 10 ^ 400 := by norm_num
  unfold QDouble.magnitude
  split
  · refine ⟨by norm_num, ?_, h1074⟩
    exact lt_trans (lt_of_lt_of_le hfr (Nat.pow_le_pow_right (by norm_num) (by norm_num))) h1024
  · split
    · rename_i h0 hge
      refine ⟨by norm_num, ?_, by norm_num⟩
      have hp : 2 ^ (v.exponentBits - 1075) ≤ 2 ^ 971 :=
        Nat.pow_le_pow_right (by norm_num) (by omega)
      calc (2 ^ 52 + v.fractionBits) * 2 ^ (v.exponentBits - 1075)
          < 2 ^ 53 * 2 ^ (v.exponentBits - 1075) :=
            Nat.mul_lt_mul_of_pos_right (by omega) (pow_pos (by norm_num) _)
        _ ≤ 2 ^ 53 * 2 ^ 971 := Nat.mul_le_mul_left _ hp
        _ = 2 ^ 1024 := by norm_num
        _ < 10 ^ (400 + 1) := h1024
    · rename_i h0 hlt
      refine ⟨pow_pos (by norm_num) _, ?_, ?_⟩
      · have : 2 ^ 52 + v.fractionBits < 2 ^ 53 := by omega
        exact lt_trans (lt_of_lt_of_le this (Nat.pow_le_pow_right (by norm_num) (by norm_num)))
          h1024
      · exact le_trans (Nat.pow_le_pow_right (by norm_num) (by omega)) h1074

theorem QDouble.significand_bounds (v : QDouble) (p : Nat) (hf : v.exponentBits < 2047)
    (hz : v.magnitude.1 ≠ 0) :
    10 ^ p ≤ (v.scientific p).1 ∧ (v.scientific p).1 < 10 ^ (p + 1) := by
  obtain ⟨h1, h2, h3⟩ := v.magnitude_bounds hf
  unfold QDouble.scientific
  rw [if_neg hz]
  exact AlphaPlot.scientific_digits p _ _ (Nat.pos_of_ne_zero hz) h1 h2 h3

theorem digitChar_isDigit (d : Nat) (h : d < 10) : (Nat.digitChar d).isDigit = true := by
  interval_cases d <;> decide

theorem digitChar_ne_zero (d : Nat) (h1 : 0 < d) (h2 : d < 10) : Nat.digitChar d ≠ '0' := by
  interval_cases d <;> decide

theorem significandDigits_length (p n : Nat) : (significandDigits p n).length = p + 1 := by
  simp [significandDigits]

theorem significandDigits_isDigit (p n : Nat) :
    ∀ ch ∈ significandDigits p n, ch.isDigit = true := by
  intro ch h
  unfold significandDigits at h
  obtain ⟨j, _, hj⟩ := List.mem_map.mp h
  rw [← hj]
  exact digitChar_isDigit _ (Nat.mod_lt _ (by norm_num))

theorem significandDigits_head (p n : Nat) (h1 : 10 ^ p ≤ n) (h2 : n < 10 ^ (p + 1)) :
    ∃ d, (significandDigits p n).take 1 = [d] ∧ d.isDigit = true ∧ d ≠ '0' := by
  have hq1 : 0 < n / 10 ^ p := Nat.div_pos h1 (pow_pos (by norm_num) _)
  have hq2 : n / 10 ^ p < 10 := by
    rw [Nat.div_lt_iff_lt_mul (pow_pos (by norm_num) _)]
    calc n < 10 ^ (p + 1) := h2
      _ = 10 * 10 ^ p := by ring
  refine ⟨Nat.digitChar ((n / 10 ^ p) % 10), ?_, digitChar_isDigit _ (Nat.mod_lt _ (by norm_num)),
    ?_⟩
  · unfold significandDigits
    rw [List.range_succ_eq_map]
    simp
  · rw [Nat.mod_eq_of_lt hq2]
    exact digitChar_ne_zero _ hq1 hq2

theorem number_e_finite (v : QDouble) (p : Nat) (hf : v.isFinite = true) (hp : p ≠ 0) :
    number_e v p = String.mk
      ((if v.negative then ['-'] else []) ++
        (significandDigits p (v.scientific p).1).take 1 ++
        '.' :: (significandDigits p (v.scientific p).1).drop 1 ++
        'e' :: exponentDigits (v.scientific p).2) := by
  have hf2 : v.exponentBits < 2047 := by simpa [QDouble.isFinite] using hf
  unfold number_e
  rw [if_neg (by omega), if_neg hp]

namespace Column

theorem saveRow_infix_save (E : Externals) (c : Column) (i : Nat) (hi : (i : Int) < c.rowCount) :
    c.saveRow i (c.rowText E i) <:+: save E c := by
  have hi2 : i < c.rowCount.toNat := by omega
  have hmem : Child.text ⟨"row",
      [("type", c.dataType.enumValueToString), ("index", number i),
       ("invalid", if c.isInvalid i then "yes" else "no")], c.rowText E i⟩ ∈ c.savedChildren E :=
    List.getElem?_mem (savedChildren_row E c i hi)
  have h1 : c.saveRow i (c.rowText E i) <:+: (c.savedChildren E).flatMap Child.tokens := by
    have := List.infix_of_mem_flatten (List.mem_map_of_mem Child.tokens hmem)
    rw [List.flatMap]
    exact this
  rw [save_eq_savedChildren]
  exact List.infix_cons (h1.trans (List.prefix_append _ _).isInfix)

end Column
end AlphaPlot

/-! ## The claims -/

namespace AlphaPlot
namespace Column

/-- C1, the round trip of `save` and `load`, does not hold on the code.  Saving a text
column with four rows of which rows 1 to 3 are masked and loading the result into a new
text column succeeds, but the new column has the masked interval `[1, 1]` and no rows:
`XmlReadMask` converts `end` from `start_row`, and the loop of `load` leaves at the end
element of the mask.  With rows 1 to 3 carrying a formula instead, the rows come back and
the formula interval is `[1, 1]`: `XmlReadFormula` converts `end` from `start_row` too. -/
theorem save_load_loses_intervals :
    (maskedTextColumn.rowCount = 4 ∧ maskedTextColumn.maskedIntervals = [⟨1, 3⟩]) ∧
    ((load sampleExternals (create "new" .Text)
        (readerAt (save sampleExternals maskedTextColumn))).1 = true ∧
     (load sampleExternals (create "new" .Text)
        (readerAt (save sampleExternals maskedTextColumn))).2.1.maskedIntervals = [⟨1, 1⟩] ∧
     (load sampleExternals (create "new" .Text)
        (readerAt (save sampleExternals maskedTextColumn))).2.1.rowCount = 0) ∧
    (formulaTextColumn.rowCount = 4 ∧ formulaTextColumn.formulaIntervals = [⟨1, 3⟩]) ∧
    ((load sampleExternals (create "new" .Text)
        (readerAt (save sampleExternals formulaTextColumn))).1 = true ∧
     (load sampleExternals (create "new" .Text)
        (readerAt (save sampleExternals formulaTextColumn))).2.1.rowCount = 4 ∧
     (load sampleExternals (create "new" .Text)
        (readerAt (save sampleExternals formulaTextColumn))).2.1.formulaIntervals = [⟨1, 1⟩]) := by
  decide

/-- C2: the full copy returns true exactly when the data type of the source equals that of
the target; when the types differ it returns false and the target is the column it was,
undo log included, so no command was executed. -/
theorem copy_checks_data_type (E : Externals) (t : Column) (s : ColumnPrivate) :
    ((t.copy E s).1 = true ↔ s.dataType = t.dataType) ∧
    (s.dataType ≠ t.dataType →
      t.copy E s = (false, t) ∧ (t.copy E s).2.undoStack.commands = t.undoStack.commands) := by
  unfold Column.copy
  by_cases h : s.dataType = t.dataType
  · simp [h]
  · simp [h]

/-- Witness of C2: a text source copied into a numeric column. -/
theorem copy_checks_data_type_witness :
    (ColumnPrivate.ofMode .Text).dataType ≠ numericColumn.dataType ∧
    numericColumn.copy sampleExternals (ColumnPrivate.ofMode .Text) = (false, numericColumn) :=
  ⟨by decide,
   ((copy_checks_data_type sampleExternals numericColumn (ColumnPrivate.ofMode .Text)).2
      (by decide)).1⟩

/-- C3: the partial copy returns false and leaves the target as it was when the data types
differ, and returns true otherwise, whatever the three row arguments are. -/
theorem copyRows_checks_data_type (E : Externals) (t : Column) (s : ColumnPrivate)
    (source_start dest_start num_rows : Int) :
    (s.dataType ≠ t.dataType →
      t.copyRows E s source_start dest_start num_rows = (false, t)) ∧
    (s.dataType = t.dataType →
      (t.copyRows E s source_start dest_start num_rows).1 = true) := by
  unfold Column.copyRows
  by_cases h : s.dataType = t.dataType
  · simp [h]
  · simp [h]

/-- Witness of C3: a text source copied in part into a numeric column. -/
theorem copyRows_checks_data_type_witness :
    (ColumnPrivate.ofMode .Text).dataType ≠ numericColumn.dataType ∧
    numericColumn.copyRows sampleExternals (ColumnPrivate.ofMode .Text) 0 5 (-2) =
      (false, numericColumn) :=
  ⟨by decide,
   (copyRows_checks_data_type sampleExternals numericColumn (ColumnPrivate.ofMode .Text) 0 5
      (-2)).1 (by decide)⟩

/-- C4 does not hold on the code for every stream.  A `column` element of type `Double`
with a mask child followed by a row of type `QString`: `load` returns true and raises no
error, the loop having left at the end element of the mask with the row unread.  Without
the mask the row is read, `load` returns false with the error of `XmlReadRow` and no row
is written. -/
theorem load_skips_mistyped_row_after_mask :
    ((load sampleExternals (create "num" .Numeric) (readerAt maskThenMistypedRow)).1 = true ∧
     (load sampleExternals (create "num" .Numeric) (readerAt maskThenMistypedRow)).2.2.error =
        false ∧
     (load sampleExternals (create "num" .Numeric) (readerAt maskThenMistypedRow)).2.2.input =
        [.StartElement "row" [("type", "QString"), ("index", "0"), ("invalid", "no")],
         .Characters "x", .EndElement "row", .EndElement "column"]) ∧
    ((load sampleExternals (create "num" .Numeric) (readerAt mistypedRow)).1 = false ∧
     (load sampleExternals (create "num" .Numeric) (readerAt mistypedRow)).2.2.errorString =
        some "XML read error: invalid or missing row type (loading failed)" ∧
     (load sampleExternals (create "num" .Numeric) (readerAt mistypedRow)).2.1.rowCount = 0) := by
  decide

/-- C5: when the reader does not stand on a start element named `column`, `load` raises
the error "no column element found" and returns false, and the column is reset: no rows,
no masked, invalid or formula intervals, empty comment. -/
theorem load_without_column_element (E : Externals) (c : Column) (reader : QXmlStreamReader)
    (h : ¬ (reader.isStartElement = true ∧ reader.name = "column")) :
    (load E c reader).1 = false ∧
    (load E c reader).2.2.error = true ∧
    (load E c reader).2.2.errorString =
      some "XML read error: no column element found (loading failed)" ∧
    (load E c reader).2.1.rowCount = 0 ∧
    (load E c reader).2.1.maskedIntervals = [] ∧
    (load E c reader).2.1.invalidIntervals = [] ∧
    (load E c reader).2.1.formulaIntervals = [] ∧
    (load E c reader).2.1.comment = "" := by
  have hc : (reader.isStartElement && decide (reader.name = "column")) = false := by
    by_cases h1 : reader.isStartElement = true
    · have h2 : ¬ reader.name = "column" := fun h2 => h ⟨h1, h2⟩
      simp [h2]
    · simp [h1]
  have hl : load E c reader = (false, resetForLoad E c,
      reader.raiseError "XML read error: no column element found (loading failed)") := by
    unfold load
    simp only [hc]
    rfl
  rw [hl]
  exact ⟨rfl, rfl, rfl, resetForLoad_rowCount E c, rfl, rfl, rfl, rfl⟩

/-- Witness of C5: the masked text column loaded from a reader that stands on the start
element of a `table`. -/
theorem load_without_column_element_witness :
    ¬ ((QXmlStreamReader.mk (.StartElement "table" []) [.EndElement "table"] none).isStartElement
        = true ∧
       (QXmlStreamReader.mk (.StartElement "table" []) [.EndElement "table"] none).name
        = "column") ∧
    (load sampleExternals maskedTextColumn ⟨.StartElement "table" [], [.EndElement "table"], none⟩).1
      = false ∧
    (load sampleExternals maskedTextColumn
      ⟨.StartElement "table" [], [.EndElement "table"], none⟩).2.1.rowCount = 0 ∧
    (load sampleExternals maskedTextColumn
      ⟨.StartElement "table" [], [.EndElement "table"], none⟩).2.1.maskedIntervals = [] :=
  have h := load_without_column_element sampleExternals maskedTextColumn
    ⟨.StartElement "table" [], [.EndElement "table"], none⟩ (by decide)
  ⟨by decide, h.1, h.2.2.2.1, h.2.2.2.2.1⟩

/-- C6: on a `column` element whose `label` attribute is absent or empty, `load` raises the
error "column label missing" and returns false, and the name of the column is the one it
had. -/
theorem load_label_missing (E : Externals) (c : Column)
    (attribs : List (String × String)) (input : List Token) (err : Option String)
    (h : (∀ a ∈ attribs, a.1 ≠ "label") ∨ value attribs "label" = "") :
    (load E c ⟨.StartElement "column" attribs, input, err⟩).1 = false ∧
    (load E c ⟨.StartElement "column" attribs, input, err⟩).2.2.error = true ∧
    (load E c ⟨.StartElement "column" attribs, input, err⟩).2.2.errorString =
      some "XML read error: column label missing (loading failed)" ∧
    (load E c ⟨.StartElement "column" attribs, input, err⟩).2.1.name = c.name := by
  have hv : value attribs "label" = "" := by
    rcases h with h | h
    · exact value_absent attribs "label" h
    · exact h
  rw [load_on_column, if_pos hv]
  exact ⟨rfl, rfl, rfl, rfl⟩

/-- Witness of C6: a `column` element that has a type and a mode but no label. -/
theorem load_label_missing_witness :
    (∀ a ∈ [("type", "Double"), ("mode", "Numeric")], a.1 ≠ "label") ∧
    (load sampleExternals numericColumn
      ⟨.StartElement "column" [("type", "Double"), ("mode", "Numeric")],
        [.EndElement "column"], none⟩).1 = false ∧
    (load sampleExternals numericColumn
      ⟨.StartElement "column" [("type", "Double"), ("mode", "Numeric")],
        [.EndElement "column"], none⟩).2.1.name = "num" :=
  have h := load_label_missing sampleExternals numericColumn
    [("type", "Double"), ("mode", "Numeric")] [.EndElement "column"] none (Or.inl (by decide))
  ⟨by decide, h.1, h.2.2.2⟩

/-- C7: on a `column` element with a label whose `type` or `mode` attribute is absent,
empty or no name of the enumeration (`value` is empty for an absent attribute and
`enumStringToValue` has no value for the empty string), `load` raises an error and
returns false, and the mode of the column is the one it had. -/
theorem load_type_or_mode_unknown (E : Externals) (c : Column)
    (attribs : List (String × String)) (input : List Token) (err : Option String)
    (hlabel : value attribs "label" ≠ "")
    (h : ColumnDataType.enumStringToValue (value attribs "type") = none ∨
      ColumnMode.enumStringToValue (value attribs "mode") = none) :
    (load E c ⟨.StartElement "column" attribs, input, err⟩).1 = false ∧
    (load E c ⟨.StartElement "column" attribs, input, err⟩).2.2.error = true ∧
    (load E c ⟨.StartElement "column" attribs, input, err⟩).2.1.columnMode = c.columnMode := by
  obtain ⟨message, hl⟩ := load_type_or_mode_unknown_eq E c attribs input err hlabel h
  rw [hl]
  refine ⟨rfl, rfl, ?_⟩
  show (withAspectAttributes E c attribs).d_column_private.columnMode = _
  rw [withAspectAttributes_private]
  rfl

/-- Witness of C7: a numeric column and a `column` element of type `Double` whose mode
`Currency` is no name of a column mode. -/
theorem load_type_or_mode_unknown_witness :
    value [("label", "a"), ("type", "Double"), ("mode", "Currency")] "label" ≠ "" ∧
    ColumnMode.enumStringToValue
      (value [("label", "a"), ("type", "Double"), ("mode", "Currency")] "mode") = none ∧
    (load sampleExternals numericColumn
      ⟨.StartElement "column" [("label", "a"), ("type", "Double"), ("mode", "Currency")],
        [.EndElement "column"], none⟩).1 = false ∧
    (load sampleExternals numericColumn
      ⟨.StartElement "column" [("label", "a"), ("type", "Double"), ("mode", "Currency")],
        [.EndElement "column"], none⟩).2.1.columnMode = .Numeric :=
  have h := load_type_or_mode_unknown sampleExternals numericColumn
    [("label", "a"), ("type", "Double"), ("mode", "Currency")] [.EndElement "column"] none
    (by decide) (Or.inr (by decide))
  ⟨by decide, by decide, h.1, h.2.2⟩

/-- C8: on a `column` element with recognised type `t` and recognised mode `m`, if `t` is
not the data type the column has after `setColumnMode(m)`, `load` raises the error "column
type or mode invalid" and returns false; no token has been read from the reader and the
column has no rows, no intervals and no comment, so no child element was processed. -/
theorem load_type_mode_mismatch (E : Externals) (c : Column)
    (attribs : List (String × String)) (input : List Token) (err : Option String)
    (t : ColumnDataType) (m : ColumnMode)
    (hlabel : value attribs "label" ≠ "")
    (htype : ColumnDataType.enumStringToValue (value attribs "type") = some t)
    (hmode : ColumnMode.enumStringToValue (value attribs "mode") = some m)
    (hne : t ≠ (c.setColumnMode E m).dataType) :
    (load E c ⟨.StartElement "column" attribs, input, err⟩).1 = false ∧
    (load E c ⟨.StartElement "column" attribs, input, err⟩).2.2.error = true ∧
    (load E c ⟨.StartElement "column" attribs, input, err⟩).2.2.errorString =
      some "XML read error: column type or mode invalid (loading failed)" ∧
    (load E c ⟨.StartElement "column" attribs, input, err⟩).2.2.input = input ∧
    (load E c ⟨.StartElement "column" attribs, input, err⟩).2.1.rowCount = 0 ∧
    (load E c ⟨.StartElement "column" attribs, input, err⟩).2.1.maskedIntervals = [] ∧
    (load E c ⟨.StartElement "column" attribs, input, err⟩).2.1.invalidIntervals = [] ∧
    (load E c ⟨.StartElement "column" attribs, input, err⟩).2.1.formulaIntervals = [] ∧
    (load E c ⟨.StartElement "column" attribs, input, err⟩).2.1.comment = "" := by
  have h2 : value attribs "type" ≠ "" := by
    intro h; rw [h, dataType_enumStringToValue_empty] at htype; cases htype
  have h4 : value attribs "mode" ≠ "" := by
    intro h; rw [h, mode_enumStringToValue_empty] at hmode; cases hmode
  have hne' : t ≠ ((withAspectAttributes E c attribs).setColumnMode E m).dataType := by
    rw [withAspectAttributes_setColumnMode_dataType]; exact hne
  have hl : load E c ⟨.StartElement "column" attribs, input, err⟩ =
      (false, (withAspectAttributes E c attribs).setColumnMode E m,
        QXmlStreamReader.raiseError ⟨.StartElement "column" attribs, input, err⟩
          "XML read error: column type or mode invalid (loading failed)") := by
    rw [load_on_column, if_neg hlabel, if_neg h2, htype]
    simp only []
    rw [if_neg h4, hmode]
    simp only []
    rw [if_pos hne']
  rw [hl]
  have hi := setColumnMode_intervals E (withAspectAttributes E c attribs) m
  refine ⟨rfl, rfl, rfl, rfl, ?_, ?_, ?_, ?_, ?_⟩
  · show ((withAspectAttributes E c attribs).setColumnMode E m).rowCount = 0
    rw [setColumnMode_rowCount]
    show (withAspectAttributes E c attribs).d_column_private.rowCount = 0
    rw [withAspectAttributes_private]; exact resetForLoad_rowCount E c
  · show ((withAspectAttributes E c attribs).setColumnMode E m).maskedIntervals = []
    rw [hi.1]
    show (withAspectAttributes E c attribs).d_column_private.maskedIntervals = []
    rw [withAspectAttributes_private]; rfl
  · show ((withAspectAttributes E c attribs).setColumnMode E m).invalidIntervals = []
    rw [hi.2.1]
    show (withAspectAttributes E c attribs).d_column_private.invalidIntervals = []
    rw [withAspectAttributes_private]; rfl
  · show ((withAspectAttributes E c attribs).setColumnMode E m).formulaIntervals = []
    rw [hi.2.2]
    show (withAspectAttributes E c attribs).d_column_private.formulaIntervals = []
    rw [withAspectAttributes_private]; rfl
  · show ((withAspectAttributes E c attribs).setColumnMode E m).comment = ""
    rw [setColumnMode_comment]
    exact withAspectAttributes_comment E c attribs

/-- Witness of C8: a `column` element of type `Double` and mode `Text`, with a row child
that stays unread. -/
theorem load_type_mode_mismatch_witness :
    ColumnDataType.TypeDouble ≠ (numericColumn.setColumnMode sampleExternals .Text).dataType ∧
    (load sampleExternals numericColumn
      ⟨.StartElement "column" [("label", "a"), ("type", "Double"), ("mode", "Text")],
        [.StartElement "row" [("type", "Double"), ("index", "0")], .Characters "1",
         .EndElement "row", .EndElement "column"], none⟩).1 = false ∧
    (load sampleExternals numericColumn
      ⟨.StartElement "column" [("label", "a"), ("type", "Double"), ("mode", "Text")],
        [.StartElement "row" [("type", "Double"), ("index", "0")], .Characters "1",
         .EndElement "row", .EndElement "column"], none⟩).2.2.input =
      [.StartElement "row" [("type", "Double"), ("index", "0")], .Characters "1",
       .EndElement "row", .EndElement "column"] ∧
    (load sampleExternals numericColumn
      ⟨.StartElement "column" [("label", "a"), ("type", "Double"), ("mode", "Text")],
        [.StartElement "row" [("type", "Double"), ("index", "0")], .Characters "1",
         .EndElement "row", .EndElement "column"], none⟩).2.1.rowCount = 0 :=
  have h := load_type_mode_mismatch sampleExternals numericColumn
    [("label", "a"), ("type", "Double"), ("mode", "Text")]
    [.StartElement "row" [("type", "Double"), ("index", "0")], .Characters "1",
     .EndElement "row", .EndElement "column"] none .TypeDouble .Text
    (by decide) (by decide) (by decide) (by decide)
  ⟨by decide, h.1, h.2.2.2.1, h.2.2.2.2.1⟩

/-- C9 does not hold on the code.  A `column` element whose mask child has `start_row="1"`
and `end_row="x"`: `x` does not convert to an integer, yet `load` returns true, raises no
error and masks row 1, because `XmlReadMask` converts both bounds from `start_row`. -/
theorem load_accepts_mask_with_bad_end_row :
    (toInt "x").2 = false ∧
    (load sampleExternals (create "txt" .Text) (readerAt maskWithBadEndRow)).1 = true ∧
    (load sampleExternals (create "txt" .Text) (readerAt maskWithBadEndRow)).2.2.error = false ∧
    (load sampleExternals (create "txt" .Text) (readerAt maskWithBadEndRow)).2.1.maskedIntervals =
      [⟨1, 1⟩] := by
  decide

/-- C10 as stated fails for a date-time column: the row text `yesterday` is no timestamp,
`QDateTime::fromString` yields the null date-time, and `load` returns true without an
error, the row holding the null date-time. -/
theorem load_accepts_unparsable_timestamp :
    sampleExternals.dateTimeFromString "yesterday" = QDateTime.null ∧
    (load sampleExternals (create "dt" .DateTime) (readerAt rowWithBadTimestamp)).1 = true ∧
    (load sampleExternals (create "dt" .DateTime) (readerAt rowWithBadTimestamp)).2.2.error =
      false ∧
    (load sampleExternals (create "dt" .DateTime) (readerAt rowWithBadTimestamp)).2.1.rowCount =
      1 ∧
    (load sampleExternals (create "dt" .DateTime)
      (readerAt rowWithBadTimestamp)).2.1.dateTimeAt 0 = QDateTime.null := by
  decide

/-- C10, amended.  On a `column` element whose children up to a `row` child are passable
(elements with character data other than masks, filter elements read by their loaders,
white space and comments between them): if the `index` attribute of the row is absent or does not convert to an
integer, or the element has the type `Double` and the text of the row is no double,
`load` returns false with an error raised on the reader.  On a date-time column `XmlReadRow` does not check the text of a row of the
right type and index: it stores `QDateTime::fromString` of the text, returns true and
raises no error. -/
theorem load_row_unparsable (E : Externals) (c : Column) (attribs : List (String × String))
    (pre : List Child) (bad : TextElement) (rest : List Token)
    (hpre : ∀ ch ∈ pre, ch.Passable E)
    (hrow : bad.name = "row")
    (hbad : (toInt (value bad.attributes "index")).2 = false ∨
      (value attribs "type" = "Double" ∧ E.toDouble bad.text = none)) :
    ((load E c ⟨.StartElement "column" attribs,
        pre.flatMap Child.tokens ++ (bad.tokens ++ rest), none⟩).1 = false ∧
     (load E c ⟨.StartElement "column" attribs,
        pre.flatMap Child.tokens ++ (bad.tokens ++ rest), none⟩).2.2.error = true) ∧
    (∀ (d : Column) (a : List (String × String)) (text : String) (more : List Token),
      d.dataType = .TypeQDateTime →
      ColumnDataType.enumStringToValue (value a "type") = some .TypeQDateTime →
      (toInt (value a "index")).2 = true →
      XmlReadRow E d
          ⟨.StartElement "row" a, writeCharacters text ++ .EndElement "row" :: more, none⟩ =
        (true,
         (if value a "invalid" = "yes" then d.setInvalidRow E (toInt (value a "index")).1 true
          else d).setDateTimeAt E (toInt (value a "index")).1 (E.dateTimeFromString text),
         ⟨.EndElement "row", more, none⟩)) := by
  constructor
  · apply load_fails_of_LoopFails
    intro c' hc'
    refine LoopFails_after_children E c'.dataType (bad.tokens ++ rest) ?_ pre hpre c'
      (.StartElement "column" attribs) rfl rfl
    intro c'' cur hT hcur
    apply LoopFails_unparsable_row E c'' cur bad rest hcur hrow
    rcases hbad with hbad | ⟨hD, hv⟩
    · exact Or.inl hbad
    · refine Or.inr ⟨?_, hv⟩
      rw [hD, dataType_enumStringToValue_Double] at hc'
      rw [hT]
      exact (Option.some.inj hc').symm
  · intro d a text more hT hty hidx
    have hne : value a "index" ≠ "" := by
      intro h; rw [h, toInt_empty] at hidx; cases hidx
    have hty' : value a "type" ≠ "" := by
      intro h; rw [h, dataType_enumStringToValue_empty] at hty; cases hty
    unfold XmlReadRow
    simp only [QXmlStreamReader.attributes, isEmpty_eq_decide, hty, hT, hne, hty', hidx]
    simp only [decide_False, Bool.false_or, ne_eq, not_true_eq_false, Bool.not_true,
      Bool.or_self, Bool.false_eq_true, if_false, reduceCtorEq, decide_False]
    rw [QXmlStreamReader.readElementText_text]
    have hc : (if value a "invalid" = "yes" then
        d.setInvalidRow E (toInt (value a "index")).1 true else d).dataType = .TypeQDateTime := by
      split
      · exact hT
      · exact hT
    split
    · rename_i h; rw [hc] at h; cases h
    · rename_i h; rw [hc] at h; cases h
    · rfl

/-- Witness of C10, amended: a numeric `column` element with both filter elements, a
comment, a good row and then a row whose text `seven` is no double. -/
theorem load_row_unparsable_witness :
    (∀ ch ∈ sampleChildren, ch.Passable sampleExternals) ∧
    sampleExternals.toDouble "seven" = none ∧
    (load sampleExternals (create "num" .Numeric)
      ⟨.StartElement "column" [("label", "num"), ("type", "Double"), ("mode", "Numeric")],
       sampleChildren.flatMap Child.tokens ++
        ((TextElement.mk "row" [("type", "Double"), ("index", "1"), ("invalid", "no")]
            "seven").tokens ++ [.EndElement "column"]), none⟩).1 = false ∧
    (load sampleExternals (create "num" .Numeric)
      ⟨.StartElement "column" [("label", "num"), ("type", "Double"), ("mode", "Numeric")],
       sampleChildren.flatMap Child.tokens ++
        ((TextElement.mk "row" [("type", "Double"), ("index", "1"), ("invalid", "no")]
            "seven").tokens ++ [.EndElement "column"]), none⟩).2.2.error = true :=
  have h := (load_row_unparsable sampleExternals (create "num" .Numeric)
    [("label", "num"), ("type", "Double"), ("mode", "Numeric")] sampleChildren
    (TextElement.mk "row" [("type", "Double"), ("index", "1"), ("invalid", "no")] "seven")
    [.EndElement "column"] sampleChildren_passable rfl (Or.inr ⟨by decide, by decide⟩)).1
  ⟨sampleChildren_passable, by decide, h.1, h.2⟩

/-- C11 does not hold on the code for every unknown element.  A `column` element with a
comment child loads with the value true.  With an unknown element `note` holding character
data in front of the comment the result is the same column.  With an unknown element
`style` that has a child element in front of the comment, `load` returns false: the
`readElementText` call that is to pass over the unknown element raises "Expected character
data." at the child, and the comment is not read. -/
theorem load_fails_on_nested_unknown_element :
    ((load sampleExternals (create "txt" .Text) (readerAt commentOnly)).1 = true ∧
     (load sampleExternals (create "txt" .Text) (readerAt commentOnly)).2.1.comment = "hello") ∧
    ((load sampleExternals (create "txt" .Text) (readerAt commentAfterTextUnknown)).1 = true ∧
     (load sampleExternals (create "txt" .Text) (readerAt commentAfterTextUnknown)).2.1 =
       (load sampleExternals (create "txt" .Text) (readerAt commentOnly)).2.1) ∧
    ((load sampleExternals (create "txt" .Text) (readerAt commentAfterNestedUnknown)).1 = false ∧
     (load sampleExternals (create "txt" .Text)
        (readerAt commentAfterNestedUnknown)).2.2.errorString = some "Expected character data." ∧
     (load sampleExternals (create "txt" .Text) (readerAt commentAfterNestedUnknown)).2.1.comment =
        "") := by
  decide

/-- C13: `insertRows` and `removeRows` with a count of zero or less return the column as it
was, undo log included, so no command is recorded, whatever `before` and `first` are. -/
theorem insertRows_removeRows_nonpositive (E : Externals) (c : Column) (before first count : Int)
    (h : count ≤ 0) :
    c.insertRows E before count = c ∧ c.removeRows E first count = c ∧
    (c.insertRows E before count).undoStack.commands = c.undoStack.commands ∧
    (c.removeRows E first count).undoStack.commands = c.undoStack.commands := by
  have h1 : c.insertRows E before count = c := by
    unfold Column.insertRows
    rw [if_neg (by omega)]
  have h2 : c.removeRows E first count = c := by
    unfold Column.removeRows
    rw [if_neg (by omega)]
  rw [h1, h2]
  exact ⟨rfl, rfl, rfl, rfl⟩

/-- Witness of C13: counts -2 and 0 on a numeric column of three rows. -/
theorem insertRows_removeRows_nonpositive_witness :
    numericColumn.insertRows sampleExternals 1 (-2) = numericColumn ∧
    numericColumn.removeRows sampleExternals 0 0 = numericColumn :=
  ⟨(insertRows_removeRows_nonpositive sampleExternals numericColumn 1 0 (-2) (by decide)).1,
   (insertRows_removeRows_nonpositive sampleExternals numericColumn 1 0 0 (by decide)).2.1⟩

/-- C14: on a column of `n` rows, `insertRows(before, count)` with `0 ≤ before ≤ n` and
`count > 0` gives `n + count` rows, and row `r` is masked afterwards exactly when it lies
below `before` and was masked, or lies at `before + count` or above and row `r - count`
was masked.  For three rows with row 2 masked, `insertRows(1, 2)` gives five rows and the
masked intervals `[[4, 4]]`. -/
theorem insertRows_shifts_masks (E : Externals) (c : Column) (before count : Int)
    (h0 : 0 ≤ before) (h1 : before ≤ c.rowCount) (hc : 0 < count) :
    (c.insertRows E before count).rowCount = c.rowCount + count ∧
    (∀ r : Int, (c.insertRows E before count).isMasked r =
      ((decide (r < before) && c.isMasked r) ||
        (decide (before + count ≤ r) && c.isMasked (r - count)))) ∧
    ((threeRowsRowTwoMasked.insertRows sampleExternals 1 2).rowCount = 5 ∧
      (threeRowsRowTwoMasked.insertRows sampleExternals 1 2).maskedIntervals = [⟨4, 4⟩]) := by
  have he : c.insertRows E before count = c.exec E (.ColumnInsertEmptyRowsCmd before count) := by
    unfold Column.insertRows
    rw [if_pos hc]
  rw [he]
  refine ⟨?_, fun r => ?_, by decide⟩
  · exact Storage.insertEmptyRows_rowCount c.d_column_private.d_data before count h0 h1 hc
  · exact IntervalAttribute.insertRows_isSet c.d_column_private.d_masking before count r hc

/-- Witness of C14: the column of the example, at row 4. -/
theorem insertRows_shifts_masks_witness :
    (threeRowsRowTwoMasked.rowCount = 3 ∧ threeRowsRowTwoMasked.maskedIntervals = [⟨2, 2⟩]) ∧
    (threeRowsRowTwoMasked.insertRows sampleExternals 1 2).rowCount =
      threeRowsRowTwoMasked.rowCount + 2 ∧
    (threeRowsRowTwoMasked.insertRows sampleExternals 1 2).isMasked 4 =
      ((decide ((4 : Int) < 1) && threeRowsRowTwoMasked.isMasked 4) ||
        (decide ((1 : Int) + 2 ≤ 4) && threeRowsRowTwoMasked.isMasked (4 - 2))) :=
  ⟨by decide,
   (insertRows_shifts_masks sampleExternals threeRowsRowTwoMasked 1 2 (by decide) (by decide)
      (by decide)).1,
   (insertRows_shifts_masks sampleExternals threeRowsRowTwoMasked 1 2 (by decide) (by decide)
      (by decide)).2.1 4⟩

/-- C15: on a Numeric column holding doubles, for a row `r` with `0 ≤ r < rowCount`,
after `setValueAt(r, v)` the value at `r` is `v`, the row count is what it was and the
value at every other row `q` is what it was. -/
theorem setValueAt_sets_one_value (E : Externals) (c : Column) (r : Int) (v : QDouble)
    (hm : c.columnMode = .Numeric) (ht : c.dataType = c.columnMode.dataType)
    (h0 : 0 ≤ r) (h1 : r < c.rowCount) :
    (c.setValueAt E r v).valueAt r = v ∧
    (c.setValueAt E r v).rowCount = c.rowCount ∧
    (∀ q : Int, q ≠ r → (c.setValueAt E r v).valueAt q = c.valueAt q) := by
  rw [hm] at ht
  obtain ⟨n, cm, ct, cs, d, ch, u⟩ := c
  obtain ⟨mode, data, fi, fo, vl, mk, fm, pd⟩ := d
  cases data with
  | doubles l =>
    have hr : r.toNat < l.length := by
      have : r < (l.length : Int) := h1
      omega
    have hp : (Column.setValueAt E ⟨n, cm, ct, cs, ⟨mode, .doubles l, fi, fo, vl, mk, fm, pd⟩, ch, u⟩
        r v).d_column_private =
        ⟨mode, .doubles (replaceRange QDouble.zero l r.toNat [v]), fi, fo, vl, mk, fm, pd⟩ := by
      show ColumnPrivate.replaceValues ⟨mode, .doubles l, fi, fo, vl, mk, fm, pd⟩ r [v] = _
      unfold ColumnPrivate.replaceValues
      simp only [if_pos h0]
    refine ⟨?_, ?_, fun q hq => ?_⟩
    · show ColumnPrivate.valueAt _ r = v
      rw [hp]
      simp only [ColumnPrivate.valueAt, if_pos h0]
      rw [replaceRange_one_getD QDouble.zero l r.toNat r.toNat v hr, if_pos rfl]
    · show ColumnPrivate.rowCount _ = ((l.length : Nat) : Int)
      rw [hp]
      show (((replaceRange QDouble.zero l r.toNat [v]).length : Nat) : Int) = _
      rw [replaceRange_one_length QDouble.zero l r.toNat v hr]
    · show ColumnPrivate.valueAt _ q = ColumnPrivate.valueAt _ q
      rw [hp]
      simp only [ColumnPrivate.valueAt]
      by_cases hq0 : 0 ≤ q
      · rw [if_pos hq0, if_pos hq0, replaceRange_one_getD QDouble.zero l r.toNat q.toNat v hr,
          if_neg (by omega)]
      · rw [if_neg hq0, if_neg hq0]
  | strings l => cases ht
  | dateTimes l => cases ht

/-- Witness of C15: row 1 of a numeric column of three rows set to another value. -/
theorem setValueAt_sets_one_value_witness :
    (numericColumn.setValueAt sampleExternals 1 ⟨7⟩).valueAt 1 = ⟨7⟩ ∧
    (numericColumn.setValueAt sampleExternals 1 ⟨7⟩).rowCount = numericColumn.rowCount ∧
    (numericColumn.setValueAt sampleExternals 1 ⟨7⟩).valueAt 2 = numericColumn.valueAt 2 :=
  ⟨(setValueAt_sets_one_value sampleExternals numericColumn 1 ⟨7⟩ (by decide) (by decide)
      (by decide) (by decide)).1,
   (setValueAt_sets_one_value sampleExternals numericColumn 1 ⟨7⟩ (by decide) (by decide)
      (by decide) (by decide)).2.1,
   (setValueAt_sets_one_value sampleExternals numericColumn 1 ⟨7⟩ (by decide) (by decide)
      (by decide) (by decide)).2.2 2 (by decide)⟩

/-- C16: after `clear(); clearValidity(); clearMasks(); clearFormulas()` the column has
no rows and no invalid, masked or formula intervals.  A second run of the sequence leaves
the private, name, comment, creation time, caption spec and children as they are; the
undo log records its four commands again. -/
theorem clearAll_clears (E : Externals) (c : Column) :
    ((clearAll E c).rowCount = 0 ∧ (clearAll E c).invalidIntervals = [] ∧
      (clearAll E c).maskedIntervals = [] ∧ (clearAll E c).formulaIntervals = []) ∧
    ((clearAll E (clearAll E c)).d_column_private = (clearAll E c).d_column_private ∧
      (clearAll E (clearAll E c)).name = (clearAll E c).name ∧
      (clearAll E (clearAll E c)).comment = (clearAll E c).comment ∧
      (clearAll E (clearAll E c)).creationTime = (clearAll E c).creationTime ∧
      (clearAll E (clearAll E c)).captionSpec = (clearAll E c).captionSpec ∧
      (clearAll E (clearAll E c)).children = (clearAll E c).children) ∧
    (clearAll E (clearAll E c)).undoStack.commands =
      [.ColumnClearFormulasCmd, .ColumnClearMasksCmd, .ColumnClearValidityCmd, .ColumnClearCmd] ++
        (clearAll E c).undoStack.commands := by
  refine ⟨⟨?_, ?_, ?_, ?_⟩, ⟨?_, clearAll_rest E _⟩, clearAll_commands E _⟩
  · show (clearAll E c).d_column_private.rowCount = 0
    rw [clearAll_private]
    show ((c.d_column_private.d_data.clear.rowCount : Nat) : Int) = 0
    rw [Storage_clear_rowCount]; rfl
  · show (clearAll E c).d_column_private.invalidIntervals = []
    rw [clearAll_private]; rfl
  · show (clearAll E c).d_column_private.maskedIntervals = []
    rw [clearAll_private]; rfl
  · show (clearAll E c).d_column_private.formulaIntervals = []
    rw [clearAll_private]; rfl
  · rw [clearAll_private, clearAll_private]
    simp only [Storage_clear_clear]

/-- C17, the inverse law of undo and redo: on a column that is not inside an open macro,
after a sequence of `N` operations each of which records its undo step, `N` calls of
`undo()` give back the private of the column (rows, cells, intervals) and the done part
of the log, and `N` calls of `redo()` after that give back the private and the done
part reached after the sequence. -/
theorem undo_redo_inverse (E : Externals) (c : Column) (ops : List Operation)
    (h0 : c.undoStack.depth = 0) (hrec : allRecord E c ops = true) :
    ((undo^[ops.length] (applyAll E c ops)).d_column_private = c.d_column_private ∧
      (undo^[ops.length] (applyAll E c ops)).undoStack.done = c.undoStack.done) ∧
    (((redo E)^[ops.length] (undo^[ops.length] (applyAll E c ops))).d_column_private =
        (applyAll E c ops).d_column_private ∧
      ((redo E)^[ops.length] (undo^[ops.length] (applyAll E c ops))).undoStack.done =
        (applyAll E c ops).undoStack.done) := by
  obtain ⟨new, hl, hd, _, hc⟩ := applyAll_records E ops c h0 hrec
  obtain ⟨u1, u2, u3, _⟩ := undo_iterate E new (applyAll E c ops) c.undoStack.done
    c.d_column_private hd hc
  rw [hl] at u1 u2 u3
  refine ⟨⟨u1, u2⟩, ?_⟩
  have hc2 : UndoChain E new (undo^[ops.length] (applyAll E c ops)).d_column_private
      (applyAll E c ops).d_column_private := by rw [u1]; exact hc
  obtain ⟨r1, r2, _, _⟩ := redo_iterate E new (undo^[ops.length] (applyAll E c ops)) _ _ u3 hc2
  rw [hl] at r1 r2
  exact ⟨r1, by rw [r2, u2, hd]⟩

/-- Witness of C17: four operations on a numeric column, a mode change among them. -/
theorem undo_redo_inverse_witness :
    (numericColumn.undoStack.depth = 0 ∧
      allRecord sampleExternals numericColumn
        [.setValueAt 1 ⟨9⟩, .insertRows 1 2, .setColumnMode .Text, .setMaskedRow 0 true] = true) ∧
    (undo^[4] (applyAll sampleExternals numericColumn
        [.setValueAt 1 ⟨9⟩, .insertRows 1 2, .setColumnMode .Text,
          .setMaskedRow 0 true])).d_column_private = numericColumn.d_column_private ∧
    ((redo sampleExternals)^[4] (undo^[4] (applyAll sampleExternals numericColumn
        [.setValueAt 1 ⟨9⟩, .insertRows 1 2, .setColumnMode .Text,
          .setMaskedRow 0 true]))).d_column_private =
      (applyAll sampleExternals numericColumn
        [.setValueAt 1 ⟨9⟩, .insertRows 1 2, .setColumnMode .Text,
          .setMaskedRow 0 true]).d_column_private :=
  ⟨⟨by decide, by decide⟩,
   (undo_redo_inverse sampleExternals numericColumn
      [.setValueAt 1 ⟨9⟩, .insertRows 1 2, .setColumnMode .Text, .setMaskedRow 0 true]
      (by decide) (by decide)).1.1,
   (undo_redo_inverse sampleExternals numericColumn
      [.setValueAt 1 ⟨9⟩, .insertRows 1 2, .setColumnMode .Text, .setMaskedRow 0 true]
      (by decide) (by decide)).2.1⟩

/-- C18, macro atomicity: on a column that is not inside an open macro, the commands
executed between `beginMacro` and the matching `endMacro`, nested macros included, make
one entry of the log and are recorded one by one; one `undo()` gives back the private and
the log of before `beginMacro`.  In particular one `undo()` after `setColumnMode(m)` with
another mode gives back the private, with mode, data type and cells. -/
theorem macro_undone_by_one_undo (E : Externals) (c : Column) (text : String)
    (actions : List MacroAction) (m : ColumnMode)
    (h0 : c.undoStack.depth = 0) (hb : MacroAction.balanced 0 actions = true) :
    ((c.runMacro E text actions).undoStack.done.length = c.undoStack.done.length + 1 ∧
      (c.runMacro E text actions).undoStack.commands =
        (MacroAction.commands actions).reverse ++ c.undoStack.commands ∧
      (c.runMacro E text actions).undo.d_column_private = c.d_column_private ∧
      (c.runMacro E text actions).undo.undoStack.done = c.undoStack.done) ∧
    (m ≠ c.columnMode →
      (c.setColumnMode E m).undo.d_column_private = c.d_column_private ∧
      (c.setColumnMode E m).undo.undoStack.done = c.undoStack.done) := by
  constructor
  · obtain ⟨e, h1, h2, h3⟩ := runMacro_entry E c text actions h0 hb
    rw [undo_cons _ e c.undoStack.done (by rw [h1])]
    refine ⟨by rw [h1]; simp, ?_, h2, rfl⟩
    rw [h1]
    simp [UndoStack.commands, h3]
  · intro hm
    obtain ⟨e, h1, mid, h2, h3, _⟩ := setColumnMode_records E c m h0 hm
    have h2 : c.d_column_private = mid := h2
    rw [undo_cons _ e c.undoStack.done (by rw [h1])]
    exact ⟨by rw [h2]; exact h3, rfl⟩

/-- Witness of C18: a macro of three commands with a nested macro, and a mode change. -/
theorem macro_undone_by_one_undo_witness :
    (numericColumn.undoStack.depth = 0 ∧
      MacroAction.balanced 0
        [.exec (.ColumnSetValueCmd 0 ⟨5⟩), .beginMacro "inner", .exec .ColumnClearMasksCmd,
          .endMacro, .exec (.ColumnInsertEmptyRowsCmd 1 1)] = true) ∧
    (numericColumn.runMacro sampleExternals "fill"
        [.exec (.ColumnSetValueCmd 0 ⟨5⟩), .beginMacro "inner", .exec .ColumnClearMasksCmd,
          .endMacro, .exec (.ColumnInsertEmptyRowsCmd 1 1)]).undo.d_column_private =
      numericColumn.d_column_private ∧
    (numericColumn.setColumnMode sampleExternals .Text).undo.d_column_private =
      numericColumn.d_column_private :=
  ⟨⟨by decide, by decide⟩,
   (macro_undone_by_one_undo sampleExternals numericColumn "fill"
      [.exec (.ColumnSetValueCmd 0 ⟨5⟩), .beginMacro "inner", .exec .ColumnClearMasksCmd,
        .endMacro, .exec (.ColumnInsertEmptyRowsCmd 1 1)] .Text (by decide) (by decide)).1.2.2.1,
   ((macro_undone_by_one_undo sampleExternals numericColumn "fill"
      [.exec (.ColumnSetValueCmd 0 ⟨5⟩), .beginMacro "inner", .exec .ColumnClearMasksCmd,
        .endMacro, .exec (.ColumnInsertEmptyRowsCmd 1 1)] .Text (by decide) (by decide)).2
      (by decide)).1⟩

/-- C19: `setColumnMode(m)` with `m` the mode of the column returns the column as it was
(private with mode, data, filters; children; undo log).  With another mode the undo log
and the private are those of `beginMacro`, one execution of `ColumnSetModeCmd m`,
`endMacro`, and the log has that one command more. -/
theorem setColumnMode_same_or_other (E : Externals) (c : Column) (m : ColumnMode) :
    (m = c.columnMode → c.setColumnMode E m = c) ∧
    (m ≠ c.columnMode →
      (c.setColumnMode E m).undoStack =
        ((c.beginMacro (c.name ++ ": change column type")).exec E
          (.ColumnSetModeCmd m)).endMacro.undoStack ∧
      (c.setColumnMode E m).d_column_private =
        ((c.beginMacro (c.name ++ ": change column type")).exec E
          (.ColumnSetModeCmd m)).endMacro.d_column_private ∧
      (c.setColumnMode E m).undoStack.commands = .ColumnSetModeCmd m :: c.undoStack.commands) := by
  refine ⟨fun h => ?_, fun h => ?_⟩
  · unfold setColumnMode
    rw [if_pos h]
  · refine ⟨setColumnMode_undoStack E c m h, ?_, ?_⟩
    · rw [setColumnMode_private, if_neg h]; rfl
    · rw [setColumnMode_undoStack E c m h]
      show UndoStack.commands (UndoStack.push _ _) = _
      rw [push_commands]
      show _ :: UndoStack.commands (UndoStack.beginMacro _ _) = _
      rw [beginMacro_commands]

/-- Witness of C19: a numeric column set to Numeric, and set to Text. -/
theorem setColumnMode_same_or_other_witness :
    numericColumn.setColumnMode sampleExternals .Numeric = numericColumn ∧
    (numericColumn.setColumnMode sampleExternals .Text).undoStack.commands =
      .ColumnSetModeCmd .Text :: numericColumn.undoStack.commands :=
  ⟨(setColumnMode_same_or_other sampleExternals numericColumn .Numeric).1 (by decide),
   ((setColumnMode_same_or_other sampleExternals numericColumn .Text).2 (by decide)).2.2⟩

/-- C20: `setPlotDesignation(pd)` with `pd` the designation of the column returns the
column as it was, undo log included.  With another designation it is the execution of one
`ColumnSetPlotDesignationCmd pd`, the log has that one command more and the designation
afterwards is `pd`. -/
theorem setPlotDesignation_same_or_other (E : Externals) (c : Column) (pd : PlotDesignation) :
    (pd = c.plotDesignation → c.setPlotDesignation E pd = c) ∧
    (pd ≠ c.plotDesignation →
      c.setPlotDesignation E pd = c.exec E (.ColumnSetPlotDesignationCmd pd) ∧
      (c.setPlotDesignation E pd).undoStack.commands =
        .ColumnSetPlotDesignationCmd pd :: c.undoStack.commands ∧
      (c.setPlotDesignation E pd).plotDesignation = pd) := by
  refine ⟨fun h => ?_, fun h => ?_⟩
  · unfold setPlotDesignation
    rw [if_neg (by simpa using h)]
  · have h1 : c.setPlotDesignation E pd = c.exec E (.ColumnSetPlotDesignationCmd pd) := by
      unfold setPlotDesignation
      rw [if_pos h]
    rw [h1]
    exact ⟨rfl, exec_commands E c _, rfl⟩

/-- Witness of C20: a numeric column without designation set to none, and set to `Y`. -/
theorem setPlotDesignation_same_or_other_witness :
    numericColumn.setPlotDesignation sampleExternals .noDesignation = numericColumn ∧
    (numericColumn.setPlotDesignation sampleExternals .Y).plotDesignation = .Y :=
  ⟨(setPlotDesignation_same_or_other sampleExternals numericColumn .noDesignation).1 (by decide),
   ((setPlotDesignation_same_or_other sampleExternals numericColumn .Y).2 (by decide)).2.2⟩

/-! ### Claims C21 to C30 -/

/-- C21: what `save` writes is the start element of `column`, the children listed in
`savedChildren` one after the other, and the end element.  The children are
`input_filter`, `output_filter` and `comment`, then for each masked interval, in order, a
`mask` element with its start and end, then for each formula interval a `formula` element
with its start, its end and the formula of its start row, then for each row `i` below
`rowCount`, in ascending order, a `row` element with the data type of the column, the
index `i` and `invalid="yes"` exactly when row `i` is invalid. -/
theorem save_emits_children_in_order (E : Externals) (c : Column) :
    save E c =
      .StartElement "column"
        [("creation_time", E.dateTimeToString c.creationTime),
         ("caption_spec", c.captionSpec),
         ("label", c.name),
         ("type", c.dataType.enumValueToString),
         ("mode", c.columnMode.enumValueToString),
         ("plot_designation", c.plotDesignation.enumValueToString)] ::
      ((c.savedChildren E).flatMap Child.tokens ++ [.EndElement "column"]) ∧
    (c.savedChildren E).length =
      3 + c.maskedIntervals.length + c.formulaIntervals.length + c.rowCount.toNat ∧
    (c.savedChildren E).take 3 =
      [.filter "input_filter" [] (E.filterSave c.inputFilter),
       .filter "output_filter" [] (E.filterSave c.outputFilter),
       .text ⟨"comment", [], c.comment⟩] ∧
    (∀ (k : Nat) (hk : k < c.maskedIntervals.length),
      (c.savedChildren E)[3 + k]? =
        some (.text ⟨"mask",
          [("start_row", number (c.maskedIntervals.get ⟨k, hk⟩).start),
           ("end_row", number (c.maskedIntervals.get ⟨k, hk⟩).stop)], ""⟩)) ∧
    (∀ (k : Nat) (hk : k < c.formulaIntervals.length),
      (c.savedChildren E)[3 + c.maskedIntervals.length + k]? =
        some (.text ⟨"formula",
          [("start_row", number (c.formulaIntervals.get ⟨k, hk⟩).start),
           ("end_row", number (c.formulaIntervals.get ⟨k, hk⟩).stop)],
          c.formula (c.formulaIntervals.get ⟨k, hk⟩).start⟩)) ∧
    (∀ i : Nat, (i : Int) < c.rowCount →
      (c.savedChildren E)[3 + c.maskedIntervals.length + c.formulaIntervals.length + i]? =
        some (.text ⟨"row",
          [("type", c.dataType.enumValueToString), ("index", number i),
           ("invalid", if c.isInvalid i then "yes" else "no")],
          c.rowText E i⟩)) :=
  ⟨save_eq_savedChildren E c, savedChildren_length E c, savedChildren_head E c,
   savedChildren_mask E c, savedChildren_formula E c, savedChildren_row E c⟩

/-- Witness of C21: the numeric column of three rows with a mask, a formula and an invalid
row. -/
theorem save_emits_children_in_order_witness :
    save sampleExternals annotatedNumericColumn =
      [.StartElement "column"
         [("creation_time", ""), ("caption_spec", ""), ("label", "num"), ("type", "Double"),
          ("mode", "Numeric"), ("plot_designation", "noDesignation")],
       .StartElement "input_filter" [],
       .StartElement "simple_filter" [], .EndElement "simple_filter",
       .EndElement "input_filter",
       .StartElement "output_filter" [],
       .StartElement "simple_filter" [], .EndElement "simple_filter",
       .EndElement "output_filter",
       .StartElement "comment" [], .EndElement "comment",
       .StartElement "mask" [("start_row", "1"), ("end_row", "1")], .EndElement "mask",
       .StartElement "formula" [("start_row", "0"), ("end_row", "1")],
       .Characters "col(2)", .EndElement "formula",
       .StartElement "row" [("type", "Double"), ("index", "0"), ("invalid", "no")],
       .Characters "1", .EndElement "row",
       .StartElement "row" [("type", "Double"), ("index", "1"), ("invalid", "no")],
       .Characters "2", .EndElement "row",
       .StartElement "row" [("type", "Double"), ("index", "2"), ("invalid", "yes")],
       .Characters "3", .EndElement "row",
       .EndElement "column"] ∧
    (annotatedNumericColumn.savedChildren sampleExternals)[3 + 1 + 1 + 2]? =
      some (.text ⟨"row", [("type", "Double"), ("index", "2"), ("invalid", "yes")], "3"⟩) :=
  ⟨by decide,
   (save_emits_children_in_order sampleExternals annotatedNumericColumn).2.2.2.2.2 2
      (by decide)⟩

/-- C22 as stated fails: the rows 1.0 and 0.1 of a numeric column are written as
`1.0000000000000000e+00` and `1.0000000000000001e-01`, with sixteen digits after the
decimal point, which are seventeen significant digits. -/
theorem save_writes_seventeen_significant_digits :
    (oneAndOneTenth.valueAt 0 = ⟨0x3FF0000000000000⟩ ∧
      oneAndOneTenth.valueAt 1 = ⟨0x3FB999999999999A⟩) ∧
    save sampleExternalsQtNumber oneAndOneTenth =
      [.StartElement "column"
         [("creation_time", ""), ("caption_spec", ""), ("label", "num"), ("type", "Double"),
          ("mode", "Numeric"), ("plot_designation", "noDesignation")],
       .StartElement "input_filter" [],
       .StartElement "simple_filter" [], .EndElement "simple_filter",
       .EndElement "input_filter",
       .StartElement "output_filter" [],
       .StartElement "simple_filter" [], .EndElement "simple_filter",
       .EndElement "output_filter",
       .StartElement "comment" [], .EndElement "comment",
       .StartElement "row" [("type", "Double"), ("index", "0"), ("invalid", "no")],
       .Characters "1.0000000000000000e+00", .EndElement "row",
       .StartElement "row" [("type", "Double"), ("index", "1"), ("invalid", "no")],
       .Characters "1.0000000000000001e-01", .EndElement "row",
       .EndElement "column"] ∧
    ("1.0000000000000001".toList.filter Char.isDigit).length = 17 := by
  decide

/-- C22, amended.  With doubles written as `QString::number(v, 'e', 16)` writes them, the
`row` element `save` writes for row `i` of a column of doubles carries that text of
`valueAt(i)`.  For a finite value it is an optional minus sign, one digit, the decimal
point, sixteen digits, `e` and the exponent, seventeen digits in all, the first of which
is not 0 unless the value is zero; for a value that is not finite it is `inf`, `-inf` or
`nan`. -/
theorem save_writes_sixteen_digits_after_the_point (E : Externals) (c : Column) (i : Nat)
    (hE : ∀ v, E.number_e16 v = number_e v 16) (ht : c.dataType = .TypeDouble)
    (hi : (i : Int) < c.rowCount) :
    c.saveRow i (number_e (c.valueAt i) 16) <:+: save E c ∧
    ((c.valueAt i).isFinite = true →
      number_e (c.valueAt i) 16 = String.mk
        ((if (c.valueAt i).negative then ['-'] else []) ++
          (significandDigits 16 ((c.valueAt i).scientific 16).1).take 1 ++
          '.' :: (significandDigits 16 ((c.valueAt i).scientific 16).1).drop 1 ++
          'e' :: exponentDigits ((c.valueAt i).scientific 16).2) ∧
      ((significandDigits 16 ((c.valueAt i).scientific 16).1).take 1).length = 1 ∧
      ((significandDigits 16 ((c.valueAt i).scientific 16).1).drop 1).length = 16 ∧
      (∀ ch ∈ significandDigits 16 ((c.valueAt i).scientific 16).1, ch.isDigit = true) ∧
      ((c.valueAt i).magnitude.1 ≠ 0 →
        ∃ d, (significandDigits 16 ((c.valueAt i).scientific 16).1).take 1 = [d] ∧ d ≠ '0')) ∧
    ((c.valueAt i).isFinite = false →
      number_e (c.valueAt i) 16 = "inf" ∨ number_e (c.valueAt i) 16 = "-inf" ∨
        number_e (c.valueAt i) 16 = "nan") := by
  have htext : c.rowText E i = number_e (c.valueAt i) 16 := by
    unfold rowText
    rw [ht]
    exact hE _
  refine ⟨?_, fun hf => ?_, fun hf => ?_⟩
  · rw [← htext]
    exact saveRow_infix_save E c i hi
  · have hf2 : (c.valueAt i).exponentBits < 2047 := by simpa [QDouble.isFinite] using hf
    refine ⟨number_e_finite _ 16 hf (by norm_num), ?_, ?_, significandDigits_isDigit _ _, ?_⟩
    · simp [significandDigits_length]
    · simp [significandDigits_length]
    · intro hz
      obtain ⟨b1, b2⟩ := (c.valueAt i).significand_bounds 16 hf2 hz
      obtain ⟨d, h1, _, h3⟩ := significandDigits_head 16 _ b1 b2
      exact ⟨d, h1, h3⟩
  · have hf2 : (c.valueAt i).exponentBits = 2047 := by
      have h1 : ¬ (c.valueAt i).exponentBits < 2047 := by simpa [QDouble.isFinite] using hf
      have h2 : (c.valueAt i).exponentBits < 2048 := Nat.mod_lt _ (by norm_num)
      omega
    unfold number_e
    rw [if_pos hf2]
    split
    · split
      · exact Or.inr (Or.inl rfl)
      · exact Or.inl rfl
    · exact Or.inr (Or.inr rfl)

/-- Witness of C22, amended: row 1 of the numeric column with the rows 1.0 and 0.1. -/
theorem save_writes_sixteen_digits_after_the_point_witness :
    ((∀ v, sampleExternalsQtNumber.number_e16 v = number_e v 16) ∧
      oneAndOneTenth.dataType = .TypeDouble ∧ ((1 : Nat) : Int) < oneAndOneTenth.rowCount) ∧
    oneAndOneTenth.saveRow 1 (number_e (oneAndOneTenth.valueAt 1) 16) <:+:
      save sampleExternalsQtNumber oneAndOneTenth :=
  ⟨⟨fun _ => rfl, by decide, by decide⟩,
   (save_writes_sixteen_digits_after_the_point sampleExternalsQtNumber oneAndOneTenth 1
      (fun _ => rfl) (by decide) (by decide)).1⟩

/-- C23 does not hold on the code.  The numeric column with the rows 1.0, 2.0, 3.0 of
which row 1 is masked is saved, the rows written as Qt writes them, and loaded into a new
numeric column: `load` returns true, the masked intervals are `[[1, 1]]`, and there are
no rows.  `XmlReadMask` leaves the reader on the start element of the mask, the loop of
`load` reads the end element of the mask next and ends there, with the three row elements
unread.  With the sample conversions, which read back what they write, the same happens,
and without the mask the three rows come back. -/
theorem save_load_with_masked_row_loses_rows :
    ((oneTwoThreeRowOneMasked.rowCount = 3 ∧
        oneTwoThreeRowOneMasked.maskedIntervals = [⟨1, 1⟩]) ∧
      (load sampleExternalsQtNumber (create "new" .Numeric)
        (readerAt (save sampleExternalsQtNumber oneTwoThreeRowOneMasked))).1 = true ∧
      (load sampleExternalsQtNumber (create "new" .Numeric)
        (readerAt (save sampleExternalsQtNumber oneTwoThreeRowOneMasked))).2.1.maskedIntervals =
          [⟨1, 1⟩] ∧
      (load sampleExternalsQtNumber (create "new" .Numeric)
        (readerAt (save sampleExternalsQtNumber oneTwoThreeRowOneMasked))).2.1.rowCount = 0 ∧
      (load sampleExternalsQtNumber (create "new" .Numeric)
        (readerAt (save sampleExternalsQtNumber oneTwoThreeRowOneMasked))).2.2.input.take 2 =
          [.StartElement "row" [("type", "Double"), ("index", "0"), ("invalid", "no")],
           .Characters "1.0000000000000000e+00"]) ∧
    ((maskedNumericColumn.rowCount = 3 ∧ maskedNumericColumn.maskedIntervals = [⟨1, 1⟩]) ∧
      (load sampleExternals (create "new" .Numeric)
        (readerAt (save sampleExternals maskedNumericColumn))).1 = true ∧
      (load sampleExternals (create "new" .Numeric)
        (readerAt (save sampleExternals maskedNumericColumn))).2.1.maskedIntervals = [⟨1, 1⟩] ∧
      (load sampleExternals (create "new" .Numeric)
        (readerAt (save sampleExternals maskedNumericColumn))).2.1.rowCount = 0 ∧
      (load sampleExternals (create "new" .Numeric)
        (readerAt (save sampleExternals maskedNumericColumn))).2.2.current =
          .EndElement "mask") ∧
    ((load sampleExternals (create "new" .Numeric)
        (readerAt (save sampleExternals numericColumn))).1 = true ∧
      (load sampleExternals (create "new" .Numeric)
        (readerAt (save sampleExternals numericColumn))).2.1.rowCount = 3 ∧
      (load sampleExternals (create "new" .Numeric)
        (readerAt (save sampleExternals numericColumn))).2.1.d_column_private.d_data =
          numericColumn.d_column_private.d_data) := by
  decide

/-- C26: on a mask element whose `start_row` is the integer `s` and whose `end_row` is not
empty, integer or not, `XmlReadMask` returns true, leaves the reader as it was, so raises
no error, and calls `setMasked(Interval(s, s))`: afterwards a row is masked exactly when it
was masked before or is `s`, and on a column without masks the masked intervals are
`[[s, s]]`. -/
theorem XmlReadMask_masks_start_row_only (E : Externals) (c : Column) (r : QXmlStreamReader)
    (s : Int)
    (hs : toInt (value r.attributes "start_row") = (s, true))
    (he : value r.attributes "end_row" ≠ "") :
    XmlReadMask E c r = (true, c.setMasked E ⟨s, s⟩ true, r) ∧
    (XmlReadMask E c r).2.2.error = r.error ∧
    (∀ row : Int, (XmlReadMask E c r).2.1.isMasked row = (c.isMasked row || decide (row = s))) ∧
    (c.maskedIntervals = [] → (XmlReadMask E c r).2.1.maskedIntervals = [⟨s, s⟩]) := by
  have h := XmlReadMask_integer_start E c r s hs he
  rw [h]
  refine ⟨rfl, rfl, fun row => ?_, fun h0 => setMasked_first E c s h0⟩
  show (c.setMasked E ⟨s, s⟩ true).isMasked row = _
  rw [setMasked_isMasked]
  congr 1
  rw [Bool.eq_iff_iff]
  simp only [Interval.contains, Bool.and_eq_true, decide_eq_true_eq]
  omega

/-- Witness of C26: a mask element with `start_row="2"` and `end_row="seven"`. -/
theorem XmlReadMask_masks_start_row_only_witness :
    (toInt (value (QXmlStreamReader.attributes
        ⟨.StartElement "mask" [("start_row", "2"), ("end_row", "seven")],
          [.EndElement "mask"], none⟩) "start_row") = (2, true) ∧
      value (QXmlStreamReader.attributes
        ⟨.StartElement "mask" [("start_row", "2"), ("end_row", "seven")],
          [.EndElement "mask"], none⟩) "end_row" ≠ "") ∧
    XmlReadMask sampleExternals numericColumn
        ⟨.StartElement "mask" [("start_row", "2"), ("end_row", "seven")],
          [.EndElement "mask"], none⟩ =
      (true, numericColumn.setMasked sampleExternals ⟨2, 2⟩ true,
        ⟨.StartElement "mask" [("start_row", "2"), ("end_row", "seven")],
          [.EndElement "mask"], none⟩) :=
  ⟨⟨by decide, by decide⟩,
   (XmlReadMask_masks_start_row_only sampleExternals numericColumn
      ⟨.StartElement "mask" [("start_row", "2"), ("end_row", "seven")], [.EndElement "mask"],
        none⟩ 2 (by decide) (by decide)).1⟩

/-- C27 does not hold on the code.  `XmlReadFormula` stores the flags of both conversions in
`ok1` and tests `ok2`, which it never sets.  The same `column` element, with one formula
child whose `start_row` and `end_row` are the integers 1 and 3, loads with the value true
when the unset flag reads true, and fails with "invalid start or end row" when it reads
false, the formula text then being lost. -/
theorem XmlReadFormula_error_depends_on_unset_flag :
    ((load sampleExternals (create "txt" .Text) (readerAt formulaOneToThree)).1 = true ∧
     (load sampleExternals (create "txt" .Text) (readerAt formulaOneToThree)).2.2.error = false ∧
     (load sampleExternals (create "txt" .Text) (readerAt formulaOneToThree)).2.1.formula 1 =
        "col(1)") ∧
    ((load sampleExternalsFlagFalse (create "txt" .Text) (readerAt formulaOneToThree)).1 = false ∧
     (load sampleExternalsFlagFalse (create "txt" .Text)
        (readerAt formulaOneToThree)).2.2.errorString =
          some "XML read error: invalid start or end row (loading failed)" ∧
     (load sampleExternalsFlagFalse (create "txt" .Text)
        (readerAt formulaOneToThree)).2.1.formula 1 = "") := by
  decide

/-- C28 as stated fails for a `column` element without `creation_time`: after `load` has
failed with "column type or mode invalid" the name, the caption spec and the mode are
those of the stream, but the creation time is the one the column had. -/
theorem load_mismatch_keeps_creation_time :
    stampedColumn.creationTime = ⟨⟨some 2451545⟩, ⟨some 0⟩⟩ ∧
    (load sampleExternals stampedColumn (readerAt mismatchWithoutCreationTime)).1 = false ∧
    (load sampleExternals stampedColumn (readerAt mismatchWithoutCreationTime)).2.2.errorString =
      some "XML read error: column type or mode invalid (loading failed)" ∧
    (load sampleExternals stampedColumn (readerAt mismatchWithoutCreationTime)).2.1.creationTime =
      stampedColumn.creationTime ∧
    (load sampleExternals stampedColumn (readerAt mismatchWithoutCreationTime)).2.1.name = "new" ∧
    (load sampleExternals stampedColumn (readerAt mismatchWithoutCreationTime)).2.1.captionSpec =
      "%n" ∧
    (load sampleExternals stampedColumn (readerAt mismatchWithoutCreationTime)).2.1.columnMode =
      .Text := by
  decide

/-- C28, amended.  On a `column` element with a label, recognised type `t` and recognised
mode `m`, if `t` is not the data type of the column after `setColumnMode(m)`, `load`
returns false with the error "column type or mode invalid", and the column then has mode
`m`, the label as name, the `caption_spec` attribute as caption spec, and as creation time
the `creation_time` attribute converted if it is present and not empty, else the creation
time it had. -/
theorem load_type_mode_mismatch_after_mode_change (E : Externals) (c : Column)
    (attribs : List (String × String)) (input : List Token) (err : Option String)
    (t : ColumnDataType) (m : ColumnMode)
    (hlabel : value attribs "label" ≠ "")
    (htype : ColumnDataType.enumStringToValue (value attribs "type") = some t)
    (hmode : ColumnMode.enumStringToValue (value attribs "mode") = some m)
    (hne : t ≠ (c.setColumnMode E m).dataType) :
    (load E c ⟨.StartElement "column" attribs, input, err⟩).1 = false ∧
    (load E c ⟨.StartElement "column" attribs, input, err⟩).2.2.errorString =
      some "XML read error: column type or mode invalid (loading failed)" ∧
    (load E c ⟨.StartElement "column" attribs, input, err⟩).2.1.columnMode = m ∧
    (load E c ⟨.StartElement "column" attribs, input, err⟩).2.1.name = value attribs "label" ∧
    (load E c ⟨.StartElement "column" attribs, input, err⟩).2.1.captionSpec =
      value attribs "caption_spec" ∧
    (load E c ⟨.StartElement "column" attribs, input, err⟩).2.1.creationTime =
      if value attribs "creation_time" = "" then c.creationTime
      else E.dateTimeFromString (value attribs "creation_time") := by
  rw [load_header E c attribs input err t m hlabel htype hmode, if_pos hne]
  obtain ⟨a1, a2, a3⟩ := withAspectAttributes_aspect E c attribs
  refine ⟨rfl, rfl, setColumnMode_columnMode E _ m, ?_, ?_, ?_⟩
  · exact (setColumnMode_name E _ m).trans a1
  · exact (setColumnMode_captionSpec E _ m).trans a2
  · exact (setColumnMode_creationTime E _ m).trans a3

/-- Witness of C28, amended: a numeric column and a `column` element of type `Double` and
mode `Text`. -/
theorem load_type_mode_mismatch_after_mode_change_witness :
    ColumnDataType.TypeDouble ≠ (numericColumn.setColumnMode sampleExternals .Text).dataType ∧
    (load sampleExternals numericColumn
      ⟨.StartElement "column"
        [("creation_time", "2451545"), ("label", "a"), ("type", "Double"), ("mode", "Text")],
        [.EndElement "column"], none⟩).2.1.columnMode = .Text ∧
    (load sampleExternals numericColumn
      ⟨.StartElement "column"
        [("creation_time", "2451545"), ("label", "a"), ("type", "Double"), ("mode", "Text")],
        [.EndElement "column"], none⟩).2.1.name = "a" :=
  have h := load_type_mode_mismatch_after_mode_change sampleExternals numericColumn
    [("creation_time", "2451545"), ("label", "a"), ("type", "Double"), ("mode", "Text")]
    [.EndElement "column"] none .TypeDouble .Text (by decide) (by decide) (by decide) (by decide)
  ⟨by decide, h.2.2.1, h.2.2.2.1⟩

/-- C29: on a `column` element with a label and recognised, consistent type and mode:
with `plot_designation` absent or empty `load` goes on to the children with the plot
designation set to `noDesignation`, which it still is when `load` returns; with a value
that is not empty and names no enumerant `load` returns false with the error "column plot
designation invalid"; with the name of an enumerant `load` goes on to the children with
that plot designation, which it still is when `load` returns. -/
theorem load_plot_designation (E : Externals) (c : Column)
    (attribs : List (String × String)) (input : List Token) (err : Option String)
    (t : ColumnDataType) (m : ColumnMode)
    (hlabel : value attribs "label" ≠ "")
    (htype : ColumnDataType.enumStringToValue (value attribs "type") = some t)
    (hmode : ColumnMode.enumStringToValue (value attribs "mode") = some m)
    (heq : t = (c.setColumnMode E m).dataType) :
    (value attribs "plot_designation" = "" →
      load E c ⟨.StartElement "column" attribs, input, err⟩ =
        readChildren E (input.length + 2)
          (((withAspectAttributes E c attribs).setColumnMode E m).setPlotDesignation E
            .noDesignation) ⟨.StartElement "column" attribs, input, err⟩ ∧
      (load E c ⟨.StartElement "column" attribs, input, err⟩).2.1.plotDesignation =
        .noDesignation) ∧
    (value attribs "plot_designation" ≠ "" →
      PlotDesignation.enumStringToValue (value attribs "plot_designation") = none →
      (load E c ⟨.StartElement "column" attribs, input, err⟩).1 = false ∧
      (load E c ⟨.StartElement "column" attribs, input, err⟩).2.2.error = true ∧
      (load E c ⟨.StartElement "column" attribs, input, err⟩).2.2.errorString =
        some "XML read error: column plot designation invalid (loading failed)") ∧
    (∀ pd, PlotDesignation.enumStringToValue (value attribs "plot_designation") = some pd →
      load E c ⟨.StartElement "column" attribs, input, err⟩ =
        readChildren E (input.length + 2)
          (((withAspectAttributes E c attribs).setColumnMode E m).setPlotDesignation E pd)
          ⟨.StartElement "column" attribs, input, err⟩ ∧
      (load E c ⟨.StartElement "column" attribs, input, err⟩).2.1.plotDesignation = pd) := by
  have hl := load_header E c attribs input err t m hlabel htype hmode
  rw [if_neg (not_not.mpr heq)] at hl
  refine ⟨fun h0 => ?_, fun h0 hn => ?_, fun pd hp => ?_⟩
  · rw [if_pos h0] at hl
    refine ⟨hl, ?_⟩
    rw [hl, readChildren_plotDesignation, setPlotDesignation_plotDesignation]
  · rw [if_neg h0, hn] at hl
    rw [hl]
    exact ⟨rfl, rfl, rfl⟩
  · have h0 : value attribs "plot_designation" ≠ "" := by
      intro h; rw [h, plotDesignation_enumStringToValue_empty] at hp; cases hp
    rw [if_neg h0, hp] at hl
    refine ⟨hl, ?_⟩
    rw [hl, readChildren_plotDesignation, setPlotDesignation_plotDesignation]

/-- Witness of C29: a numeric `column` element without `plot_designation`, with the
unknown value `W`, and with the value `Y`. -/
theorem load_plot_designation_witness :
    (load sampleExternals numericColumn
      ⟨.StartElement "column" [("label", "a"), ("type", "Double"), ("mode", "Numeric")],
        [.EndElement "column"], none⟩).2.1.plotDesignation = .noDesignation ∧
    (load sampleExternals numericColumn
      ⟨.StartElement "column"
        [("label", "a"), ("type", "Double"), ("mode", "Numeric"), ("plot_designation", "W")],
        [.EndElement "column"], none⟩).1 = false ∧
    (load sampleExternals numericColumn
      ⟨.StartElement "column"
        [("label", "a"), ("type", "Double"), ("mode", "Numeric"), ("plot_designation", "Y")],
        [.EndElement "column"], none⟩).2.1.plotDesignation = .Y :=
  ⟨((load_plot_designation sampleExternals numericColumn
      [("label", "a"), ("type", "Double"), ("mode", "Numeric")] [.EndElement "column"] none
      .TypeDouble .Numeric (by decide) (by decide) (by decide) (by decide)).1 (by decide)).2,
   ((load_plot_designation sampleExternals numericColumn
      [("label", "a"), ("type", "Double"), ("mode", "Numeric"), ("plot_designation", "W")]
      [.EndElement "column"] none .TypeDouble .Numeric (by decide) (by decide) (by decide)
      (by decide)).2.1 (by decide) (by decide)).1,
   ((load_plot_designation sampleExternals numericColumn
      [("label", "a"), ("type", "Double"), ("mode", "Numeric"), ("plot_designation", "Y")]
      [.EndElement "column"] none .TypeDouble .Numeric (by decide) (by decide) (by decide)
      (by decide)).2.2 .Y (by decide)).2⟩

/-- C30 as stated fails for a cell without a valid time: on a date-time column whose row 0
is empty, `setDateAt(0, d)` with a valid date writes `QDateTime(d, QTime())`, in which Qt
sets the time to midnight, so `timeAt(0)` is 00:00 afterwards and was the null time
before. -/
theorem setDateAt_sets_midnight_on_empty_cell :
    dateTimeColumnWithEmptyRow.rowCount = 1 ∧
    dateTimeColumnWithEmptyRow.timeAt 0 = ⟨none⟩ ∧
    (dateTimeColumnWithEmptyRow.setDateAt sampleExternals 0 ⟨some 2451545⟩).dateTimeAt 0 =
      ⟨⟨some 2451545⟩, ⟨some 0⟩⟩ ∧
    (dateTimeColumnWithEmptyRow.setDateAt sampleExternals 0 ⟨some 2451545⟩).timeAt 0 ≠
      dateTimeColumnWithEmptyRow.timeAt 0 := by
  decide

/-- C30, amended.  `setDateAt(row, d)` is the execution of one `ColumnSetDateTimeCmd` with
the value `QDateTime(d, timeAt(row))`, and `setTimeAt(row, t)` that of one with the value
`QDateTime(dateAt(row), t)`, date and time being read before the call.  `setTimeAt`
leaves `dateAt(row)` as it was.  On a date-time column and for a row that is not
negative, after `setDateAt` the date of the row is `d` and its time is the time it had,
or midnight if `d` is valid and that time was not; after `setTimeAt` the time of the row
is `t`, or midnight if the date of the row is valid and `t` is not. -/
theorem setDateAt_setTimeAt_write_one_date_time (E : Externals) (c : Column) (row : Int)
    (d : QDate) (t : QTime) :
    (c.setDateAt E row d =
        c.exec E (.ColumnSetDateTimeCmd row (QDateTime.ofDateAndTime d (c.timeAt row))) ∧
      (c.setDateAt E row d).undoStack.commands =
        .ColumnSetDateTimeCmd row (QDateTime.ofDateAndTime d (c.timeAt row)) ::
          c.undoStack.commands) ∧
    (c.setTimeAt E row t =
        c.exec E (.ColumnSetDateTimeCmd row (QDateTime.ofDateAndTime (c.dateAt row) t)) ∧
      (c.setTimeAt E row t).undoStack.commands =
        .ColumnSetDateTimeCmd row (QDateTime.ofDateAndTime (c.dateAt row) t) ::
          c.undoStack.commands) ∧
    (c.setTimeAt E row t).dateAt row = c.dateAt row ∧
    (c.dataType = .TypeQDateTime → 0 ≤ row →
      (c.setDateAt E row d).dateAt row = d ∧
      (c.setDateAt E row d).timeAt row =
        (if d.isValid && !(c.timeAt row).isValid then QTime.midnight else c.timeAt row) ∧
      (c.setTimeAt E row t).timeAt row =
        (if (c.dateAt row).isValid && !t.isValid then QTime.midnight else t)) := by
  refine ⟨⟨rfl, exec_commands E c _⟩, ⟨rfl, exec_commands E c _⟩, setTimeAt_dateAt E c row t,
    fun ht h0 => ?_⟩
  have h1 : (c.setDateAt E row d).dateTimeAt row = QDateTime.ofDateAndTime d (c.timeAt row) :=
    dateTimeAt_replaceDateTimes c.d_column_private row _ ht h0
  have h2 : (c.setTimeAt E row t).dateTimeAt row = QDateTime.ofDateAndTime (c.dateAt row) t :=
    dateTimeAt_replaceDateTimes c.d_column_private row _ ht h0
  refine ⟨?_, ?_, ?_⟩
  · show ((c.setDateAt E row d).dateTimeAt row).date = d
    rw [h1]; rfl
  · show ((c.setDateAt E row d).dateTimeAt row).time = _
    rw [h1]; rfl
  · show ((c.setTimeAt E row t).dateTimeAt row).time = _
    rw [h2]; rfl

/-- Witness of C30, amended: a date and a time set on the empty row of a date-time
column. -/
theorem setDateAt_setTimeAt_write_one_date_time_witness :
    (dateTimeColumnWithEmptyRow.dataType = .TypeQDateTime ∧ (0 : Int) ≤ 0) ∧
    (dateTimeColumnWithEmptyRow.setDateAt sampleExternals 0 ⟨some 2451545⟩).dateAt 0 =
      ⟨some 2451545⟩ ∧
    (dateTimeColumnWithEmptyRow.setTimeAt sampleExternals 0 ⟨some 1000⟩).dateAt 0 =
      dateTimeColumnWithEmptyRow.dateAt 0 :=
  have h := setDateAt_setTimeAt_write_one_date_time sampleExternals dateTimeColumnWithEmptyRow 0
    ⟨some 2451545⟩ ⟨some 1000⟩
  ⟨⟨by decide, by decide⟩, (h.2.2.2 (by decide) (by decide)).1, h.2.2.1⟩

end Column
end AlphaPlot
